import Mathlib

/-!
Verification development for the circuit-rewrite core of this repository.

The development shallowly embeds:
* the operator record consumed by the rewrite passes
  (src/pennylane/transforms/optimization.py), with the per-kind flags
  `is_self_inverse`, `is_symmetric_over_wires`, `is_composable_rotation`
  carried as data on the operator (they are class attributes of the gate
  kinds in the source);
* the adjacency scanner `_find_next_gate` and the three passes
  `cancel_inverses`, `merge_rotations`, `single_qubit_fusion`;
* the gate matrices of src/pennylane/ops/qubit/non_parametric_ops.py over
  the cyclotomic field Q(zeta16), together with the decomposition lists of
  that file and the full-space embedding engine of the spec (section 4.6);
* the `MultiControlledX` construction-time validation;
* a real/complex model of the single-qubit fusion pass for the matrix-level
  fusion claim.

Rational parameters stand for the floating-point parameters of the source;
all angle arithmetic exercised here is exact in the source as well.
-/

namespace PennyLane

/-- An applied operator as consumed by the rewrite passes: gate tag, ordered
wire list, ordered parameter list, and the per-kind static flags read by the
passes (class attributes of the gate kinds in the source). -/
structure Operation where
  name : String
  wires : List ℕ
  parameters : List ℚ
  is_self_inverse : Bool
  is_symmetric_over_wires : Bool
  is_composable_rotation : Bool
  num_wires : ℕ
deriving DecidableEq, Repr

instance : Inhabited Operation := ⟨⟨"", [], [], false, false, false, 0⟩⟩

/-- A measurement specification: the observed wires and an observable tag. -/
structure Measurement where
  wires : List ℕ
  obs : String
deriving DecidableEq, Repr

/-- The circuit tape: an ordered operator list followed by an ordered
measurement list. -/
structure Tape where
  operations : List Operation
  measurements : List Measurement
deriving DecidableEq, Repr

/-- `Wires.unique_wires [w, v] == 0` in the source: the two wire collections
are equal as sets (empty symmetric difference). -/
def sameSet (w v : List ℕ) : Bool :=
  w.all (fun x => x ∈ v) && v.all (fun x => x ∈ w)

/-- `Wires.shared_wires [w, v] == 0` in the source: the two wire collections
are disjoint. -/
def disjointW (w v : List ℕ) : Bool :=
  w.all (fun x => x ∉ v)

/-- `_find_next_gate` of src/pennylane/transforms/optimization.py: scan the
list for the first operator whose wire set equals `wires` as a set, skipping
operators on disjoint wires and stopping (with no result) at the first
operator whose wires partially overlap `wires`. -/
def find_next_gate (wires : List ℕ) : List Operation → Option ℕ
  | [] => none
  | op :: rest =>
    if sameSet wires op.wires then some 0
    else if disjointW wires op.wires then (find_next_gate wires rest).map (· + 1)
    else none

theorem eraseIdx_length_le (l : List α) (i : ℕ) : (l.eraseIdx i).length ≤ l.length := by
  induction l generalizing i with
  | nil => simp [List.eraseIdx]
  | cons a t ih =>
    cases i with
    | zero => simp [List.eraseIdx]
    | succ n =>
      simp only [List.eraseIdx, List.length_cons]
      exact Nat.succ_le_succ (ih n)

/-- `cancel_inverses` of src/pennylane/transforms/optimization.py, on the
operator list: walk from the front; emit non-self-inverse heads; for a
self-inverse head, look for the next gate on the same wire set and cancel
the pair when the names match and the wires are equal in order, or differ
in order but the gate is flagged symmetric over its wires. -/
def cancel_inverses : List Operation → List Operation
  | [] => []
  | current :: rest =>
    if current.is_self_inverse = false then current :: cancel_inverses rest
    else
      match find_next_gate current.wires rest with
      | none => current :: cancel_inverses rest
      | some i =>
        let next := rest.getD i default
        if current.name = next.name then
          if current.wires = next.wires then cancel_inverses (rest.eraseIdx i)
          else if current.is_symmetric_over_wires then cancel_inverses (rest.eraseIdx i)
          else current :: cancel_inverses rest
        else current :: cancel_inverses rest
termination_by l => l.length
decreasing_by
  all_goals simp only [List.length_cons]
  all_goals first
    | exact Nat.lt_succ_of_le (eraseIdx_length_le _ _)
    | exact Nat.lt_succ_self _

/-- `np.allclose(angles, zeros)` with the numpy defaults used by the source:
absolute tolerance 1e-8 (the relative part vanishes against zero). -/
def allcloseZero (angles : List ℚ) : Bool :=
  angles.all (fun a => |a| ≤ 1 / 100000000)

/-- `merge_rotations` of src/pennylane/transforms/optimization.py, on the
operator list. `fuse_rot` lives in optimization_utils (not under src), so the
pass is parameterized by it; the single-parameter branch sums the leading
angles exactly as the source does. -/
def merge_rotations (fuse_rot : List ℚ → List ℚ → List ℚ) : List Operation → List Operation
  | [] => []
  | current :: rest =>
    if current.is_composable_rotation = false then current :: merge_rotations fuse_rot rest
    else
      match find_next_gate current.wires rest with
      | none => current :: merge_rotations fuse_rot rest
      | some i =>
        let next := rest.getD i default
        if current.name = next.name ∧ current.wires = next.wires then
          let combined :=
            if current.name = "Rot" then fuse_rot current.parameters next.parameters
            else [current.parameters.getD 0 0 + next.parameters.getD 0 0]
          if allcloseZero combined then merge_rotations fuse_rot (rest.eraseIdx i)
          else { current with parameters := combined } :: merge_rotations fuse_rot (rest.eraseIdx i)
        else current :: merge_rotations fuse_rot rest
termination_by l => l.length
decreasing_by
  all_goals simp only [List.length_cons]
  all_goals first
    | exact Nat.lt_succ_of_le (eraseIdx_length_le _ _)
    | exact Nat.lt_succ_self _

/-- The generic three-angle rotation operator a fusion emits
(`Rot(*combined_angles, wires=current_gate.wires)`). -/
def rotOperation (params : List ℚ) (wires : List ℕ) : Operation :=
  ⟨"Rot", wires, params, false, false, true, 1⟩

/-- `single_qubit_fusion` of src/pennylane/transforms/optimization.py, on the
operator list. `fuse_rot` and `convert_to_rot` live in optimization_utils
(not under src), so the pass is parameterized by both. -/
def single_qubit_fusion (fuse_rot : List ℚ → List ℚ → List ℚ)
    (convert_to_rot : Operation → List ℚ) : List Operation → List Operation
  | [] => []
  | current :: rest =>
    if 1 < current.num_wires then current :: single_qubit_fusion fuse_rot convert_to_rot rest
    else
      match find_next_gate current.wires rest with
      | none => current :: single_qubit_fusion fuse_rot convert_to_rot rest
      | some i =>
        let next := rest.getD i default
        if current.wires = next.wires then
          let a1 := if current.name = "Rot" then current.parameters else convert_to_rot current
          let a2 := if next.name = "Rot" then next.parameters else convert_to_rot next
          let combined := fuse_rot a1 a2
          if allcloseZero combined then
            single_qubit_fusion fuse_rot convert_to_rot (rest.eraseIdx i)
          else
            rotOperation combined current.wires ::
              single_qubit_fusion fuse_rot convert_to_rot (rest.eraseIdx i)
        else current :: single_qubit_fusion fuse_rot convert_to_rot rest
termination_by l => l.length
decreasing_by
  all_goals simp only [List.length_cons]
  all_goals first
    | exact Nat.lt_succ_of_le (eraseIdx_length_le _ _)
    | exact Nat.lt_succ_self _

/-- Tape-level `cancel_inverses`: surviving operators are re-queued in order
and all measurements are re-queued unchanged at the end. -/
def cancel_inverses_tape (t : Tape) : Tape :=
  ⟨cancel_inverses t.operations, t.measurements⟩

/-- Tape-level `merge_rotations`. -/
def merge_rotations_tape (fuse_rot : List ℚ → List ℚ → List ℚ) (t : Tape) : Tape :=
  ⟨merge_rotations fuse_rot t.operations, t.measurements⟩

/-- Tape-level `single_qubit_fusion`. -/
def single_qubit_fusion_tape (fuse_rot : List ℚ → List ℚ → List ℚ)
    (convert_to_rot : Operation → List ℚ) (t : Tape) : Tape :=
  ⟨single_qubit_fusion fuse_rot convert_to_rot t.operations, t.measurements⟩

end PennyLane

namespace PennyLane

theorem cancel_inverses_length_le (l : List Operation) :
    (cancel_inverses l).length ≤ l.length := by
  induction l using cancel_inverses.induct with
  | case1 => simp [cancel_inverses]
  | case2 op rest h ih => rw [cancel_inverses]; simp [h]; omega
  | case3 op rest h hf ih => rw [cancel_inverses]; simp [h, hf]; omega
  | case4 op rest h i hf next hn hw ih =>
    rw [cancel_inverses]
    simp only [if_neg h, hf]
    rw [if_pos hn, if_pos hw]
    have := eraseIdx_length_le rest i
    simp only [List.length_cons]
    omega
  | case5 op rest h i hf next hn hw hs ih =>
    rw [cancel_inverses]
    simp only [if_neg h, hf]
    rw [if_pos hn, if_neg hw, if_pos hs]
    have := eraseIdx_length_le rest i
    simp only [List.length_cons]
    omega
  | case6 op rest h i hf next hn hw hs ih =>
    rw [cancel_inverses]
    simp only [if_neg h, hf]
    rw [if_pos hn, if_neg hw, if_neg hs]
    simp only [List.length_cons]
    omega
  | case7 op rest h i hf next hn ih =>
    rw [cancel_inverses]
    simp only [if_neg h, hf]
    rw [if_neg hn]
    simp only [List.length_cons]
    omega

theorem merge_rotations_length_le (fuse_rot : List ℚ → List ℚ → List ℚ)
    (l : List Operation) : (merge_rotations fuse_rot l).length ≤ l.length := by
  induction l using merge_rotations.induct fuse_rot with
  | case1 => simp [merge_rotations]
  | case2 op rest h ih => rw [merge_rotations]; simp [h]; omega
  | case3 op rest h hf ih => rw [merge_rotations]; simp [h, hf]; omega
  | case4 op rest h i hf next hm combined hc ih =>
    rw [merge_rotations]
    simp only [if_neg h, hf]
    rw [if_pos hm]
    have := eraseIdx_length_le rest i
    repeat' split
    all_goals simp only [List.length_cons]
    all_goals omega
  | case5 op rest h i hf next hm combined hc ih =>
    rw [merge_rotations]
    simp only [if_neg h, hf]
    rw [if_pos hm]
    have := eraseIdx_length_le rest i
    repeat' split
    all_goals simp only [List.length_cons]
    all_goals omega
  | case6 op rest h i hf next hm ih =>
    rw [merge_rotations]
    simp only [if_neg h, hf]
    rw [if_neg hm]
    simp only [List.length_cons]
    omega

theorem single_qubit_fusion_length_le (fuse_rot : List ℚ → List ℚ → List ℚ)
    (convert_to_rot : Operation → List ℚ) (l : List Operation) :
    (single_qubit_fusion fuse_rot convert_to_rot l).length ≤ l.length := by
  induction l using single_qubit_fusion.induct fuse_rot convert_to_rot with
  | case1 => simp [single_qubit_fusion]
  | case2 op rest h ih => rw [single_qubit_fusion]; simp [h]; omega
  | case3 op rest h hf ih => rw [single_qubit_fusion]; simp [h, hf]; omega
  | case4 op rest h i hf next hw a1 a2 combined hc ih =>
    rw [single_qubit_fusion]
    simp only [if_neg h, hf]
    rw [if_pos hw]
    have := eraseIdx_length_le rest i
    repeat' split
    all_goals simp only [List.length_cons]
    all_goals omega
  | case5 op rest h i hf next hw a1 a2 combined hc ih =>
    rw [single_qubit_fusion]
    simp only [if_neg h, hf]
    rw [if_pos hw]
    have := eraseIdx_length_le rest i
    repeat' split
    all_goals simp only [List.length_cons]
    all_goals omega
  | case6 op rest h i hf next hw ih =>
    rw [single_qubit_fusion]
    simp only [if_neg h, hf]
    rw [if_neg hw]
    simp only [List.length_cons]
    omega

end PennyLane

namespace PennyLane

/-- Concrete flagged operator mirroring `qml.PauliX(wires=0)`: a self-inverse
single-wire gate. -/
def pauliX0 : Operation := ⟨"PauliX", [0], [], true, true, false, 1⟩

/-- Concrete flagged operator mirroring `qml.CZ(wires=[0, 1])`: a self-inverse
two-wire gate. -/
def cz01 : Operation := ⟨"CZ", [0, 1], [], true, true, false, 2⟩

/-- Concrete flagged operator mirroring `qml.Hadamard(wires=0)`. -/
def hadamard0 : Operation := ⟨"Hadamard", [0], [], true, true, false, 1⟩

/-- Concrete flagged operator mirroring `qml.RX(theta, wires=0)`: a
single-parameter composable rotation. -/
def rxGate (theta : ℚ) : Operation := ⟨"RX", [0], [theta], false, false, true, 1⟩

/-- C2: `_find_next_gate(w, L)` returns `some i` exactly when `L[i]` is the
first operator whose wire set equals `w` as a set and every earlier operator
is wire-disjoint from `w` (and not itself a match); and whenever the scan
meets a blocking operator (partial overlap: neither equal as a set nor
disjoint) after a disjoint-only prefix, the result is `none` — the scan never
continues past a blocker. -/
theorem find_next_gate_spec (w : List ℕ) (L : List Operation) :
    (∀ i : ℕ, find_next_gate w L = some i ↔
      (i < L.length ∧ sameSet w ((L.getD i default).wires) = true ∧
        ∀ j, j < i → sameSet w ((L.getD j default).wires) = false ∧
          disjointW w ((L.getD j default).wires) = true)) ∧
    (∀ j : ℕ, j < L.length →
      (∀ k, k < j → sameSet w ((L.getD k default).wires) = false ∧
        disjointW w ((L.getD k default).wires) = true) →
      sameSet w ((L.getD j default).wires) = false →
      disjointW w ((L.getD j default).wires) = false →
      find_next_gate w L = none) := by
  induction L with
  | nil =>
    constructor
    · intro i; simp [find_next_gate]
    · intro j hj; simp at hj
  | cons op rest ih =>
    obtain ⟨ihA, ihB⟩ := ih
    by_cases hs : sameSet w op.wires = true
    · constructor
      · intro i
        simp only [find_next_gate, hs, if_true]
        constructor
        · intro h
          have hi : i = 0 := by
            have := h
            injection this with h0
            omega
          subst hi
          refine ⟨by simp, by simpa using hs, by omega⟩
        · rintro ⟨hi, hsame, hprior⟩
          rcases Nat.eq_zero_or_pos i with h0 | h0
          · subst h0; rfl
          · exact absurd hs (by simpa using (hprior 0 h0).1)
      · intro j hj hprior hsame hdisj
        rcases Nat.eq_zero_or_pos j with h0 | h0
        · subst h0; simp at hsame; exact absurd hs (by simp [hsame])
        · exact absurd hs (by simpa using (hprior 0 h0).1)
    · have hsF : sameSet w op.wires = false := by simpa using hs
      by_cases hd : disjointW w op.wires = true
      · constructor
        · intro i
          simp only [find_next_gate, hsF, if_false, hd, if_true, Bool.false_eq_true]
          constructor
          · intro h
            rcases hmap : find_next_gate w rest with _ | i'
            · rw [hmap] at h; simp at h
            · rw [hmap] at h
              simp at h
              subst h
              obtain ⟨hlt, hsame', hprior'⟩ := (ihA i').mp hmap
              refine ⟨by simpa using Nat.succ_lt_succ hlt, by simpa using hsame', ?_⟩
              intro j hji
              rcases Nat.eq_zero_or_pos j with h0 | h0
              · subst h0; exact ⟨hsF, hd⟩
              · obtain ⟨j', rfl⟩ := Nat.exists_eq_succ_of_ne_zero (Nat.pos_iff_ne_zero.mp h0)
                have := hprior' j' (by omega)
                simpa using this
          · rintro ⟨hi, hsame, hprior⟩
            rcases Nat.eq_zero_or_pos i with h0 | h0
            · subst h0; simp at hsame; exact absurd hsame (by simp [hsF])
            · obtain ⟨i', rfl⟩ := Nat.exists_eq_succ_of_ne_zero (Nat.pos_iff_ne_zero.mp h0)
              have hr : find_next_gate w rest = some i' := by
                apply (ihA i').mpr
                refine ⟨by simpa using Nat.lt_of_succ_lt_succ hi, by simpa using hsame, ?_⟩
                intro j hj
                have := hprior (j + 1) (by omega)
                simpa using this
              rw [hr]; rfl
        · intro j hj hprior hsame hdisj
          rcases Nat.eq_zero_or_pos j with h0 | h0
          · subst h0; simp at hdisj; exact absurd hd (by simp [hdisj])
          · obtain ⟨j', rfl⟩ := Nat.exists_eq_succ_of_ne_zero (Nat.pos_iff_ne_zero.mp h0)
            simp only [find_next_gate, hsF, if_false, hd, if_true, Bool.false_eq_true]
            have hr : find_next_gate w rest = none := by
              apply ihB j' (by simpa using Nat.lt_of_succ_lt_succ hj)
              · intro k hk
                have := hprior (k + 1) (by omega)
                simpa using this
              · simpa using hsame
              · simpa using hdisj
            rw [hr]; rfl
      · have hdF : disjointW w op.wires = false := by simpa using hd
        constructor
        · intro i
          simp only [find_next_gate, hsF, hdF, Bool.false_eq_true, if_false]
          constructor
          · intro h; simp at h
          · rintro ⟨hi, hsame, hprior⟩
            rcases Nat.eq_zero_or_pos i with h0 | h0
            · subst h0; simp at hsame; exact absurd hsame (by simp [hsF])
            · have := (hprior 0 h0).2
              simp at this
              exact absurd this (by simp [hdF])
        · intro j hj hprior hsame hdisj
          simp [find_next_gate, hsF, hdF]

/-- Witness for C2: on `w = [0]` against `[CZ(0,1), PauliX(0)]`, the blocking
branch fires at index 0 (CZ partially overlaps `[0]`) and the scan returns
`none` even though the later `PauliX(0)` is an exact wire match. -/
theorem find_next_gate_spec_witness :
    find_next_gate [0] [cz01, pauliX0] = none :=
  (find_next_gate_spec [0] [cz01, pauliX0]).2 0 (by decide)
    (fun k hk => absurd hk (Nat.not_lt_zero k)) (by decide) (by decide)

end PennyLane

namespace PennyLane

/-- C3: on a self-inverse head whose adjacency search finds a next gate on
the same wire set, `cancel_inverses` drops both when the names match and the
wire sequences are equal in order; drops both when the names match, the wire
sequences differ, and the gate is flagged symmetric over its wires; and in
every other found-match case emits the head unchanged and drops nothing. -/
theorem cancel_inverses_match_cases (g : Operation) (rest : List Operation) (i : ℕ)
    (hself : g.is_self_inverse = true)
    (hfind : find_next_gate g.wires rest = some i) :
    (g.name = (rest.getD i default).name → g.wires = (rest.getD i default).wires →
      cancel_inverses (g :: rest) = cancel_inverses (rest.eraseIdx i)) ∧
    (g.name = (rest.getD i default).name → g.wires ≠ (rest.getD i default).wires →
      g.is_symmetric_over_wires = true →
      cancel_inverses (g :: rest) = cancel_inverses (rest.eraseIdx i)) ∧
    ((g.name ≠ (rest.getD i default).name ∨
      (g.wires ≠ (rest.getD i default).wires ∧ g.is_symmetric_over_wires = false)) →
      cancel_inverses (g :: rest) = g :: cancel_inverses rest) := by
  have hs : ¬ g.is_self_inverse = false := by simp [hself]
  refine ⟨?_, ?_, ?_⟩
  · intro hn hw
    rw [cancel_inverses]
    simp only [if_neg hs, hfind]
    rw [if_pos hn, if_pos hw]
  · intro hn hw hsym
    rw [cancel_inverses]
    simp only [if_neg hs, hfind]
    rw [if_pos hn, if_neg hw, if_pos hsym]
  · intro h
    rw [cancel_inverses]
    simp only [if_neg hs, hfind]
    rcases h with hn | ⟨hw, hsym⟩
    · rw [if_neg hn]
    · by_cases hn : g.name = (rest.getD i default).name
      · rw [if_pos hn, if_neg hw, if_neg (by simp [hsym])]
      · rw [if_neg hn]

/-- Witness for C3: two adjacent Hadamards on wire 0 cancel. -/
theorem cancel_inverses_match_cases_witness :
    cancel_inverses [hadamard0, hadamard0] = cancel_inverses ([hadamard0].eraseIdx 0) :=
  (cancel_inverses_match_cases hadamard0 [hadamard0] 0 rfl (by decide)).1 rfl rfl

/-- C4 counterexample: `cancel_inverses` is not idempotent. On the tape
`[X(0), CZ(0,1), CZ(0,1), X(0)]` (all self-inverse) the first pass is blocked
for the leading X by the partially overlapping CZ, cancels the CZ pair, and
outputs `[X(0), X(0)]`; a second pass cancels that pair, giving `[]`. -/
theorem cancel_inverses_not_idempotent :
    cancel_inverses (cancel_inverses [pauliX0, cz01, cz01, pauliX0]) ≠
      cancel_inverses [pauliX0, cz01, cz01, pauliX0] := by
  have h1 : cancel_inverses [pauliX0, cz01, cz01, pauliX0] = [pauliX0, pauliX0] := by
    simp [cancel_inverses, find_next_gate, pauliX0, cz01, sameSet, disjointW]
  have h2 : cancel_inverses [pauliX0, pauliX0] = [] := by
    simp [cancel_inverses, find_next_gate, pauliX0, sameSet]
  rw [h1, h2]
  simp

/-- C4 amended: one pass of `cancel_inverses` can expose a new adjacent
self-inverse pair, so the pass is not idempotent in general; however, any
tape on which the pass removes no operation is a fixed point: if the output
operation count equals the input count, the output equals the input. -/
theorem cancel_inverses_no_removal_fixed (l : List Operation)
    (h : (cancel_inverses l).length = l.length) : cancel_inverses l = l := by
  induction l using cancel_inverses.induct with
  | case1 => simp [cancel_inverses]
  | case2 op rest hb ih =>
    rw [cancel_inverses] at h ⊢
    simp only [if_pos hb, List.length_cons] at h ⊢
    rw [ih (by omega)]
  | case3 op rest hb hf ih =>
    rw [cancel_inverses] at h ⊢
    simp only [if_neg hb, hf, List.length_cons] at h ⊢
    rw [ih (by omega)]
  | case4 op rest hb i hf next hn hw ih =>
    exfalso
    rw [cancel_inverses] at h
    simp only [if_neg hb, hf] at h
    rw [if_pos hn, if_pos hw] at h
    have h1 := cancel_inverses_length_le (rest.eraseIdx i)
    have h2 := eraseIdx_length_le rest i
    simp only [List.length_cons] at h
    omega
  | case5 op rest hb i hf next hn hw hsym ih =>
    exfalso
    rw [cancel_inverses] at h
    simp only [if_neg hb, hf] at h
    rw [if_pos hn, if_neg hw, if_pos hsym] at h
    have h1 := cancel_inverses_length_le (rest.eraseIdx i)
    have h2 := eraseIdx_length_le rest i
    simp only [List.length_cons] at h
    omega
  | case6 op rest hb i hf next hn hw hsym ih =>
    rw [cancel_inverses] at h ⊢
    simp only [if_neg hb, hf] at h ⊢
    rw [if_pos hn, if_neg hw, if_neg hsym] at h ⊢
    simp only [List.length_cons] at h
    rw [ih (by omega)]
  | case7 op rest hb i hf next hn ih =>
    rw [cancel_inverses] at h ⊢
    simp only [if_neg hb, hf] at h ⊢
    rw [if_neg hn] at h ⊢
    simp only [List.length_cons] at h
    rw [ih (by omega)]

/-- Witness for the amended C4: a single X survives unchanged, and since the
pass removed nothing the output is exactly the input. -/
theorem cancel_inverses_no_removal_fixed_witness :
    cancel_inverses [pauliX0] = [pauliX0] :=
  cancel_inverses_no_removal_fixed [pauliX0]
    (by simp [cancel_inverses, find_next_gate, pauliX0])

/-- C5 counterexample: RX(3e-9) and RX(2e-9) on wire 0 merge to angle 5e-9,
which is outside the claimed 1e-9 absolute tolerance, yet the pass drops the
merged gate entirely (the source uses np.allclose, whose default absolute
tolerance is 1e-8), so the output is empty. -/
theorem merge_rotations_tolerance_cex :
    merge_rotations (fun _ _ => []) [rxGate (3 / 1000000000), rxGate (2 / 1000000000)] = [] ∧
      ¬ |(3 : ℚ) / 1000000000 + 2 / 1000000000| ≤ 1 / 1000000000 := by
  constructor
  · norm_num [merge_rotations, find_next_gate, rxGate, sameSet, allcloseZero]
    exact fun _ => by rw [abs_of_pos (by norm_num)]; norm_num
  · rw [abs_of_pos (by norm_num)]
    norm_num

/-- C5 amended: when `merge_rotations` matches two same-name, same-wire
single-parameter rotations (non-`Rot` kinds), it replaces them by one gate of
the same kind whose angle is the exact sum, dropped exactly when that sum is
within the np.allclose default absolute tolerance 1e-8 of zero; in
particular `[RX(0.3), RX(-0.3)]` on one wire merges to the empty list. -/
theorem merge_rotations_merge_behavior (fuse_rot : List ℚ → List ℚ → List ℚ)
    (g : Operation) (rest : List Operation) (i : ℕ)
    (hcomp : g.is_composable_rotation = true)
    (hfind : find_next_gate g.wires rest = some i)
    (hname : g.name = (rest.getD i default).name)
    (hwires : g.wires = (rest.getD i default).wires)
    (hnrot : g.name ≠ "Rot") :
    (merge_rotations fuse_rot (g :: rest) =
      if |g.parameters.getD 0 0 + (rest.getD i default).parameters.getD 0 0| ≤ 1 / 100000000 then
        merge_rotations fuse_rot (rest.eraseIdx i)
      else
        { g with parameters :=
            [g.parameters.getD 0 0 + (rest.getD i default).parameters.getD 0 0] } ::
          merge_rotations fuse_rot (rest.eraseIdx i)) ∧
    merge_rotations fuse_rot [rxGate (3 / 10), rxGate (-(3 / 10))] = [] := by
  constructor
  · have hb : ¬ g.is_composable_rotation = false := by simp [hcomp]
    rw [merge_rotations]
    simp only [if_neg hb, hfind]
    rw [if_pos ⟨hname, hwires⟩]
    rw [if_neg hnrot]
    simp only [allcloseZero, List.all_cons, List.all_nil, Bool.and_true, decide_eq_true_eq]
  · norm_num [merge_rotations, find_next_gate, rxGate, sameSet, allcloseZero]
    rw [if_neg (show ¬ ("RX" : String) = "Rot" by decide)]
    intro x hx
    simp at hx
    simp [hx]

/-- Witness for the amended C5: RX(1/2) and RX(1/3) merge to a single RX with
angle 5/6. -/
theorem merge_rotations_merge_behavior_witness :
    merge_rotations (fun _ _ => []) [rxGate (1/2), rxGate (1/3)] =
      [{ rxGate (1/2) with parameters := [(1 : ℚ)/2 + 1/3] }] := by
  have h := (merge_rotations_merge_behavior (fun _ _ => []) (rxGate (1/2)) [rxGate (1/3)] 0
    rfl (by decide) rfl rfl (by decide)).1
  rw [h, if_neg (by norm_num [rxGate, List.getD]; rw [abs_of_pos (by norm_num)]; norm_num)]
  norm_num [merge_rotations, rxGate, List.getD]

/-- C7: each of the three rewrite passes never increases the operation count
and reproduces the measurement list exactly, element for element and in
order. -/
theorem passes_count_and_measurements (fuse_rot : List ℚ → List ℚ → List ℚ)
    (convert_to_rot : Operation → List ℚ) (t : Tape) :
    (cancel_inverses_tape t).operations.length ≤ t.operations.length ∧
    (merge_rotations_tape fuse_rot t).operations.length ≤ t.operations.length ∧
    (single_qubit_fusion_tape fuse_rot convert_to_rot t).operations.length ≤
      t.operations.length ∧
    (cancel_inverses_tape t).measurements = t.measurements ∧
    (merge_rotations_tape fuse_rot t).measurements = t.measurements ∧
    (single_qubit_fusion_tape fuse_rot convert_to_rot t).measurements = t.measurements :=
  ⟨cancel_inverses_length_le _, merge_rotations_length_le _ _,
    single_qubit_fusion_length_le _ _ _, rfl, rfl, rfl⟩

end PennyLane

namespace PennyLane

/-- An element of the cyclotomic field Q(zeta), zeta = exp(i*pi/8): 8 integer
coordinates `c` in the power basis 1, zeta, ..., zeta^7 (with zeta^8 = -1)
over a power-of-two denominator 2^e, kept in the canonical form where either
e = 0 or some coordinate is odd. Every matrix entry appearing in
src/pennylane/ops/qubit/non_parametric_ops.py lies in this ring:
i = zeta^4, 1/sqrt(2) = (zeta^2 - zeta^6)/2, exp(i*pi/4) = zeta^2, and the
RZ(7*pi/4) half-angle exp(7*i*pi/8) of the SISWAP decomposition is -zeta^7.
(Integer coordinates are used rather than rationals so that all arithmetic
reduces inside the kernel.) -/
structure K where
  c : List ℤ
  e : ℕ
deriving DecidableEq, Repr

def cget (a : List ℤ) (i : ℕ) : ℤ := a.getD i 0

def zeroC : List ℤ := List.replicate 8 0

def addC (a b : List ℤ) : List ℤ := List.zipWith (fun x y => x + y) a b

def scaleC (n : ℤ) (a : List ℤ) : List ℤ := a.map (fun x => n * x)

/-- Multiplication by zeta on coordinates: shift the power basis up once,
wrapping the top coordinate with a sign (zeta^8 = -1). -/
def shiftC (a : List ℤ) : List ℤ := (-(cget a 7)) :: a.take 7

def mulGoC : List ℤ → List ℤ → List ℤ
  | [], _ => zeroC
  | q :: qs, sa =>
    if q = 0 then mulGoC qs (shiftC sa)
    else addC (scaleC q sa) (mulGoC qs (shiftC sa))

/-- Coordinate product: a * b = sum over j of b_j * zeta^j * a. -/
def mulC (a b : List ℤ) : List ℤ := mulGoC b a

/-- Cancel common factors of two between the coordinates and the denominator
exponent (fuelled by the exponent). -/
def normGo : ℕ → List ℤ → ℕ → K
  | 0, c, e => ⟨c, e⟩
  | fuel + 1, c, e =>
    if e = 0 then ⟨c, 0⟩
    else if c.all (fun x => x % 2 = 0) then normGo fuel (c.map (fun x => x / 2)) (e - 1)
    else ⟨c, e⟩

def normK (c : List ℤ) (e : ℕ) : K := normGo e c e

def K0 : K := ⟨zeroC, 0⟩

def K1 : K := ⟨[1, 0, 0, 0, 0, 0, 0, 0], 0⟩

def Kadd (x y : K) : K :=
  if x.c = zeroC then y
  else if y.c = zeroC then x
  else
    let e := max x.e y.e
    normK (addC (scaleC ((2 : ℤ) ^ (e - x.e)) x.c) (scaleC ((2 : ℤ) ^ (e - y.e)) y.c)) e

def Kmul (x y : K) : K :=
  if x.c = zeroC ∨ y.c = zeroC then K0
  else normK (mulC x.c y.c) (x.e + y.e)

def Kneg (x : K) : K := ⟨scaleC (-1) x.c, x.e⟩

/-- exp(i * k * pi / 8) as an element of K (k may be negative). -/
def eK (k : ℤ) : K :=
  let m := (k % 16).toNat
  if m < 8 then ⟨(List.range 8).map (fun i => if i = m then (1 : ℤ) else 0), 0⟩
  else ⟨(List.range 8).map (fun i => if i = m - 8 then (-1 : ℤ) else 0), 0⟩

def iK : K := eK 4

/-- The constant 1/2 in K. -/
def halfK : K := ⟨[1, 0, 0, 0, 0, 0, 0, 0], 1⟩

/-- cos(k*pi/8) in K. -/
def cosK (k : ℤ) : K := Kmul halfK (Kadd (eK k) (eK (-k)))

/-- sin(k*pi/8) in K. -/
def sinK (k : ℤ) : K := Kmul (Kneg iK) (Kmul halfK (Kadd (eK k) (Kneg (eK (-k)))))

/-- Dense matrices over K, as row lists. -/
abbrev MatK := List (List K)

def dotK (r c : List K) : K := (List.zipWith Kmul r c).foldr Kadd K0

def matMulK (A B : MatK) : MatK :=
  A.map (fun row =>
    (List.range (B.headD []).length).map (fun j => dotK row (B.map (fun br => br.getD j K0))))

def idK (n : ℕ) : MatK :=
  (List.range n).map (fun i => (List.range n).map (fun j => if i = j then K1 else K0))

def smulMatK (c : K) (A : MatK) : MatK := A.map (fun row => row.map (fun x => Kmul c x))

/-- Kronecker product (first factor most significant), as in the tests'
`np.kron`. -/
def kronK (A B : MatK) : MatK :=
  A.flatMap (fun ra => B.map (fun rb => ra.flatMap (fun x => rb.map (fun y => Kmul x y))))

/-- Position of wire `w` in a wire order. -/
def posOf (w : ℕ) : List ℕ → ℕ
  | [] => 0
  | x :: xs => if x = w then 0 else posOf w xs + 1

/-- Bit of full-space basis index `x` on the tensor axis at position `pos` of
an `n`-wire order; the first wire in the order is the most significant axis
(big-endian, section 4.6). -/
def bitAt (n pos x : ℕ) : ℕ := x / 2 ^ (n - 1 - pos) % 2

/-- The local basis index an operator on wires `ws` sees inside full-space
index `x`: the bits of `x` on the operator's wires read in the operator's own
wire-argument order (first listed wire most significant). -/
def subIndex (order ws : List ℕ) (x : ℕ) : ℕ :=
  ws.foldl (fun acc w => 2 * acc + bitAt order.length (posOf w order) x) 0

/-- Modelled from the spec (section 4.6, steps 2-3): embed a local gate matrix
into the full space of `wire_order` by identity padding on absent wires and
aligning the gate's wire-argument order with the order's axes (the
wire-permutation correction). Entry (r, c) is the local matrix entry at the
operator-wire bits of r and c when all other wires agree between r and c, and
0 otherwise. -/
def embedMat (order ws : List ℕ) (M : MatK) : MatK :=
  let n := order.length
  (List.range (2 ^ n)).map (fun r => (List.range (2 ^ n)).map (fun c =>
    if order.all (fun w =>
        decide (w ∈ ws ∨ bitAt n (posOf w order) r = bitAt n (posOf w order) c)) then
      (M.getD (subIndex order ws r) []).getD (subIndex order ws c) K0
    else K0))

/-- An operator as consumed by the embedding engine: ordered wires plus the
local matrix. -/
structure MOp where
  wires : List ℕ
  matrix : MatK

/-- Modelled from the spec: `build_unitary` (`get_unitary_matrix`) is not
under src (only its tests are). Algorithm of section 4.6: start from the
identity on the full space and, for each operator in tape order, left-multiply
the accumulator by the operator's embedded matrix. -/
def build_unitary (ops : List MOp) (wire_order : List ℕ) : MatK :=
  ops.foldl (fun acc op => matMulK (embedMat wire_order op.wires op.matrix) acc)
    (idK (2 ^ wire_order.length))

def invSqrt2K : K := cosK 2

/-- `Hadamard.matrix` of non_parametric_ops.py. -/
def HmatK : MatK := [[invSqrt2K, invSqrt2K], [invSqrt2K, Kneg invSqrt2K]]

/-- `PauliX.matrix`. -/
def XmatK : MatK := [[K0, K1], [K1, K0]]

/-- `PauliY.matrix`. -/
def YmatK : MatK := [[K0, Kneg iK], [iK, K0]]

/-- `PauliZ.matrix`. -/
def ZmatK : MatK := [[K1, K0], [K0, Kneg K1]]

/-- `S.op_matrix`. -/
def SmatK : MatK := [[K1, K0], [K0, iK]]

/-- `T.op_matrix`: diag(1, exp(i*pi/4)). -/
def TmatK : MatK := [[K1, K0], [K0, eK 2]]

/-- `SX.op_matrix`: 0.5 * [[1+i, 1-i], [1-i, 1+i]]. -/
def SXmatK : MatK :=
  [[Kmul halfK (Kadd K1 iK), Kmul halfK (Kadd K1 (Kneg iK))],
   [Kmul halfK (Kadd K1 (Kneg iK)), Kmul halfK (Kadd K1 iK)]]

/-- `CNOT.matrix`. -/
def CNOTmatK : MatK :=
  [[K1, K0, K0, K0], [K0, K1, K0, K0], [K0, K0, K0, K1], [K0, K0, K1, K0]]

/-- `CY.matrix`. -/
def CYmatK : MatK :=
  [[K1, K0, K0, K0], [K0, K1, K0, K0], [K0, K0, K0, Kneg iK], [K0, K0, iK, K0]]

/-- `SWAP.matrix`. -/
def SWAPmatK : MatK :=
  [[K1, K0, K0, K0], [K0, K0, K1, K0], [K0, K1, K0, K0], [K0, K0, K0, K1]]

/-- `ISWAP.op_matrix`. -/
def ISWAPmatK : MatK :=
  [[K1, K0, K0, K0], [K0, K0, iK, K0], [K0, iK, K0, K0], [K0, K0, K0, K1]]

/-- `SISWAP.op_matrix`. -/
def SISWAPmatK : MatK :=
  [[K1, K0, K0, K0],
   [K0, invSqrt2K, Kmul invSqrt2K iK, K0],
   [K0, Kmul invSqrt2K iK, invSqrt2K, K0],
   [K0, K0, K0, K1]]

/-- `CSWAP.matrix`. -/
def CSWAPmatK : MatK :=
  (List.range 8).map (fun i => (List.range 8).map (fun j =>
    if (if i = 5 then 6 else if i = 6 then 5 else i) = j then K1 else K0))

/-- `Toffoli.matrix`. -/
def ToffolimatK : MatK :=
  (List.range 8).map (fun i => (List.range 8).map (fun j =>
    if (if i = 6 then 7 else if i = 7 then 6 else i) = j then K1 else K0))

/-- `MultiControlledX._matrix`: block_diag(I(2*control_int), X,
I(2^(n+1) - 2 - 2*control_int)) for `n` control wires. -/
def MCXmatK (numControls controlInt : ℕ) : MatK :=
  (List.range (2 ^ (numControls + 1))).map (fun r =>
    (List.range (2 ^ (numControls + 1))).map (fun c =>
      if (if r = 2 * controlInt then 2 * controlInt + 1
          else if r = 2 * controlInt + 1 then 2 * controlInt else r) = c
      then K1 else K0))

/-- Modelled from the spec: `PhaseShift(k*pi/4).matrix` = diag(1, exp(i*k*pi/4))
(parametric gates live outside src; standard convention referenced by the
decomposition docstrings). -/
def PhaseShiftK (k : ℤ) : MatK := [[K1, K0], [K0, eK (2 * k)]]

/-- Modelled from the spec: `RX(k*pi/4).matrix` =
[[cos(k*pi/8), -i*sin(k*pi/8)], [-i*sin(k*pi/8), cos(k*pi/8)]]. -/
def RXmatK (k : ℤ) : MatK :=
  [[cosK k, Kmul (Kneg iK) (sinK k)], [Kmul (Kneg iK) (sinK k), cosK k]]

/-- Modelled from the spec: `RY(k*pi/4).matrix`. -/
def RYmatK (k : ℤ) : MatK := [[cosK k, Kneg (sinK k)], [sinK k, cosK k]]

/-- Modelled from the spec: `RZ(k*pi/4).matrix` = diag(exp(-i*k*pi/8),
exp(i*k*pi/8)). -/
def RZmatK (k : ℤ) : MatK := [[eK (-k), K0], [K0, eK k]]

/-- Modelled from the spec: `CRY(k*pi/4).matrix` (controlled RY, first wire
control). -/
def CRYmatK (k : ℤ) : MatK :=
  [[K1, K0, K0, K0], [K0, K1, K0, K0],
   [K0, K0, cosK k, Kneg (sinK k)], [K0, K0, sinK k, cosK k]]

/-- `T(wires).inv()`: the inverse-marked T, whose matrix is the conjugate
transpose diag(1, exp(-i*pi/4)). -/
def TinvmatK : MatK := [[K1, K0], [K0, eK (-2)]]

end PennyLane

namespace PennyLane

/-- `Hadamard.compute_decomposition`: PhaseShift(pi/2), RX(pi/2),
PhaseShift(pi/2), on the gate's wire. -/
def hadamardDecomp : List MOp :=
  [⟨[0], PhaseShiftK 2⟩, ⟨[0], RXmatK 2⟩, ⟨[0], PhaseShiftK 2⟩]

/-- `PauliX.compute_decomposition`: PhaseShift(pi/2), RX(pi), PhaseShift(pi/2). -/
def pauliXDecomp : List MOp :=
  [⟨[0], PhaseShiftK 2⟩, ⟨[0], RXmatK 4⟩, ⟨[0], PhaseShiftK 2⟩]

/-- `PauliY.compute_decomposition`: PhaseShift(pi/2), RY(pi), PhaseShift(pi/2). -/
def pauliYDecomp : List MOp :=
  [⟨[0], PhaseShiftK 2⟩, ⟨[0], RYmatK 4⟩, ⟨[0], PhaseShiftK 2⟩]

/-- `PauliZ.compute_decomposition`: PhaseShift(pi). -/
def pauliZDecomp : List MOp := [⟨[0], PhaseShiftK 4⟩]

/-- `S.compute_decomposition`: PhaseShift(pi/2). -/
def sDecomp : List MOp := [⟨[0], PhaseShiftK 2⟩]

/-- `T.compute_decomposition`: PhaseShift(pi/4). -/
def tDecomp : List MOp := [⟨[0], PhaseShiftK 1⟩]

/-- `SX.compute_decomposition`: RZ(pi/2), RY(pi/2), RZ(-pi), PhaseShift(pi/2). -/
def sxDecomp : List MOp :=
  [⟨[0], RZmatK 2⟩, ⟨[0], RYmatK 2⟩, ⟨[0], RZmatK (-4)⟩, ⟨[0], PhaseShiftK 2⟩]

/-- `CY.compute_decomposition`: CRY(pi) on both wires, S on the control. -/
def cyDecomp : List MOp := [⟨[0, 1], CRYmatK 4⟩, ⟨[0], SmatK⟩]

/-- `SWAP.compute_decomposition`: CNOT(0,1), CNOT(1,0), CNOT(0,1). -/
def swapDecomp : List MOp :=
  [⟨[0, 1], CNOTmatK⟩, ⟨[1, 0], CNOTmatK⟩, ⟨[0, 1], CNOTmatK⟩]

/-- `ISWAP.compute_decomposition`: S(0), S(1), H(0), CNOT(0,1), CNOT(1,0), H(1). -/
def iswapDecomp : List MOp :=
  [⟨[0], SmatK⟩, ⟨[1], SmatK⟩, ⟨[0], HmatK⟩,
   ⟨[0, 1], CNOTmatK⟩, ⟨[1, 0], CNOTmatK⟩, ⟨[1], HmatK⟩]

/-- `SISWAP.compute_decomposition` (12 gates; RZ(7*pi/4) appears twice). -/
def siswapDecomp : List MOp :=
  [⟨[0], SXmatK⟩, ⟨[0], RZmatK 2⟩, ⟨[0, 1], CNOTmatK⟩, ⟨[0], SXmatK⟩,
   ⟨[0], RZmatK 7⟩, ⟨[0], SXmatK⟩, ⟨[0], RZmatK 2⟩, ⟨[1], SXmatK⟩,
   ⟨[1], RZmatK 7⟩, ⟨[0, 1], CNOTmatK⟩, ⟨[0], SXmatK⟩, ⟨[1], SXmatK⟩]

/-- `CSWAP.compute_decomposition`: Toffoli(0,2,1), Toffoli(0,1,2),
Toffoli(0,2,1). -/
def cswapDecomp : List MOp :=
  [⟨[0, 2, 1], ToffolimatK⟩, ⟨[0, 1, 2], ToffolimatK⟩, ⟨[0, 2, 1], ToffolimatK⟩]

/-- `Toffoli.compute_decomposition` (15 gates). -/
def toffoliDecomp : List MOp :=
  [⟨[2], HmatK⟩, ⟨[1, 2], CNOTmatK⟩, ⟨[2], TinvmatK⟩, ⟨[0, 2], CNOTmatK⟩,
   ⟨[2], TmatK⟩, ⟨[1, 2], CNOTmatK⟩, ⟨[2], TinvmatK⟩, ⟨[0, 2], CNOTmatK⟩,
   ⟨[2], TmatK⟩, ⟨[1], TmatK⟩, ⟨[0, 1], CNOTmatK⟩, ⟨[2], HmatK⟩,
   ⟨[0], TmatK⟩, ⟨[1], TinvmatK⟩, ⟨[0, 1], CNOTmatK⟩]

/-- `MultiControlledX.compute_decomposition` with one control wire and
control string "0": PauliX flips around a CNOT. -/
def mcx1ctrl0Decomp : List MOp :=
  [⟨[0], XmatK⟩, ⟨[0, 1], CNOTmatK⟩, ⟨[0], XmatK⟩]

/-- `MultiControlledX.compute_decomposition` with two control wires and
control string "10": a PauliX flip on the second control around a Toffoli. -/
def mcx2ctrl10Decomp : List MOp :=
  [⟨[1], XmatK⟩, ⟨[0, 1, 2], ToffolimatK⟩, ⟨[1], XmatK⟩]

/-- The gate kinds of non_parametric_ops.py whose decomposition acts on the
gate's own wires (every kind of the file with a `compute_decomposition`
other than Barrier, which has no matrix, and the work-wire-based
MultiControlledX decompositions, represented here by the work-wire-free one-
and two-control instances). -/
inductive DecomposedGate
  | hadamard | pauliX | pauliY | pauliZ | s | t | sx | cy | swap | iswap
  | siswap | cswap | toffoli | mcx1ctrl0 | mcx2ctrl10
deriving DecidableEq, Repr

def gateWires : DecomposedGate → List ℕ
  | .hadamard | .pauliX | .pauliY | .pauliZ | .s | .t | .sx => [0]
  | .cy | .swap | .iswap | .siswap | .mcx1ctrl0 => [0, 1]
  | .cswap | .toffoli | .mcx2ctrl10 => [0, 1, 2]

def gateMat : DecomposedGate → MatK
  | .hadamard => HmatK
  | .pauliX => XmatK
  | .pauliY => YmatK
  | .pauliZ => ZmatK
  | .s => SmatK
  | .t => TmatK
  | .sx => SXmatK
  | .cy => CYmatK
  | .swap => SWAPmatK
  | .iswap => ISWAPmatK
  | .siswap => SISWAPmatK
  | .cswap => CSWAPmatK
  | .toffoli => ToffolimatK
  | .mcx1ctrl0 => MCXmatK 1 0
  | .mcx2ctrl10 => MCXmatK 2 2

def gateDecomp : DecomposedGate → List MOp
  | .hadamard => hadamardDecomp
  | .pauliX => pauliXDecomp
  | .pauliY => pauliYDecomp
  | .pauliZ => pauliZDecomp
  | .s => sDecomp
  | .t => tDecomp
  | .sx => sxDecomp
  | .cy => cyDecomp
  | .swap => swapDecomp
  | .iswap => iswapDecomp
  | .siswap => siswapDecomp
  | .cswap => cswapDecomp
  | .toffoli => toffoliDecomp
  | .mcx1ctrl0 => mcx1ctrl0Decomp
  | .mcx2ctrl10 => mcx2ctrl10Decomp

end PennyLane

namespace PennyLane

def embLit0 : MatK :=
  [[⟨[1, 0, 0, 0, 0, 0, 0, 0], 0⟩, ⟨[0, 0, 0, 0, 0, 0, 0, 0], 0⟩],
   [⟨[0, 0, 0, 0, 0, 0, 0, 0], 0⟩, ⟨[0, 0, 0, 0, 1, 0, 0, 0], 0⟩]]

theorem embEq0 : embedMat [0] [0] (PhaseShiftK 2) = embLit0 := by decide

def embLit1 : MatK :=
  [[⟨[0, 0, 1, 0, 0, 0, -1, 0], 1⟩, ⟨[0, 0, -1, 0, 0, 0, -1, 0], 1⟩],
   [⟨[0, 0, -1, 0, 0, 0, -1, 0], 1⟩, ⟨[0, 0, 1, 0, 0, 0, -1, 0], 1⟩]]

theorem embEq1 : embedMat [0] [0] (RXmatK 2) = embLit1 := by decide

def embLit2 : MatK :=
  [[⟨[0, 0, 0, 0, 0, 0, 0, 0], 0⟩, ⟨[0, 0, 0, 0, -1, 0, 0, 0], 0⟩],
   [⟨[0, 0, 0, 0, -1, 0, 0, 0], 0⟩, ⟨[0, 0, 0, 0, 0, 0, 0, 0], 0⟩]]

theorem embEq2 : embedMat [0] [0] (RXmatK 4) = embLit2 := by decide

def embLit3 : MatK :=
  [[⟨[0, 0, 0, 0, 0, 0, 0, 0], 0⟩, ⟨[-1, 0, 0, 0, 0, 0, 0, 0], 0⟩],
   [⟨[1, 0, 0, 0, 0, 0, 0, 0], 0⟩, ⟨[0, 0, 0, 0, 0, 0, 0, 0], 0⟩]]

theorem embEq3 : embedMat [0] [0] (RYmatK 4) = embLit3 := by decide

def embLit4 : MatK :=
  [[⟨[1, 0, 0, 0, 0, 0, 0, 0], 0⟩, ⟨[0, 0, 0, 0, 0, 0, 0, 0], 0⟩],
   [⟨[0, 0, 0, 0, 0, 0, 0, 0], 0⟩, ⟨[-1, 0, 0, 0, 0, 0, 0, 0], 0⟩]]

theorem embEq4 : embedMat [0] [0] (PhaseShiftK 4) = embLit4 := by decide

def embLit5 : MatK :=
  [[⟨[1, 0, 0, 0, 0, 0, 0, 0], 0⟩, ⟨[0, 0, 0, 0, 0, 0, 0, 0], 0⟩],
   [⟨[0, 0, 0, 0, 0, 0, 0, 0], 0⟩, ⟨[0, 0, 1, 0, 0, 0, 0, 0], 0⟩]]

theorem embEq5 : embedMat [0] [0] (PhaseShiftK 1) = embLit5 := by decide

def embLit6 : MatK :=
  [[⟨[0, 0, 0, 0, 0, 0, -1, 0], 0⟩, ⟨[0, 0, 0, 0, 0, 0, 0, 0], 0⟩],
   [⟨[0, 0, 0, 0, 0, 0, 0, 0], 0⟩, ⟨[0, 0, 1, 0, 0, 0, 0, 0], 0⟩]]

theorem embEq6 : embedMat [0] [0] (RZmatK 2) = embLit6 := by decide

def embLit7 : MatK :=
  [[⟨[0, 0, 1, 0, 0, 0, -1, 0], 1⟩, ⟨[0, 0, -1, 0, 0, 0, 1, 0], 1⟩],
   [⟨[0, 0, 1, 0, 0, 0, -1, 0], 1⟩, ⟨[0, 0, 1, 0, 0, 0, -1, 0], 1⟩]]

theorem embEq7 : embedMat [0] [0] (RYmatK 2) = embLit7 := by decide

def embLit8 : MatK :=
  [[⟨[0, 0, 0, 0, 1, 0, 0, 0], 0⟩, ⟨[0, 0, 0, 0, 0, 0, 0, 0], 0⟩],
   [⟨[0, 0, 0, 0, 0, 0, 0, 0], 0⟩, ⟨[0, 0, 0, 0, -1, 0, 0, 0], 0⟩]]

theorem embEq8 : embedMat [0] [0] (RZmatK (-4)) = embLit8 := by decide

def embLit9 : MatK :=
  [[⟨[1, 0, 0, 0, 0, 0, 0, 0], 0⟩, ⟨[0, 0, 0, 0, 0, 0, 0, 0], 0⟩, ⟨[0, 0, 0, 0, 0, 0, 0, 0], 0⟩, ⟨[0, 0, 0, 0, 0, 0, 0, 0], 0⟩],
   [⟨[0, 0, 0, 0, 0, 0, 0, 0], 0⟩, ⟨[1, 0, 0, 0, 0, 0, 0, 0], 0⟩, ⟨[0, 0, 0, 0, 0, 0, 0, 0], 0⟩, ⟨[0, 0, 0, 0, 0, 0, 0, 0], 0⟩],
   [⟨[0, 0, 0, 0, 0, 0, 0, 0], 0⟩, ⟨[0, 0, 0, 0, 0, 0, 0, 0], 0⟩, ⟨[0, 0, 0, 0, 0, 0, 0, 0], 0⟩, ⟨[-1, 0, 0, 0, 0, 0, 0, 0], 0⟩],
   [⟨[0, 0, 0, 0, 0, 0, 0, 0], 0⟩, ⟨[0, 0, 0, 0, 0, 0, 0, 0], 0⟩, ⟨[1, 0, 0, 0, 0, 0, 0, 0], 0⟩, ⟨[0, 0, 0, 0, 0, 0, 0, 0], 0⟩]]

theorem embEq9 : embedMat [0, 1] [0, 1] (CRYmatK 4) = embLit9 := by decide

def embLit10 : MatK :=
  [[⟨[1, 0, 0, 0, 0, 0, 0, 0], 0⟩, ⟨[0, 0, 0, 0, 0, 0, 0, 0], 0⟩, ⟨[0, 0, 0, 0, 0, 0, 0, 0], 0⟩, ⟨[0, 0, 0, 0, 0, 0, 0, 0], 0⟩],
   [⟨[0, 0, 0, 0, 0, 0, 0, 0], 0⟩, ⟨[1, 0, 0, 0, 0, 0, 0, 0], 0⟩, ⟨[0, 0, 0, 0, 0, 0, 0, 0], 0⟩, ⟨[0, 0, 0, 0, 0, 0, 0, 0], 0⟩],
   [⟨[0, 0, 0, 0, 0, 0, 0, 0], 0⟩, ⟨[0, 0, 0, 0, 0, 0, 0, 0], 0⟩, ⟨[0, 0, 0, 0, 1, 0, 0, 0], 0⟩, ⟨[0, 0, 0, 0, 0, 0, 0, 0], 0⟩],
   [⟨[0, 0, 0, 0, 0, 0, 0, 0], 0⟩, ⟨[0, 0, 0, 0, 0, 0, 0, 0], 0⟩, ⟨[0, 0, 0, 0, 0, 0, 0, 0], 0⟩, ⟨[0, 0, 0, 0, 1, 0, 0, 0], 0⟩]]

theorem embEq10 : embedMat [0, 1] [0] (SmatK) = embLit10 := by decide

def embLit11 : MatK :=
  [[⟨[1, 0, 0, 0, 0, 0, 0, 0], 0⟩, ⟨[0, 0, 0, 0, 0, 0, 0, 0], 0⟩, ⟨[0, 0, 0, 0, 0, 0, 0, 0], 0⟩, ⟨[0, 0, 0, 0, 0, 0, 0, 0], 0⟩],
   [⟨[0, 0, 0, 0, 0, 0, 0, 0], 0⟩, ⟨[1, 0, 0, 0, 0, 0, 0, 0], 0⟩, ⟨[0, 0, 0, 0, 0, 0, 0, 0], 0⟩, ⟨[0, 0, 0, 0, 0, 0, 0, 0], 0⟩],
   [⟨[0, 0, 0, 0, 0, 0, 0, 0], 0⟩, ⟨[0, 0, 0, 0, 0, 0, 0, 0], 0⟩, ⟨[0, 0, 0, 0, 0, 0, 0, 0], 0⟩, ⟨[1, 0, 0, 0, 0, 0, 0, 0], 0⟩],
   [⟨[0, 0, 0, 0, 0, 0, 0, 0], 0⟩, ⟨[0, 0, 0, 0, 0, 0, 0, 0], 0⟩, ⟨[1, 0, 0, 0, 0, 0, 0, 0], 0⟩, ⟨[0, 0, 0, 0, 0, 0, 0, 0], 0⟩]]

theorem embEq11 : embedMat [0, 1] [0, 1] (CNOTmatK) = embLit11 := by decide

def embLit12 : MatK :=
  [[⟨[1, 0, 0, 0, 0, 0, 0, 0], 0⟩, ⟨[0, 0, 0, 0, 0, 0, 0, 0], 0⟩, ⟨[0, 0, 0, 0, 0, 0, 0, 0], 0⟩, ⟨[0, 0, 0, 0, 0, 0, 0, 0], 0⟩],
   [⟨[0, 0, 0, 0, 0, 0, 0, 0], 0⟩, ⟨[0, 0, 0, 0, 0, 0, 0, 0], 0⟩, ⟨[0, 0, 0, 0, 0, 0, 0, 0], 0⟩, ⟨[1, 0, 0, 0, 0, 0, 0, 0], 0⟩],
   [⟨[0, 0, 0, 0, 0, 0, 0, 0], 0⟩, ⟨[0, 0, 0, 0, 0, 0, 0, 0], 0⟩, ⟨[1, 0, 0, 0, 0, 0, 0, 0], 0⟩, ⟨[0, 0, 0, 0, 0, 0, 0, 0], 0⟩],
   [⟨[0, 0, 0, 0, 0, 0, 0, 0], 0⟩, ⟨[1, 0, 0, 0, 0, 0, 0, 0], 0⟩, ⟨[0, 0, 0, 0, 0, 0, 0, 0], 0⟩, ⟨[0, 0, 0, 0, 0, 0, 0, 0], 0⟩]]

theorem embEq12 : embedMat [0, 1] [1, 0] (CNOTmatK) = embLit12 := by decide

def embLit13 : MatK :=
  [[⟨[1, 0, 0, 0, 0, 0, 0, 0], 0⟩, ⟨[0, 0, 0, 0, 0, 0, 0, 0], 0⟩, ⟨[0, 0, 0, 0, 0, 0, 0, 0], 0⟩, ⟨[0, 0, 0, 0, 0, 0, 0, 0], 0⟩],
   [⟨[0, 0, 0, 0, 0, 0, 0, 0], 0⟩, ⟨[0, 0, 0, 0, 1, 0, 0, 0], 0⟩, ⟨[0, 0, 0, 0, 0, 0, 0, 0], 0⟩, ⟨[0, 0, 0, 0, 0, 0, 0, 0], 0⟩],
   [⟨[0, 0, 0, 0, 0, 0, 0, 0], 0⟩, ⟨[0, 0, 0, 0, 0, 0, 0, 0], 0⟩, ⟨[1, 0, 0, 0, 0, 0, 0, 0], 0⟩, ⟨[0, 0, 0, 0, 0, 0, 0, 0], 0⟩],
   [⟨[0, 0, 0, 0, 0, 0, 0, 0], 0⟩, ⟨[0, 0, 0, 0, 0, 0, 0, 0], 0⟩, ⟨[0, 0, 0, 0, 0, 0, 0, 0], 0⟩, ⟨[0, 0, 0, 0, 1, 0, 0, 0], 0⟩]]

theorem embEq13 : embedMat [0, 1] [1] (SmatK) = embLit13 := by decide

def embLit14 : MatK :=
  [[⟨[0, 0, 1, 0, 0, 0, -1, 0], 1⟩, ⟨[0, 0, 0, 0, 0, 0, 0, 0], 0⟩, ⟨[0, 0, 1, 0, 0, 0, -1, 0], 1⟩, ⟨[0, 0, 0, 0, 0, 0, 0, 0], 0⟩],
   [⟨[0, 0, 0, 0, 0, 0, 0, 0], 0⟩, ⟨[0, 0, 1, 0, 0, 0, -1, 0], 1⟩, ⟨[0, 0, 0, 0, 0, 0, 0, 0], 0⟩, ⟨[0, 0, 1, 0, 0, 0, -1, 0], 1⟩],
   [⟨[0, 0, 1, 0, 0, 0, -1, 0], 1⟩, ⟨[0, 0, 0, 0, 0, 0, 0, 0], 0⟩, ⟨[0, 0, -1, 0, 0, 0, 1, 0], 1⟩, ⟨[0, 0, 0, 0, 0, 0, 0, 0], 0⟩],
   [⟨[0, 0, 0, 0, 0, 0, 0, 0], 0⟩, ⟨[0, 0, 1, 0, 0, 0, -1, 0], 1⟩, ⟨[0, 0, 0, 0, 0, 0, 0, 0], 0⟩, ⟨[0, 0, -1, 0, 0, 0, 1, 0], 1⟩]]

theorem embEq14 : embedMat [0, 1] [0] (HmatK) = embLit14 := by decide

def embLit15 : MatK :=
  [[⟨[0, 0, 1, 0, 0, 0, -1, 0], 1⟩, ⟨[0, 0, 1, 0, 0, 0, -1, 0], 1⟩, ⟨[0, 0, 0, 0, 0, 0, 0, 0], 0⟩, ⟨[0, 0, 0, 0, 0, 0, 0, 0], 0⟩],
   [⟨[0, 0, 1, 0, 0, 0, -1, 0], 1⟩, ⟨[0, 0, -1, 0, 0, 0, 1, 0], 1⟩, ⟨[0, 0, 0, 0, 0, 0, 0, 0], 0⟩, ⟨[0, 0, 0, 0, 0, 0, 0, 0], 0⟩],
   [⟨[0, 0, 0, 0, 0, 0, 0, 0], 0⟩, ⟨[0, 0, 0, 0, 0, 0, 0, 0], 0⟩, ⟨[0, 0, 1, 0, 0, 0, -1, 0], 1⟩, ⟨[0, 0, 1, 0, 0, 0, -1, 0], 1⟩],
   [⟨[0, 0, 0, 0, 0, 0, 0, 0], 0⟩, ⟨[0, 0, 0, 0, 0, 0, 0, 0], 0⟩, ⟨[0, 0, 1, 0, 0, 0, -1, 0], 1⟩, ⟨[0, 0, -1, 0, 0, 0, 1, 0], 1⟩]]

theorem embEq15 : embedMat [0, 1] [1] (HmatK) = embLit15 := by decide

def embLit16 : MatK :=
  [[⟨[1, 0, 0, 0, 1, 0, 0, 0], 1⟩, ⟨[0, 0, 0, 0, 0, 0, 0, 0], 0⟩, ⟨[1, 0, 0, 0, -1, 0, 0, 0], 1⟩, ⟨[0, 0, 0, 0, 0, 0, 0, 0], 0⟩],
   [⟨[0, 0, 0, 0, 0, 0, 0, 0], 0⟩, ⟨[1, 0, 0, 0, 1, 0, 0, 0], 1⟩, ⟨[0, 0, 0, 0, 0, 0, 0, 0], 0⟩, ⟨[1, 0, 0, 0, -1, 0, 0, 0], 1⟩],
   [⟨[1, 0, 0, 0, -1, 0, 0, 0], 1⟩, ⟨[0, 0, 0, 0, 0, 0, 0, 0], 0⟩, ⟨[1, 0, 0, 0, 1, 0, 0, 0], 1⟩, ⟨[0, 0, 0, 0, 0, 0, 0, 0], 0⟩],
   [⟨[0, 0, 0, 0, 0, 0, 0, 0], 0⟩, ⟨[1, 0, 0, 0, -1, 0, 0, 0], 1⟩, ⟨[0, 0, 0, 0, 0, 0, 0, 0], 0⟩, ⟨[1, 0, 0, 0, 1, 0, 0, 0], 1⟩]]

theorem embEq16 : embedMat [0, 1] [0] (SXmatK) = embLit16 := by decide

def embLit17 : MatK :=
  [[⟨[0, 0, 0, 0, 0, 0, -1, 0], 0⟩, ⟨[0, 0, 0, 0, 0, 0, 0, 0], 0⟩, ⟨[0, 0, 0, 0, 0, 0, 0, 0], 0⟩, ⟨[0, 0, 0, 0, 0, 0, 0, 0], 0⟩],
   [⟨[0, 0, 0, 0, 0, 0, 0, 0], 0⟩, ⟨[0, 0, 0, 0, 0, 0, -1, 0], 0⟩, ⟨[0, 0, 0, 0, 0, 0, 0, 0], 0⟩, ⟨[0, 0, 0, 0, 0, 0, 0, 0], 0⟩],
   [⟨[0, 0, 0, 0, 0, 0, 0, 0], 0⟩, ⟨[0, 0, 0, 0, 0, 0, 0, 0], 0⟩, ⟨[0, 0, 1, 0, 0, 0, 0, 0], 0⟩, ⟨[0, 0, 0, 0, 0, 0, 0, 0], 0⟩],
   [⟨[0, 0, 0, 0, 0, 0, 0, 0], 0⟩, ⟨[0, 0, 0, 0, 0, 0, 0, 0], 0⟩, ⟨[0, 0, 0, 0, 0, 0, 0, 0], 0⟩, ⟨[0, 0, 1, 0, 0, 0, 0, 0], 0⟩]]

theorem embEq17 : embedMat [0, 1] [0] (RZmatK 2) = embLit17 := by decide

def embLit18 : MatK :=
  [[⟨[0, -1, 0, 0, 0, 0, 0, 0], 0⟩, ⟨[0, 0, 0, 0, 0, 0, 0, 0], 0⟩, ⟨[0, 0, 0, 0, 0, 0, 0, 0], 0⟩, ⟨[0, 0, 0, 0, 0, 0, 0, 0], 0⟩],
   [⟨[0, 0, 0, 0, 0, 0, 0, 0], 0⟩, ⟨[0, -1, 0, 0, 0, 0, 0, 0], 0⟩, ⟨[0, 0, 0, 0, 0, 0, 0, 0], 0⟩, ⟨[0, 0, 0, 0, 0, 0, 0, 0], 0⟩],
   [⟨[0, 0, 0, 0, 0, 0, 0, 0], 0⟩, ⟨[0, 0, 0, 0, 0, 0, 0, 0], 0⟩, ⟨[0, 0, 0, 0, 0, 0, 0, 1], 0⟩, ⟨[0, 0, 0, 0, 0, 0, 0, 0], 0⟩],
   [⟨[0, 0, 0, 0, 0, 0, 0, 0], 0⟩, ⟨[0, 0, 0, 0, 0, 0, 0, 0], 0⟩, ⟨[0, 0, 0, 0, 0, 0, 0, 0], 0⟩, ⟨[0, 0, 0, 0, 0, 0, 0, 1], 0⟩]]

theorem embEq18 : embedMat [0, 1] [0] (RZmatK 7) = embLit18 := by decide

def embLit19 : MatK :=
  [[⟨[1, 0, 0, 0, 1, 0, 0, 0], 1⟩, ⟨[1, 0, 0, 0, -1, 0, 0, 0], 1⟩, ⟨[0, 0, 0, 0, 0, 0, 0, 0], 0⟩, ⟨[0, 0, 0, 0, 0, 0, 0, 0], 0⟩],
   [⟨[1, 0, 0, 0, -1, 0, 0, 0], 1⟩, ⟨[1, 0, 0, 0, 1, 0, 0, 0], 1⟩, ⟨[0, 0, 0, 0, 0, 0, 0, 0], 0⟩, ⟨[0, 0, 0, 0, 0, 0, 0, 0], 0⟩],
   [⟨[0, 0, 0, 0, 0, 0, 0, 0], 0⟩, ⟨[0, 0, 0, 0, 0, 0, 0, 0], 0⟩, ⟨[1, 0, 0, 0, 1, 0, 0, 0], 1⟩, ⟨[1, 0, 0, 0, -1, 0, 0, 0], 1⟩],
   [⟨[0, 0, 0, 0, 0, 0, 0, 0], 0⟩, ⟨[0, 0, 0, 0, 0, 0, 0, 0], 0⟩, ⟨[1, 0, 0, 0, -1, 0, 0, 0], 1⟩, ⟨[1, 0, 0, 0, 1, 0, 0, 0], 1⟩]]

theorem embEq19 : embedMat [0, 1] [1] (SXmatK) = embLit19 := by decide

def embLit20 : MatK :=
  [[⟨[0, -1, 0, 0, 0, 0, 0, 0], 0⟩, ⟨[0, 0, 0, 0, 0, 0, 0, 0], 0⟩, ⟨[0, 0, 0, 0, 0, 0, 0, 0], 0⟩, ⟨[0, 0, 0, 0, 0, 0, 0, 0], 0⟩],
   [⟨[0, 0, 0, 0, 0, 0, 0, 0], 0⟩, ⟨[0, 0, 0, 0, 0, 0, 0, 1], 0⟩, ⟨[0, 0, 0, 0, 0, 0, 0, 0], 0⟩, ⟨[0, 0, 0, 0, 0, 0, 0, 0], 0⟩],
   [⟨[0, 0, 0, 0, 0, 0, 0, 0], 0⟩, ⟨[0, 0, 0, 0, 0, 0, 0, 0], 0⟩, ⟨[0, -1, 0, 0, 0, 0, 0, 0], 0⟩, ⟨[0, 0, 0, 0, 0, 0, 0, 0], 0⟩],
   [⟨[0, 0, 0, 0, 0, 0, 0, 0], 0⟩, ⟨[0, 0, 0, 0, 0, 0, 0, 0], 0⟩, ⟨[0, 0, 0, 0, 0, 0, 0, 0], 0⟩, ⟨[0, 0, 0, 0, 0, 0, 0, 1], 0⟩]]

theorem embEq20 : embedMat [0, 1] [1] (RZmatK 7) = embLit20 := by decide

def embLit21 : MatK :=
  [[⟨[1, 0, 0, 0, 0, 0, 0, 0], 0⟩, ⟨[0, 0, 0, 0, 0, 0, 0, 0], 0⟩, ⟨[0, 0, 0, 0, 0, 0, 0, 0], 0⟩, ⟨[0, 0, 0, 0, 0, 0, 0, 0], 0⟩, ⟨[0, 0, 0, 0, 0, 0, 0, 0], 0⟩, ⟨[0, 0, 0, 0, 0, 0, 0, 0], 0⟩, ⟨[0, 0, 0, 0, 0, 0, 0, 0], 0⟩, ⟨[0, 0, 0, 0, 0, 0, 0, 0], 0⟩],
   [⟨[0, 0, 0, 0, 0, 0, 0, 0], 0⟩, ⟨[1, 0, 0, 0, 0, 0, 0, 0], 0⟩, ⟨[0, 0, 0, 0, 0, 0, 0, 0], 0⟩, ⟨[0, 0, 0, 0, 0, 0, 0, 0], 0⟩, ⟨[0, 0, 0, 0, 0, 0, 0, 0], 0⟩, ⟨[0, 0, 0, 0, 0, 0, 0, 0], 0⟩, ⟨[0, 0, 0, 0, 0, 0, 0, 0], 0⟩, ⟨[0, 0, 0, 0, 0, 0, 0, 0], 0⟩],
   [⟨[0, 0, 0, 0, 0, 0, 0, 0], 0⟩, ⟨[0, 0, 0, 0, 0, 0, 0, 0], 0⟩, ⟨[1, 0, 0, 0, 0, 0, 0, 0], 0⟩, ⟨[0, 0, 0, 0, 0, 0, 0, 0], 0⟩, ⟨[0, 0, 0, 0, 0, 0, 0, 0], 0⟩, ⟨[0, 0, 0, 0, 0, 0, 0, 0], 0⟩, ⟨[0, 0, 0, 0, 0, 0, 0, 0], 0⟩, ⟨[0, 0, 0, 0, 0, 0, 0, 0], 0⟩],
   [⟨[0, 0, 0, 0, 0, 0, 0, 0], 0⟩, ⟨[0, 0, 0, 0, 0, 0, 0, 0], 0⟩, ⟨[0, 0, 0, 0, 0, 0, 0, 0], 0⟩, ⟨[1, 0, 0, 0, 0, 0, 0, 0], 0⟩, ⟨[0, 0, 0, 0, 0, 0, 0, 0], 0⟩, ⟨[0, 0, 0, 0, 0, 0, 0, 0], 0⟩, ⟨[0, 0, 0, 0, 0, 0, 0, 0], 0⟩, ⟨[0, 0, 0, 0, 0, 0, 0, 0], 0⟩],
   [⟨[0, 0, 0, 0, 0, 0, 0, 0], 0⟩, ⟨[0, 0, 0, 0, 0, 0, 0, 0], 0⟩, ⟨[0, 0, 0, 0, 0, 0, 0, 0], 0⟩, ⟨[0, 0, 0, 0, 0, 0, 0, 0], 0⟩, ⟨[1, 0, 0, 0, 0, 0, 0, 0], 0⟩, ⟨[0, 0, 0, 0, 0, 0, 0, 0], 0⟩, ⟨[0, 0, 0, 0, 0, 0, 0, 0], 0⟩, ⟨[0, 0, 0, 0, 0, 0, 0, 0], 0⟩],
   [⟨[0, 0, 0, 0, 0, 0, 0, 0], 0⟩, ⟨[0, 0, 0, 0, 0, 0, 0, 0], 0⟩, ⟨[0, 0, 0, 0, 0, 0, 0, 0], 0⟩, ⟨[0, 0, 0, 0, 0, 0, 0, 0], 0⟩, ⟨[0, 0, 0, 0, 0, 0, 0, 0], 0⟩, ⟨[0, 0, 0, 0, 0, 0, 0, 0], 0⟩, ⟨[0, 0, 0, 0, 0, 0, 0, 0], 0⟩, ⟨[1, 0, 0, 0, 0, 0, 0, 0], 0⟩],
   [⟨[0, 0, 0, 0, 0, 0, 0, 0], 0⟩, ⟨[0, 0, 0, 0, 0, 0, 0, 0], 0⟩, ⟨[0, 0, 0, 0, 0, 0, 0, 0], 0⟩, ⟨[0, 0, 0, 0, 0, 0, 0, 0], 0⟩, ⟨[0, 0, 0, 0, 0, 0, 0, 0], 0⟩, ⟨[0, 0, 0, 0, 0, 0, 0, 0], 0⟩, ⟨[1, 0, 0, 0, 0, 0, 0, 0], 0⟩, ⟨[0, 0, 0, 0, 0, 0, 0, 0], 0⟩],
   [⟨[0, 0, 0, 0, 0, 0, 0, 0], 0⟩, ⟨[0, 0, 0, 0, 0, 0, 0, 0], 0⟩, ⟨[0, 0, 0, 0, 0, 0, 0, 0], 0⟩, ⟨[0, 0, 0, 0, 0, 0, 0, 0], 0⟩, ⟨[0, 0, 0, 0, 0, 0, 0, 0], 0⟩, ⟨[1, 0, 0, 0, 0, 0, 0, 0], 0⟩, ⟨[0, 0, 0, 0, 0, 0, 0, 0], 0⟩, ⟨[0, 0, 0, 0, 0, 0, 0, 0], 0⟩]]

theorem embEq21 : embedMat [0, 1, 2] [0, 2, 1] (ToffolimatK) = embLit21 := by decide

def embLit22 : MatK :=
  [[⟨[1, 0, 0, 0, 0, 0, 0, 0], 0⟩, ⟨[0, 0, 0, 0, 0, 0, 0, 0], 0⟩, ⟨[0, 0, 0, 0, 0, 0, 0, 0], 0⟩, ⟨[0, 0, 0, 0, 0, 0, 0, 0], 0⟩, ⟨[0, 0, 0, 0, 0, 0, 0, 0], 0⟩, ⟨[0, 0, 0, 0, 0, 0, 0, 0], 0⟩, ⟨[0, 0, 0, 0, 0, 0, 0, 0], 0⟩, ⟨[0, 0, 0, 0, 0, 0, 0, 0], 0⟩],
   [⟨[0, 0, 0, 0, 0, 0, 0, 0], 0⟩, ⟨[1, 0, 0, 0, 0, 0, 0, 0], 0⟩, ⟨[0, 0, 0, 0, 0, 0, 0, 0], 0⟩, ⟨[0, 0, 0, 0, 0, 0, 0, 0], 0⟩, ⟨[0, 0, 0, 0, 0, 0, 0, 0], 0⟩, ⟨[0, 0, 0, 0, 0, 0, 0, 0], 0⟩, ⟨[0, 0, 0, 0, 0, 0, 0, 0], 0⟩, ⟨[0, 0, 0, 0, 0, 0, 0, 0], 0⟩],
   [⟨[0, 0, 0, 0, 0, 0, 0, 0], 0⟩, ⟨[0, 0, 0, 0, 0, 0, 0, 0], 0⟩, ⟨[1, 0, 0, 0, 0, 0, 0, 0], 0⟩, ⟨[0, 0, 0, 0, 0, 0, 0, 0], 0⟩, ⟨[0, 0, 0, 0, 0, 0, 0, 0], 0⟩, ⟨[0, 0, 0, 0, 0, 0, 0, 0], 0⟩, ⟨[0, 0, 0, 0, 0, 0, 0, 0], 0⟩, ⟨[0, 0, 0, 0, 0, 0, 0, 0], 0⟩],
   [⟨[0, 0, 0, 0, 0, 0, 0, 0], 0⟩, ⟨[0, 0, 0, 0, 0, 0, 0, 0], 0⟩, ⟨[0, 0, 0, 0, 0, 0, 0, 0], 0⟩, ⟨[1, 0, 0, 0, 0, 0, 0, 0], 0⟩, ⟨[0, 0, 0, 0, 0, 0, 0, 0], 0⟩, ⟨[0, 0, 0, 0, 0, 0, 0, 0], 0⟩, ⟨[0, 0, 0, 0, 0, 0, 0, 0], 0⟩, ⟨[0, 0, 0, 0, 0, 0, 0, 0], 0⟩],
   [⟨[0, 0, 0, 0, 0, 0, 0, 0], 0⟩, ⟨[0, 0, 0, 0, 0, 0, 0, 0], 0⟩, ⟨[0, 0, 0, 0, 0, 0, 0, 0], 0⟩, ⟨[0, 0, 0, 0, 0, 0, 0, 0], 0⟩, ⟨[1, 0, 0, 0, 0, 0, 0, 0], 0⟩, ⟨[0, 0, 0, 0, 0, 0, 0, 0], 0⟩, ⟨[0, 0, 0, 0, 0, 0, 0, 0], 0⟩, ⟨[0, 0, 0, 0, 0, 0, 0, 0], 0⟩],
   [⟨[0, 0, 0, 0, 0, 0, 0, 0], 0⟩, ⟨[0, 0, 0, 0, 0, 0, 0, 0], 0⟩, ⟨[0, 0, 0, 0, 0, 0, 0, 0], 0⟩, ⟨[0, 0, 0, 0, 0, 0, 0, 0], 0⟩, ⟨[0, 0, 0, 0, 0, 0, 0, 0], 0⟩, ⟨[1, 0, 0, 0, 0, 0, 0, 0], 0⟩, ⟨[0, 0, 0, 0, 0, 0, 0, 0], 0⟩, ⟨[0, 0, 0, 0, 0, 0, 0, 0], 0⟩],
   [⟨[0, 0, 0, 0, 0, 0, 0, 0], 0⟩, ⟨[0, 0, 0, 0, 0, 0, 0, 0], 0⟩, ⟨[0, 0, 0, 0, 0, 0, 0, 0], 0⟩, ⟨[0, 0, 0, 0, 0, 0, 0, 0], 0⟩, ⟨[0, 0, 0, 0, 0, 0, 0, 0], 0⟩, ⟨[0, 0, 0, 0, 0, 0, 0, 0], 0⟩, ⟨[0, 0, 0, 0, 0, 0, 0, 0], 0⟩, ⟨[1, 0, 0, 0, 0, 0, 0, 0], 0⟩],
   [⟨[0, 0, 0, 0, 0, 0, 0, 0], 0⟩, ⟨[0, 0, 0, 0, 0, 0, 0, 0], 0⟩, ⟨[0, 0, 0, 0, 0, 0, 0, 0], 0⟩, ⟨[0, 0, 0, 0, 0, 0, 0, 0], 0⟩, ⟨[0, 0, 0, 0, 0, 0, 0, 0], 0⟩, ⟨[0, 0, 0, 0, 0, 0, 0, 0], 0⟩, ⟨[1, 0, 0, 0, 0, 0, 0, 0], 0⟩, ⟨[0, 0, 0, 0, 0, 0, 0, 0], 0⟩]]

theorem embEq22 : embedMat [0, 1, 2] [0, 1, 2] (ToffolimatK) = embLit22 := by decide

def embLit23 : MatK :=
  [[⟨[0, 0, 1, 0, 0, 0, -1, 0], 1⟩, ⟨[0, 0, 1, 0, 0, 0, -1, 0], 1⟩, ⟨[0, 0, 0, 0, 0, 0, 0, 0], 0⟩, ⟨[0, 0, 0, 0, 0, 0, 0, 0], 0⟩, ⟨[0, 0, 0, 0, 0, 0, 0, 0], 0⟩, ⟨[0, 0, 0, 0, 0, 0, 0, 0], 0⟩, ⟨[0, 0, 0, 0, 0, 0, 0, 0], 0⟩, ⟨[0, 0, 0, 0, 0, 0, 0, 0], 0⟩],
   [⟨[0, 0, 1, 0, 0, 0, -1, 0], 1⟩, ⟨[0, 0, -1, 0, 0, 0, 1, 0], 1⟩, ⟨[0, 0, 0, 0, 0, 0, 0, 0], 0⟩, ⟨[0, 0, 0, 0, 0, 0, 0, 0], 0⟩, ⟨[0, 0, 0, 0, 0, 0, 0, 0], 0⟩, ⟨[0, 0, 0, 0, 0, 0, 0, 0], 0⟩, ⟨[0, 0, 0, 0, 0, 0, 0, 0], 0⟩, ⟨[0, 0, 0, 0, 0, 0, 0, 0], 0⟩],
   [⟨[0, 0, 0, 0, 0, 0, 0, 0], 0⟩, ⟨[0, 0, 0, 0, 0, 0, 0, 0], 0⟩, ⟨[0, 0, 1, 0, 0, 0, -1, 0], 1⟩, ⟨[0, 0, 1, 0, 0, 0, -1, 0], 1⟩, ⟨[0, 0, 0, 0, 0, 0, 0, 0], 0⟩, ⟨[0, 0, 0, 0, 0, 0, 0, 0], 0⟩, ⟨[0, 0, 0, 0, 0, 0, 0, 0], 0⟩, ⟨[0, 0, 0, 0, 0, 0, 0, 0], 0⟩],
   [⟨[0, 0, 0, 0, 0, 0, 0, 0], 0⟩, ⟨[0, 0, 0, 0, 0, 0, 0, 0], 0⟩, ⟨[0, 0, 1, 0, 0, 0, -1, 0], 1⟩, ⟨[0, 0, -1, 0, 0, 0, 1, 0], 1⟩, ⟨[0, 0, 0, 0, 0, 0, 0, 0], 0⟩, ⟨[0, 0, 0, 0, 0, 0, 0, 0], 0⟩, ⟨[0, 0, 0, 0, 0, 0, 0, 0], 0⟩, ⟨[0, 0, 0, 0, 0, 0, 0, 0], 0⟩],
   [⟨[0, 0, 0, 0, 0, 0, 0, 0], 0⟩, ⟨[0, 0, 0, 0, 0, 0, 0, 0], 0⟩, ⟨[0, 0, 0, 0, 0, 0, 0, 0], 0⟩, ⟨[0, 0, 0, 0, 0, 0, 0, 0], 0⟩, ⟨[0, 0, 1, 0, 0, 0, -1, 0], 1⟩, ⟨[0, 0, 1, 0, 0, 0, -1, 0], 1⟩, ⟨[0, 0, 0, 0, 0, 0, 0, 0], 0⟩, ⟨[0, 0, 0, 0, 0, 0, 0, 0], 0⟩],
   [⟨[0, 0, 0, 0, 0, 0, 0, 0], 0⟩, ⟨[0, 0, 0, 0, 0, 0, 0, 0], 0⟩, ⟨[0, 0, 0, 0, 0, 0, 0, 0], 0⟩, ⟨[0, 0, 0, 0, 0, 0, 0, 0], 0⟩, ⟨[0, 0, 1, 0, 0, 0, -1, 0], 1⟩, ⟨[0, 0, -1, 0, 0, 0, 1, 0], 1⟩, ⟨[0, 0, 0, 0, 0, 0, 0, 0], 0⟩, ⟨[0, 0, 0, 0, 0, 0, 0, 0], 0⟩],
   [⟨[0, 0, 0, 0, 0, 0, 0, 0], 0⟩, ⟨[0, 0, 0, 0, 0, 0, 0, 0], 0⟩, ⟨[0, 0, 0, 0, 0, 0, 0, 0], 0⟩, ⟨[0, 0, 0, 0, 0, 0, 0, 0], 0⟩, ⟨[0, 0, 0, 0, 0, 0, 0, 0], 0⟩, ⟨[0, 0, 0, 0, 0, 0, 0, 0], 0⟩, ⟨[0, 0, 1, 0, 0, 0, -1, 0], 1⟩, ⟨[0, 0, 1, 0, 0, 0, -1, 0], 1⟩],
   [⟨[0, 0, 0, 0, 0, 0, 0, 0], 0⟩, ⟨[0, 0, 0, 0, 0, 0, 0, 0], 0⟩, ⟨[0, 0, 0, 0, 0, 0, 0, 0], 0⟩, ⟨[0, 0, 0, 0, 0, 0, 0, 0], 0⟩, ⟨[0, 0, 0, 0, 0, 0, 0, 0], 0⟩, ⟨[0, 0, 0, 0, 0, 0, 0, 0], 0⟩, ⟨[0, 0, 1, 0, 0, 0, -1, 0], 1⟩, ⟨[0, 0, -1, 0, 0, 0, 1, 0], 1⟩]]

theorem embEq23 : embedMat [0, 1, 2] [2] (HmatK) = embLit23 := by decide

def embLit24 : MatK :=
  [[⟨[1, 0, 0, 0, 0, 0, 0, 0], 0⟩, ⟨[0, 0, 0, 0, 0, 0, 0, 0], 0⟩, ⟨[0, 0, 0, 0, 0, 0, 0, 0], 0⟩, ⟨[0, 0, 0, 0, 0, 0, 0, 0], 0⟩, ⟨[0, 0, 0, 0, 0, 0, 0, 0], 0⟩, ⟨[0, 0, 0, 0, 0, 0, 0, 0], 0⟩, ⟨[0, 0, 0, 0, 0, 0, 0, 0], 0⟩, ⟨[0, 0, 0, 0, 0, 0, 0, 0], 0⟩],
   [⟨[0, 0, 0, 0, 0, 0, 0, 0], 0⟩, ⟨[1, 0, 0, 0, 0, 0, 0, 0], 0⟩, ⟨[0, 0, 0, 0, 0, 0, 0, 0], 0⟩, ⟨[0, 0, 0, 0, 0, 0, 0, 0], 0⟩, ⟨[0, 0, 0, 0, 0, 0, 0, 0], 0⟩, ⟨[0, 0, 0, 0, 0, 0, 0, 0], 0⟩, ⟨[0, 0, 0, 0, 0, 0, 0, 0], 0⟩, ⟨[0, 0, 0, 0, 0, 0, 0, 0], 0⟩],
   [⟨[0, 0, 0, 0, 0, 0, 0, 0], 0⟩, ⟨[0, 0, 0, 0, 0, 0, 0, 0], 0⟩, ⟨[0, 0, 0, 0, 0, 0, 0, 0], 0⟩, ⟨[1, 0, 0, 0, 0, 0, 0, 0], 0⟩, ⟨[0, 0, 0, 0, 0, 0, 0, 0], 0⟩, ⟨[0, 0, 0, 0, 0, 0, 0, 0], 0⟩, ⟨[0, 0, 0, 0, 0, 0, 0, 0], 0⟩, ⟨[0, 0, 0, 0, 0, 0, 0, 0], 0⟩],
   [⟨[0, 0, 0, 0, 0, 0, 0, 0], 0⟩, ⟨[0, 0, 0, 0, 0, 0, 0, 0], 0⟩, ⟨[1, 0, 0, 0, 0, 0, 0, 0], 0⟩, ⟨[0, 0, 0, 0, 0, 0, 0, 0], 0⟩, ⟨[0, 0, 0, 0, 0, 0, 0, 0], 0⟩, ⟨[0, 0, 0, 0, 0, 0, 0, 0], 0⟩, ⟨[0, 0, 0, 0, 0, 0, 0, 0], 0⟩, ⟨[0, 0, 0, 0, 0, 0, 0, 0], 0⟩],
   [⟨[0, 0, 0, 0, 0, 0, 0, 0], 0⟩, ⟨[0, 0, 0, 0, 0, 0, 0, 0], 0⟩, ⟨[0, 0, 0, 0, 0, 0, 0, 0], 0⟩, ⟨[0, 0, 0, 0, 0, 0, 0, 0], 0⟩, ⟨[1, 0, 0, 0, 0, 0, 0, 0], 0⟩, ⟨[0, 0, 0, 0, 0, 0, 0, 0], 0⟩, ⟨[0, 0, 0, 0, 0, 0, 0, 0], 0⟩, ⟨[0, 0, 0, 0, 0, 0, 0, 0], 0⟩],
   [⟨[0, 0, 0, 0, 0, 0, 0, 0], 0⟩, ⟨[0, 0, 0, 0, 0, 0, 0, 0], 0⟩, ⟨[0, 0, 0, 0, 0, 0, 0, 0], 0⟩, ⟨[0, 0, 0, 0, 0, 0, 0, 0], 0⟩, ⟨[0, 0, 0, 0, 0, 0, 0, 0], 0⟩, ⟨[1, 0, 0, 0, 0, 0, 0, 0], 0⟩, ⟨[0, 0, 0, 0, 0, 0, 0, 0], 0⟩, ⟨[0, 0, 0, 0, 0, 0, 0, 0], 0⟩],
   [⟨[0, 0, 0, 0, 0, 0, 0, 0], 0⟩, ⟨[0, 0, 0, 0, 0, 0, 0, 0], 0⟩, ⟨[0, 0, 0, 0, 0, 0, 0, 0], 0⟩, ⟨[0, 0, 0, 0, 0, 0, 0, 0], 0⟩, ⟨[0, 0, 0, 0, 0, 0, 0, 0], 0⟩, ⟨[0, 0, 0, 0, 0, 0, 0, 0], 0⟩, ⟨[0, 0, 0, 0, 0, 0, 0, 0], 0⟩, ⟨[1, 0, 0, 0, 0, 0, 0, 0], 0⟩],
   [⟨[0, 0, 0, 0, 0, 0, 0, 0], 0⟩, ⟨[0, 0, 0, 0, 0, 0, 0, 0], 0⟩, ⟨[0, 0, 0, 0, 0, 0, 0, 0], 0⟩, ⟨[0, 0, 0, 0, 0, 0, 0, 0], 0⟩, ⟨[0, 0, 0, 0, 0, 0, 0, 0], 0⟩, ⟨[0, 0, 0, 0, 0, 0, 0, 0], 0⟩, ⟨[1, 0, 0, 0, 0, 0, 0, 0], 0⟩, ⟨[0, 0, 0, 0, 0, 0, 0, 0], 0⟩]]

theorem embEq24 : embedMat [0, 1, 2] [1, 2] (CNOTmatK) = embLit24 := by decide

def embLit25 : MatK :=
  [[⟨[1, 0, 0, 0, 0, 0, 0, 0], 0⟩, ⟨[0, 0, 0, 0, 0, 0, 0, 0], 0⟩, ⟨[0, 0, 0, 0, 0, 0, 0, 0], 0⟩, ⟨[0, 0, 0, 0, 0, 0, 0, 0], 0⟩, ⟨[0, 0, 0, 0, 0, 0, 0, 0], 0⟩, ⟨[0, 0, 0, 0, 0, 0, 0, 0], 0⟩, ⟨[0, 0, 0, 0, 0, 0, 0, 0], 0⟩, ⟨[0, 0, 0, 0, 0, 0, 0, 0], 0⟩],
   [⟨[0, 0, 0, 0, 0, 0, 0, 0], 0⟩, ⟨[0, 0, 0, 0, 0, 0, -1, 0], 0⟩, ⟨[0, 0, 0, 0, 0, 0, 0, 0], 0⟩, ⟨[0, 0, 0, 0, 0, 0, 0, 0], 0⟩, ⟨[0, 0, 0, 0, 0, 0, 0, 0], 0⟩, ⟨[0, 0, 0, 0, 0, 0, 0, 0], 0⟩, ⟨[0, 0, 0, 0, 0, 0, 0, 0], 0⟩, ⟨[0, 0, 0, 0, 0, 0, 0, 0], 0⟩],
   [⟨[0, 0, 0, 0, 0, 0, 0, 0], 0⟩, ⟨[0, 0, 0, 0, 0, 0, 0, 0], 0⟩, ⟨[1, 0, 0, 0, 0, 0, 0, 0], 0⟩, ⟨[0, 0, 0, 0, 0, 0, 0, 0], 0⟩, ⟨[0, 0, 0, 0, 0, 0, 0, 0], 0⟩, ⟨[0, 0, 0, 0, 0, 0, 0, 0], 0⟩, ⟨[0, 0, 0, 0, 0, 0, 0, 0], 0⟩, ⟨[0, 0, 0, 0, 0, 0, 0, 0], 0⟩],
   [⟨[0, 0, 0, 0, 0, 0, 0, 0], 0⟩, ⟨[0, 0, 0, 0, 0, 0, 0, 0], 0⟩, ⟨[0, 0, 0, 0, 0, 0, 0, 0], 0⟩, ⟨[0, 0, 0, 0, 0, 0, -1, 0], 0⟩, ⟨[0, 0, 0, 0, 0, 0, 0, 0], 0⟩, ⟨[0, 0, 0, 0, 0, 0, 0, 0], 0⟩, ⟨[0, 0, 0, 0, 0, 0, 0, 0], 0⟩, ⟨[0, 0, 0, 0, 0, 0, 0, 0], 0⟩],
   [⟨[0, 0, 0, 0, 0, 0, 0, 0], 0⟩, ⟨[0, 0, 0, 0, 0, 0, 0, 0], 0⟩, ⟨[0, 0, 0, 0, 0, 0, 0, 0], 0⟩, ⟨[0, 0, 0, 0, 0, 0, 0, 0], 0⟩, ⟨[1, 0, 0, 0, 0, 0, 0, 0], 0⟩, ⟨[0, 0, 0, 0, 0, 0, 0, 0], 0⟩, ⟨[0, 0, 0, 0, 0, 0, 0, 0], 0⟩, ⟨[0, 0, 0, 0, 0, 0, 0, 0], 0⟩],
   [⟨[0, 0, 0, 0, 0, 0, 0, 0], 0⟩, ⟨[0, 0, 0, 0, 0, 0, 0, 0], 0⟩, ⟨[0, 0, 0, 0, 0, 0, 0, 0], 0⟩, ⟨[0, 0, 0, 0, 0, 0, 0, 0], 0⟩, ⟨[0, 0, 0, 0, 0, 0, 0, 0], 0⟩, ⟨[0, 0, 0, 0, 0, 0, -1, 0], 0⟩, ⟨[0, 0, 0, 0, 0, 0, 0, 0], 0⟩, ⟨[0, 0, 0, 0, 0, 0, 0, 0], 0⟩],
   [⟨[0, 0, 0, 0, 0, 0, 0, 0], 0⟩, ⟨[0, 0, 0, 0, 0, 0, 0, 0], 0⟩, ⟨[0, 0, 0, 0, 0, 0, 0, 0], 0⟩, ⟨[0, 0, 0, 0, 0, 0, 0, 0], 0⟩, ⟨[0, 0, 0, 0, 0, 0, 0, 0], 0⟩, ⟨[0, 0, 0, 0, 0, 0, 0, 0], 0⟩, ⟨[1, 0, 0, 0, 0, 0, 0, 0], 0⟩, ⟨[0, 0, 0, 0, 0, 0, 0, 0], 0⟩],
   [⟨[0, 0, 0, 0, 0, 0, 0, 0], 0⟩, ⟨[0, 0, 0, 0, 0, 0, 0, 0], 0⟩, ⟨[0, 0, 0, 0, 0, 0, 0, 0], 0⟩, ⟨[0, 0, 0, 0, 0, 0, 0, 0], 0⟩, ⟨[0, 0, 0, 0, 0, 0, 0, 0], 0⟩, ⟨[0, 0, 0, 0, 0, 0, 0, 0], 0⟩, ⟨[0, 0, 0, 0, 0, 0, 0, 0], 0⟩, ⟨[0, 0, 0, 0, 0, 0, -1, 0], 0⟩]]

theorem embEq25 : embedMat [0, 1, 2] [2] (TinvmatK) = embLit25 := by decide

def embLit26 : MatK :=
  [[⟨[1, 0, 0, 0, 0, 0, 0, 0], 0⟩, ⟨[0, 0, 0, 0, 0, 0, 0, 0], 0⟩, ⟨[0, 0, 0, 0, 0, 0, 0, 0], 0⟩, ⟨[0, 0, 0, 0, 0, 0, 0, 0], 0⟩, ⟨[0, 0, 0, 0, 0, 0, 0, 0], 0⟩, ⟨[0, 0, 0, 0, 0, 0, 0, 0], 0⟩, ⟨[0, 0, 0, 0, 0, 0, 0, 0], 0⟩, ⟨[0, 0, 0, 0, 0, 0, 0, 0], 0⟩],
   [⟨[0, 0, 0, 0, 0, 0, 0, 0], 0⟩, ⟨[1, 0, 0, 0, 0, 0, 0, 0], 0⟩, ⟨[0, 0, 0, 0, 0, 0, 0, 0], 0⟩, ⟨[0, 0, 0, 0, 0, 0, 0, 0], 0⟩, ⟨[0, 0, 0, 0, 0, 0, 0, 0], 0⟩, ⟨[0, 0, 0, 0, 0, 0, 0, 0], 0⟩, ⟨[0, 0, 0, 0, 0, 0, 0, 0], 0⟩, ⟨[0, 0, 0, 0, 0, 0, 0, 0], 0⟩],
   [⟨[0, 0, 0, 0, 0, 0, 0, 0], 0⟩, ⟨[0, 0, 0, 0, 0, 0, 0, 0], 0⟩, ⟨[1, 0, 0, 0, 0, 0, 0, 0], 0⟩, ⟨[0, 0, 0, 0, 0, 0, 0, 0], 0⟩, ⟨[0, 0, 0, 0, 0, 0, 0, 0], 0⟩, ⟨[0, 0, 0, 0, 0, 0, 0, 0], 0⟩, ⟨[0, 0, 0, 0, 0, 0, 0, 0], 0⟩, ⟨[0, 0, 0, 0, 0, 0, 0, 0], 0⟩],
   [⟨[0, 0, 0, 0, 0, 0, 0, 0], 0⟩, ⟨[0, 0, 0, 0, 0, 0, 0, 0], 0⟩, ⟨[0, 0, 0, 0, 0, 0, 0, 0], 0⟩, ⟨[1, 0, 0, 0, 0, 0, 0, 0], 0⟩, ⟨[0, 0, 0, 0, 0, 0, 0, 0], 0⟩, ⟨[0, 0, 0, 0, 0, 0, 0, 0], 0⟩, ⟨[0, 0, 0, 0, 0, 0, 0, 0], 0⟩, ⟨[0, 0, 0, 0, 0, 0, 0, 0], 0⟩],
   [⟨[0, 0, 0, 0, 0, 0, 0, 0], 0⟩, ⟨[0, 0, 0, 0, 0, 0, 0, 0], 0⟩, ⟨[0, 0, 0, 0, 0, 0, 0, 0], 0⟩, ⟨[0, 0, 0, 0, 0, 0, 0, 0], 0⟩, ⟨[0, 0, 0, 0, 0, 0, 0, 0], 0⟩, ⟨[1, 0, 0, 0, 0, 0, 0, 0], 0⟩, ⟨[0, 0, 0, 0, 0, 0, 0, 0], 0⟩, ⟨[0, 0, 0, 0, 0, 0, 0, 0], 0⟩],
   [⟨[0, 0, 0, 0, 0, 0, 0, 0], 0⟩, ⟨[0, 0, 0, 0, 0, 0, 0, 0], 0⟩, ⟨[0, 0, 0, 0, 0, 0, 0, 0], 0⟩, ⟨[0, 0, 0, 0, 0, 0, 0, 0], 0⟩, ⟨[1, 0, 0, 0, 0, 0, 0, 0], 0⟩, ⟨[0, 0, 0, 0, 0, 0, 0, 0], 0⟩, ⟨[0, 0, 0, 0, 0, 0, 0, 0], 0⟩, ⟨[0, 0, 0, 0, 0, 0, 0, 0], 0⟩],
   [⟨[0, 0, 0, 0, 0, 0, 0, 0], 0⟩, ⟨[0, 0, 0, 0, 0, 0, 0, 0], 0⟩, ⟨[0, 0, 0, 0, 0, 0, 0, 0], 0⟩, ⟨[0, 0, 0, 0, 0, 0, 0, 0], 0⟩, ⟨[0, 0, 0, 0, 0, 0, 0, 0], 0⟩, ⟨[0, 0, 0, 0, 0, 0, 0, 0], 0⟩, ⟨[0, 0, 0, 0, 0, 0, 0, 0], 0⟩, ⟨[1, 0, 0, 0, 0, 0, 0, 0], 0⟩],
   [⟨[0, 0, 0, 0, 0, 0, 0, 0], 0⟩, ⟨[0, 0, 0, 0, 0, 0, 0, 0], 0⟩, ⟨[0, 0, 0, 0, 0, 0, 0, 0], 0⟩, ⟨[0, 0, 0, 0, 0, 0, 0, 0], 0⟩, ⟨[0, 0, 0, 0, 0, 0, 0, 0], 0⟩, ⟨[0, 0, 0, 0, 0, 0, 0, 0], 0⟩, ⟨[1, 0, 0, 0, 0, 0, 0, 0], 0⟩, ⟨[0, 0, 0, 0, 0, 0, 0, 0], 0⟩]]

theorem embEq26 : embedMat [0, 1, 2] [0, 2] (CNOTmatK) = embLit26 := by decide

def embLit27 : MatK :=
  [[⟨[1, 0, 0, 0, 0, 0, 0, 0], 0⟩, ⟨[0, 0, 0, 0, 0, 0, 0, 0], 0⟩, ⟨[0, 0, 0, 0, 0, 0, 0, 0], 0⟩, ⟨[0, 0, 0, 0, 0, 0, 0, 0], 0⟩, ⟨[0, 0, 0, 0, 0, 0, 0, 0], 0⟩, ⟨[0, 0, 0, 0, 0, 0, 0, 0], 0⟩, ⟨[0, 0, 0, 0, 0, 0, 0, 0], 0⟩, ⟨[0, 0, 0, 0, 0, 0, 0, 0], 0⟩],
   [⟨[0, 0, 0, 0, 0, 0, 0, 0], 0⟩, ⟨[0, 0, 1, 0, 0, 0, 0, 0], 0⟩, ⟨[0, 0, 0, 0, 0, 0, 0, 0], 0⟩, ⟨[0, 0, 0, 0, 0, 0, 0, 0], 0⟩, ⟨[0, 0, 0, 0, 0, 0, 0, 0], 0⟩, ⟨[0, 0, 0, 0, 0, 0, 0, 0], 0⟩, ⟨[0, 0, 0, 0, 0, 0, 0, 0], 0⟩, ⟨[0, 0, 0, 0, 0, 0, 0, 0], 0⟩],
   [⟨[0, 0, 0, 0, 0, 0, 0, 0], 0⟩, ⟨[0, 0, 0, 0, 0, 0, 0, 0], 0⟩, ⟨[1, 0, 0, 0, 0, 0, 0, 0], 0⟩, ⟨[0, 0, 0, 0, 0, 0, 0, 0], 0⟩, ⟨[0, 0, 0, 0, 0, 0, 0, 0], 0⟩, ⟨[0, 0, 0, 0, 0, 0, 0, 0], 0⟩, ⟨[0, 0, 0, 0, 0, 0, 0, 0], 0⟩, ⟨[0, 0, 0, 0, 0, 0, 0, 0], 0⟩],
   [⟨[0, 0, 0, 0, 0, 0, 0, 0], 0⟩, ⟨[0, 0, 0, 0, 0, 0, 0, 0], 0⟩, ⟨[0, 0, 0, 0, 0, 0, 0, 0], 0⟩, ⟨[0, 0, 1, 0, 0, 0, 0, 0], 0⟩, ⟨[0, 0, 0, 0, 0, 0, 0, 0], 0⟩, ⟨[0, 0, 0, 0, 0, 0, 0, 0], 0⟩, ⟨[0, 0, 0, 0, 0, 0, 0, 0], 0⟩, ⟨[0, 0, 0, 0, 0, 0, 0, 0], 0⟩],
   [⟨[0, 0, 0, 0, 0, 0, 0, 0], 0⟩, ⟨[0, 0, 0, 0, 0, 0, 0, 0], 0⟩, ⟨[0, 0, 0, 0, 0, 0, 0, 0], 0⟩, ⟨[0, 0, 0, 0, 0, 0, 0, 0], 0⟩, ⟨[1, 0, 0, 0, 0, 0, 0, 0], 0⟩, ⟨[0, 0, 0, 0, 0, 0, 0, 0], 0⟩, ⟨[0, 0, 0, 0, 0, 0, 0, 0], 0⟩, ⟨[0, 0, 0, 0, 0, 0, 0, 0], 0⟩],
   [⟨[0, 0, 0, 0, 0, 0, 0, 0], 0⟩, ⟨[0, 0, 0, 0, 0, 0, 0, 0], 0⟩, ⟨[0, 0, 0, 0, 0, 0, 0, 0], 0⟩, ⟨[0, 0, 0, 0, 0, 0, 0, 0], 0⟩, ⟨[0, 0, 0, 0, 0, 0, 0, 0], 0⟩, ⟨[0, 0, 1, 0, 0, 0, 0, 0], 0⟩, ⟨[0, 0, 0, 0, 0, 0, 0, 0], 0⟩, ⟨[0, 0, 0, 0, 0, 0, 0, 0], 0⟩],
   [⟨[0, 0, 0, 0, 0, 0, 0, 0], 0⟩, ⟨[0, 0, 0, 0, 0, 0, 0, 0], 0⟩, ⟨[0, 0, 0, 0, 0, 0, 0, 0], 0⟩, ⟨[0, 0, 0, 0, 0, 0, 0, 0], 0⟩, ⟨[0, 0, 0, 0, 0, 0, 0, 0], 0⟩, ⟨[0, 0, 0, 0, 0, 0, 0, 0], 0⟩, ⟨[1, 0, 0, 0, 0, 0, 0, 0], 0⟩, ⟨[0, 0, 0, 0, 0, 0, 0, 0], 0⟩],
   [⟨[0, 0, 0, 0, 0, 0, 0, 0], 0⟩, ⟨[0, 0, 0, 0, 0, 0, 0, 0], 0⟩, ⟨[0, 0, 0, 0, 0, 0, 0, 0], 0⟩, ⟨[0, 0, 0, 0, 0, 0, 0, 0], 0⟩, ⟨[0, 0, 0, 0, 0, 0, 0, 0], 0⟩, ⟨[0, 0, 0, 0, 0, 0, 0, 0], 0⟩, ⟨[0, 0, 0, 0, 0, 0, 0, 0], 0⟩, ⟨[0, 0, 1, 0, 0, 0, 0, 0], 0⟩]]

theorem embEq27 : embedMat [0, 1, 2] [2] (TmatK) = embLit27 := by decide

def embLit28 : MatK :=
  [[⟨[1, 0, 0, 0, 0, 0, 0, 0], 0⟩, ⟨[0, 0, 0, 0, 0, 0, 0, 0], 0⟩, ⟨[0, 0, 0, 0, 0, 0, 0, 0], 0⟩, ⟨[0, 0, 0, 0, 0, 0, 0, 0], 0⟩, ⟨[0, 0, 0, 0, 0, 0, 0, 0], 0⟩, ⟨[0, 0, 0, 0, 0, 0, 0, 0], 0⟩, ⟨[0, 0, 0, 0, 0, 0, 0, 0], 0⟩, ⟨[0, 0, 0, 0, 0, 0, 0, 0], 0⟩],
   [⟨[0, 0, 0, 0, 0, 0, 0, 0], 0⟩, ⟨[1, 0, 0, 0, 0, 0, 0, 0], 0⟩, ⟨[0, 0, 0, 0, 0, 0, 0, 0], 0⟩, ⟨[0, 0, 0, 0, 0, 0, 0, 0], 0⟩, ⟨[0, 0, 0, 0, 0, 0, 0, 0], 0⟩, ⟨[0, 0, 0, 0, 0, 0, 0, 0], 0⟩, ⟨[0, 0, 0, 0, 0, 0, 0, 0], 0⟩, ⟨[0, 0, 0, 0, 0, 0, 0, 0], 0⟩],
   [⟨[0, 0, 0, 0, 0, 0, 0, 0], 0⟩, ⟨[0, 0, 0, 0, 0, 0, 0, 0], 0⟩, ⟨[0, 0, 1, 0, 0, 0, 0, 0], 0⟩, ⟨[0, 0, 0, 0, 0, 0, 0, 0], 0⟩, ⟨[0, 0, 0, 0, 0, 0, 0, 0], 0⟩, ⟨[0, 0, 0, 0, 0, 0, 0, 0], 0⟩, ⟨[0, 0, 0, 0, 0, 0, 0, 0], 0⟩, ⟨[0, 0, 0, 0, 0, 0, 0, 0], 0⟩],
   [⟨[0, 0, 0, 0, 0, 0, 0, 0], 0⟩, ⟨[0, 0, 0, 0, 0, 0, 0, 0], 0⟩, ⟨[0, 0, 0, 0, 0, 0, 0, 0], 0⟩, ⟨[0, 0, 1, 0, 0, 0, 0, 0], 0⟩, ⟨[0, 0, 0, 0, 0, 0, 0, 0], 0⟩, ⟨[0, 0, 0, 0, 0, 0, 0, 0], 0⟩, ⟨[0, 0, 0, 0, 0, 0, 0, 0], 0⟩, ⟨[0, 0, 0, 0, 0, 0, 0, 0], 0⟩],
   [⟨[0, 0, 0, 0, 0, 0, 0, 0], 0⟩, ⟨[0, 0, 0, 0, 0, 0, 0, 0], 0⟩, ⟨[0, 0, 0, 0, 0, 0, 0, 0], 0⟩, ⟨[0, 0, 0, 0, 0, 0, 0, 0], 0⟩, ⟨[1, 0, 0, 0, 0, 0, 0, 0], 0⟩, ⟨[0, 0, 0, 0, 0, 0, 0, 0], 0⟩, ⟨[0, 0, 0, 0, 0, 0, 0, 0], 0⟩, ⟨[0, 0, 0, 0, 0, 0, 0, 0], 0⟩],
   [⟨[0, 0, 0, 0, 0, 0, 0, 0], 0⟩, ⟨[0, 0, 0, 0, 0, 0, 0, 0], 0⟩, ⟨[0, 0, 0, 0, 0, 0, 0, 0], 0⟩, ⟨[0, 0, 0, 0, 0, 0, 0, 0], 0⟩, ⟨[0, 0, 0, 0, 0, 0, 0, 0], 0⟩, ⟨[1, 0, 0, 0, 0, 0, 0, 0], 0⟩, ⟨[0, 0, 0, 0, 0, 0, 0, 0], 0⟩, ⟨[0, 0, 0, 0, 0, 0, 0, 0], 0⟩],
   [⟨[0, 0, 0, 0, 0, 0, 0, 0], 0⟩, ⟨[0, 0, 0, 0, 0, 0, 0, 0], 0⟩, ⟨[0, 0, 0, 0, 0, 0, 0, 0], 0⟩, ⟨[0, 0, 0, 0, 0, 0, 0, 0], 0⟩, ⟨[0, 0, 0, 0, 0, 0, 0, 0], 0⟩, ⟨[0, 0, 0, 0, 0, 0, 0, 0], 0⟩, ⟨[0, 0, 1, 0, 0, 0, 0, 0], 0⟩, ⟨[0, 0, 0, 0, 0, 0, 0, 0], 0⟩],
   [⟨[0, 0, 0, 0, 0, 0, 0, 0], 0⟩, ⟨[0, 0, 0, 0, 0, 0, 0, 0], 0⟩, ⟨[0, 0, 0, 0, 0, 0, 0, 0], 0⟩, ⟨[0, 0, 0, 0, 0, 0, 0, 0], 0⟩, ⟨[0, 0, 0, 0, 0, 0, 0, 0], 0⟩, ⟨[0, 0, 0, 0, 0, 0, 0, 0], 0⟩, ⟨[0, 0, 0, 0, 0, 0, 0, 0], 0⟩, ⟨[0, 0, 1, 0, 0, 0, 0, 0], 0⟩]]

theorem embEq28 : embedMat [0, 1, 2] [1] (TmatK) = embLit28 := by decide

def embLit29 : MatK :=
  [[⟨[1, 0, 0, 0, 0, 0, 0, 0], 0⟩, ⟨[0, 0, 0, 0, 0, 0, 0, 0], 0⟩, ⟨[0, 0, 0, 0, 0, 0, 0, 0], 0⟩, ⟨[0, 0, 0, 0, 0, 0, 0, 0], 0⟩, ⟨[0, 0, 0, 0, 0, 0, 0, 0], 0⟩, ⟨[0, 0, 0, 0, 0, 0, 0, 0], 0⟩, ⟨[0, 0, 0, 0, 0, 0, 0, 0], 0⟩, ⟨[0, 0, 0, 0, 0, 0, 0, 0], 0⟩],
   [⟨[0, 0, 0, 0, 0, 0, 0, 0], 0⟩, ⟨[1, 0, 0, 0, 0, 0, 0, 0], 0⟩, ⟨[0, 0, 0, 0, 0, 0, 0, 0], 0⟩, ⟨[0, 0, 0, 0, 0, 0, 0, 0], 0⟩, ⟨[0, 0, 0, 0, 0, 0, 0, 0], 0⟩, ⟨[0, 0, 0, 0, 0, 0, 0, 0], 0⟩, ⟨[0, 0, 0, 0, 0, 0, 0, 0], 0⟩, ⟨[0, 0, 0, 0, 0, 0, 0, 0], 0⟩],
   [⟨[0, 0, 0, 0, 0, 0, 0, 0], 0⟩, ⟨[0, 0, 0, 0, 0, 0, 0, 0], 0⟩, ⟨[1, 0, 0, 0, 0, 0, 0, 0], 0⟩, ⟨[0, 0, 0, 0, 0, 0, 0, 0], 0⟩, ⟨[0, 0, 0, 0, 0, 0, 0, 0], 0⟩, ⟨[0, 0, 0, 0, 0, 0, 0, 0], 0⟩, ⟨[0, 0, 0, 0, 0, 0, 0, 0], 0⟩, ⟨[0, 0, 0, 0, 0, 0, 0, 0], 0⟩],
   [⟨[0, 0, 0, 0, 0, 0, 0, 0], 0⟩, ⟨[0, 0, 0, 0, 0, 0, 0, 0], 0⟩, ⟨[0, 0, 0, 0, 0, 0, 0, 0], 0⟩, ⟨[1, 0, 0, 0, 0, 0, 0, 0], 0⟩, ⟨[0, 0, 0, 0, 0, 0, 0, 0], 0⟩, ⟨[0, 0, 0, 0, 0, 0, 0, 0], 0⟩, ⟨[0, 0, 0, 0, 0, 0, 0, 0], 0⟩, ⟨[0, 0, 0, 0, 0, 0, 0, 0], 0⟩],
   [⟨[0, 0, 0, 0, 0, 0, 0, 0], 0⟩, ⟨[0, 0, 0, 0, 0, 0, 0, 0], 0⟩, ⟨[0, 0, 0, 0, 0, 0, 0, 0], 0⟩, ⟨[0, 0, 0, 0, 0, 0, 0, 0], 0⟩, ⟨[0, 0, 0, 0, 0, 0, 0, 0], 0⟩, ⟨[0, 0, 0, 0, 0, 0, 0, 0], 0⟩, ⟨[1, 0, 0, 0, 0, 0, 0, 0], 0⟩, ⟨[0, 0, 0, 0, 0, 0, 0, 0], 0⟩],
   [⟨[0, 0, 0, 0, 0, 0, 0, 0], 0⟩, ⟨[0, 0, 0, 0, 0, 0, 0, 0], 0⟩, ⟨[0, 0, 0, 0, 0, 0, 0, 0], 0⟩, ⟨[0, 0, 0, 0, 0, 0, 0, 0], 0⟩, ⟨[0, 0, 0, 0, 0, 0, 0, 0], 0⟩, ⟨[0, 0, 0, 0, 0, 0, 0, 0], 0⟩, ⟨[0, 0, 0, 0, 0, 0, 0, 0], 0⟩, ⟨[1, 0, 0, 0, 0, 0, 0, 0], 0⟩],
   [⟨[0, 0, 0, 0, 0, 0, 0, 0], 0⟩, ⟨[0, 0, 0, 0, 0, 0, 0, 0], 0⟩, ⟨[0, 0, 0, 0, 0, 0, 0, 0], 0⟩, ⟨[0, 0, 0, 0, 0, 0, 0, 0], 0⟩, ⟨[1, 0, 0, 0, 0, 0, 0, 0], 0⟩, ⟨[0, 0, 0, 0, 0, 0, 0, 0], 0⟩, ⟨[0, 0, 0, 0, 0, 0, 0, 0], 0⟩, ⟨[0, 0, 0, 0, 0, 0, 0, 0], 0⟩],
   [⟨[0, 0, 0, 0, 0, 0, 0, 0], 0⟩, ⟨[0, 0, 0, 0, 0, 0, 0, 0], 0⟩, ⟨[0, 0, 0, 0, 0, 0, 0, 0], 0⟩, ⟨[0, 0, 0, 0, 0, 0, 0, 0], 0⟩, ⟨[0, 0, 0, 0, 0, 0, 0, 0], 0⟩, ⟨[1, 0, 0, 0, 0, 0, 0, 0], 0⟩, ⟨[0, 0, 0, 0, 0, 0, 0, 0], 0⟩, ⟨[0, 0, 0, 0, 0, 0, 0, 0], 0⟩]]

theorem embEq29 : embedMat [0, 1, 2] [0, 1] (CNOTmatK) = embLit29 := by decide

def embLit30 : MatK :=
  [[⟨[1, 0, 0, 0, 0, 0, 0, 0], 0⟩, ⟨[0, 0, 0, 0, 0, 0, 0, 0], 0⟩, ⟨[0, 0, 0, 0, 0, 0, 0, 0], 0⟩, ⟨[0, 0, 0, 0, 0, 0, 0, 0], 0⟩, ⟨[0, 0, 0, 0, 0, 0, 0, 0], 0⟩, ⟨[0, 0, 0, 0, 0, 0, 0, 0], 0⟩, ⟨[0, 0, 0, 0, 0, 0, 0, 0], 0⟩, ⟨[0, 0, 0, 0, 0, 0, 0, 0], 0⟩],
   [⟨[0, 0, 0, 0, 0, 0, 0, 0], 0⟩, ⟨[1, 0, 0, 0, 0, 0, 0, 0], 0⟩, ⟨[0, 0, 0, 0, 0, 0, 0, 0], 0⟩, ⟨[0, 0, 0, 0, 0, 0, 0, 0], 0⟩, ⟨[0, 0, 0, 0, 0, 0, 0, 0], 0⟩, ⟨[0, 0, 0, 0, 0, 0, 0, 0], 0⟩, ⟨[0, 0, 0, 0, 0, 0, 0, 0], 0⟩, ⟨[0, 0, 0, 0, 0, 0, 0, 0], 0⟩],
   [⟨[0, 0, 0, 0, 0, 0, 0, 0], 0⟩, ⟨[0, 0, 0, 0, 0, 0, 0, 0], 0⟩, ⟨[1, 0, 0, 0, 0, 0, 0, 0], 0⟩, ⟨[0, 0, 0, 0, 0, 0, 0, 0], 0⟩, ⟨[0, 0, 0, 0, 0, 0, 0, 0], 0⟩, ⟨[0, 0, 0, 0, 0, 0, 0, 0], 0⟩, ⟨[0, 0, 0, 0, 0, 0, 0, 0], 0⟩, ⟨[0, 0, 0, 0, 0, 0, 0, 0], 0⟩],
   [⟨[0, 0, 0, 0, 0, 0, 0, 0], 0⟩, ⟨[0, 0, 0, 0, 0, 0, 0, 0], 0⟩, ⟨[0, 0, 0, 0, 0, 0, 0, 0], 0⟩, ⟨[1, 0, 0, 0, 0, 0, 0, 0], 0⟩, ⟨[0, 0, 0, 0, 0, 0, 0, 0], 0⟩, ⟨[0, 0, 0, 0, 0, 0, 0, 0], 0⟩, ⟨[0, 0, 0, 0, 0, 0, 0, 0], 0⟩, ⟨[0, 0, 0, 0, 0, 0, 0, 0], 0⟩],
   [⟨[0, 0, 0, 0, 0, 0, 0, 0], 0⟩, ⟨[0, 0, 0, 0, 0, 0, 0, 0], 0⟩, ⟨[0, 0, 0, 0, 0, 0, 0, 0], 0⟩, ⟨[0, 0, 0, 0, 0, 0, 0, 0], 0⟩, ⟨[0, 0, 1, 0, 0, 0, 0, 0], 0⟩, ⟨[0, 0, 0, 0, 0, 0, 0, 0], 0⟩, ⟨[0, 0, 0, 0, 0, 0, 0, 0], 0⟩, ⟨[0, 0, 0, 0, 0, 0, 0, 0], 0⟩],
   [⟨[0, 0, 0, 0, 0, 0, 0, 0], 0⟩, ⟨[0, 0, 0, 0, 0, 0, 0, 0], 0⟩, ⟨[0, 0, 0, 0, 0, 0, 0, 0], 0⟩, ⟨[0, 0, 0, 0, 0, 0, 0, 0], 0⟩, ⟨[0, 0, 0, 0, 0, 0, 0, 0], 0⟩, ⟨[0, 0, 1, 0, 0, 0, 0, 0], 0⟩, ⟨[0, 0, 0, 0, 0, 0, 0, 0], 0⟩, ⟨[0, 0, 0, 0, 0, 0, 0, 0], 0⟩],
   [⟨[0, 0, 0, 0, 0, 0, 0, 0], 0⟩, ⟨[0, 0, 0, 0, 0, 0, 0, 0], 0⟩, ⟨[0, 0, 0, 0, 0, 0, 0, 0], 0⟩, ⟨[0, 0, 0, 0, 0, 0, 0, 0], 0⟩, ⟨[0, 0, 0, 0, 0, 0, 0, 0], 0⟩, ⟨[0, 0, 0, 0, 0, 0, 0, 0], 0⟩, ⟨[0, 0, 1, 0, 0, 0, 0, 0], 0⟩, ⟨[0, 0, 0, 0, 0, 0, 0, 0], 0⟩],
   [⟨[0, 0, 0, 0, 0, 0, 0, 0], 0⟩, ⟨[0, 0, 0, 0, 0, 0, 0, 0], 0⟩, ⟨[0, 0, 0, 0, 0, 0, 0, 0], 0⟩, ⟨[0, 0, 0, 0, 0, 0, 0, 0], 0⟩, ⟨[0, 0, 0, 0, 0, 0, 0, 0], 0⟩, ⟨[0, 0, 0, 0, 0, 0, 0, 0], 0⟩, ⟨[0, 0, 0, 0, 0, 0, 0, 0], 0⟩, ⟨[0, 0, 1, 0, 0, 0, 0, 0], 0⟩]]

theorem embEq30 : embedMat [0, 1, 2] [0] (TmatK) = embLit30 := by decide

def embLit31 : MatK :=
  [[⟨[1, 0, 0, 0, 0, 0, 0, 0], 0⟩, ⟨[0, 0, 0, 0, 0, 0, 0, 0], 0⟩, ⟨[0, 0, 0, 0, 0, 0, 0, 0], 0⟩, ⟨[0, 0, 0, 0, 0, 0, 0, 0], 0⟩, ⟨[0, 0, 0, 0, 0, 0, 0, 0], 0⟩, ⟨[0, 0, 0, 0, 0, 0, 0, 0], 0⟩, ⟨[0, 0, 0, 0, 0, 0, 0, 0], 0⟩, ⟨[0, 0, 0, 0, 0, 0, 0, 0], 0⟩],
   [⟨[0, 0, 0, 0, 0, 0, 0, 0], 0⟩, ⟨[1, 0, 0, 0, 0, 0, 0, 0], 0⟩, ⟨[0, 0, 0, 0, 0, 0, 0, 0], 0⟩, ⟨[0, 0, 0, 0, 0, 0, 0, 0], 0⟩, ⟨[0, 0, 0, 0, 0, 0, 0, 0], 0⟩, ⟨[0, 0, 0, 0, 0, 0, 0, 0], 0⟩, ⟨[0, 0, 0, 0, 0, 0, 0, 0], 0⟩, ⟨[0, 0, 0, 0, 0, 0, 0, 0], 0⟩],
   [⟨[0, 0, 0, 0, 0, 0, 0, 0], 0⟩, ⟨[0, 0, 0, 0, 0, 0, 0, 0], 0⟩, ⟨[0, 0, 0, 0, 0, 0, -1, 0], 0⟩, ⟨[0, 0, 0, 0, 0, 0, 0, 0], 0⟩, ⟨[0, 0, 0, 0, 0, 0, 0, 0], 0⟩, ⟨[0, 0, 0, 0, 0, 0, 0, 0], 0⟩, ⟨[0, 0, 0, 0, 0, 0, 0, 0], 0⟩, ⟨[0, 0, 0, 0, 0, 0, 0, 0], 0⟩],
   [⟨[0, 0, 0, 0, 0, 0, 0, 0], 0⟩, ⟨[0, 0, 0, 0, 0, 0, 0, 0], 0⟩, ⟨[0, 0, 0, 0, 0, 0, 0, 0], 0⟩, ⟨[0, 0, 0, 0, 0, 0, -1, 0], 0⟩, ⟨[0, 0, 0, 0, 0, 0, 0, 0], 0⟩, ⟨[0, 0, 0, 0, 0, 0, 0, 0], 0⟩, ⟨[0, 0, 0, 0, 0, 0, 0, 0], 0⟩, ⟨[0, 0, 0, 0, 0, 0, 0, 0], 0⟩],
   [⟨[0, 0, 0, 0, 0, 0, 0, 0], 0⟩, ⟨[0, 0, 0, 0, 0, 0, 0, 0], 0⟩, ⟨[0, 0, 0, 0, 0, 0, 0, 0], 0⟩, ⟨[0, 0, 0, 0, 0, 0, 0, 0], 0⟩, ⟨[1, 0, 0, 0, 0, 0, 0, 0], 0⟩, ⟨[0, 0, 0, 0, 0, 0, 0, 0], 0⟩, ⟨[0, 0, 0, 0, 0, 0, 0, 0], 0⟩, ⟨[0, 0, 0, 0, 0, 0, 0, 0], 0⟩],
   [⟨[0, 0, 0, 0, 0, 0, 0, 0], 0⟩, ⟨[0, 0, 0, 0, 0, 0, 0, 0], 0⟩, ⟨[0, 0, 0, 0, 0, 0, 0, 0], 0⟩, ⟨[0, 0, 0, 0, 0, 0, 0, 0], 0⟩, ⟨[0, 0, 0, 0, 0, 0, 0, 0], 0⟩, ⟨[1, 0, 0, 0, 0, 0, 0, 0], 0⟩, ⟨[0, 0, 0, 0, 0, 0, 0, 0], 0⟩, ⟨[0, 0, 0, 0, 0, 0, 0, 0], 0⟩],
   [⟨[0, 0, 0, 0, 0, 0, 0, 0], 0⟩, ⟨[0, 0, 0, 0, 0, 0, 0, 0], 0⟩, ⟨[0, 0, 0, 0, 0, 0, 0, 0], 0⟩, ⟨[0, 0, 0, 0, 0, 0, 0, 0], 0⟩, ⟨[0, 0, 0, 0, 0, 0, 0, 0], 0⟩, ⟨[0, 0, 0, 0, 0, 0, 0, 0], 0⟩, ⟨[0, 0, 0, 0, 0, 0, -1, 0], 0⟩, ⟨[0, 0, 0, 0, 0, 0, 0, 0], 0⟩],
   [⟨[0, 0, 0, 0, 0, 0, 0, 0], 0⟩, ⟨[0, 0, 0, 0, 0, 0, 0, 0], 0⟩, ⟨[0, 0, 0, 0, 0, 0, 0, 0], 0⟩, ⟨[0, 0, 0, 0, 0, 0, 0, 0], 0⟩, ⟨[0, 0, 0, 0, 0, 0, 0, 0], 0⟩, ⟨[0, 0, 0, 0, 0, 0, 0, 0], 0⟩, ⟨[0, 0, 0, 0, 0, 0, 0, 0], 0⟩, ⟨[0, 0, 0, 0, 0, 0, -1, 0], 0⟩]]

theorem embEq31 : embedMat [0, 1, 2] [1] (TinvmatK) = embLit31 := by decide

def embLit32 : MatK :=
  [[⟨[0, 0, 0, 0, 0, 0, 0, 0], 0⟩, ⟨[0, 0, 0, 0, 0, 0, 0, 0], 0⟩, ⟨[1, 0, 0, 0, 0, 0, 0, 0], 0⟩, ⟨[0, 0, 0, 0, 0, 0, 0, 0], 0⟩],
   [⟨[0, 0, 0, 0, 0, 0, 0, 0], 0⟩, ⟨[0, 0, 0, 0, 0, 0, 0, 0], 0⟩, ⟨[0, 0, 0, 0, 0, 0, 0, 0], 0⟩, ⟨[1, 0, 0, 0, 0, 0, 0, 0], 0⟩],
   [⟨[1, 0, 0, 0, 0, 0, 0, 0], 0⟩, ⟨[0, 0, 0, 0, 0, 0, 0, 0], 0⟩, ⟨[0, 0, 0, 0, 0, 0, 0, 0], 0⟩, ⟨[0, 0, 0, 0, 0, 0, 0, 0], 0⟩],
   [⟨[0, 0, 0, 0, 0, 0, 0, 0], 0⟩, ⟨[1, 0, 0, 0, 0, 0, 0, 0], 0⟩, ⟨[0, 0, 0, 0, 0, 0, 0, 0], 0⟩, ⟨[0, 0, 0, 0, 0, 0, 0, 0], 0⟩]]

theorem embEq32 : embedMat [0, 1] [0] (XmatK) = embLit32 := by decide

def embLit33 : MatK :=
  [[⟨[0, 0, 0, 0, 0, 0, 0, 0], 0⟩, ⟨[0, 0, 0, 0, 0, 0, 0, 0], 0⟩, ⟨[1, 0, 0, 0, 0, 0, 0, 0], 0⟩, ⟨[0, 0, 0, 0, 0, 0, 0, 0], 0⟩, ⟨[0, 0, 0, 0, 0, 0, 0, 0], 0⟩, ⟨[0, 0, 0, 0, 0, 0, 0, 0], 0⟩, ⟨[0, 0, 0, 0, 0, 0, 0, 0], 0⟩, ⟨[0, 0, 0, 0, 0, 0, 0, 0], 0⟩],
   [⟨[0, 0, 0, 0, 0, 0, 0, 0], 0⟩, ⟨[0, 0, 0, 0, 0, 0, 0, 0], 0⟩, ⟨[0, 0, 0, 0, 0, 0, 0, 0], 0⟩, ⟨[1, 0, 0, 0, 0, 0, 0, 0], 0⟩, ⟨[0, 0, 0, 0, 0, 0, 0, 0], 0⟩, ⟨[0, 0, 0, 0, 0, 0, 0, 0], 0⟩, ⟨[0, 0, 0, 0, 0, 0, 0, 0], 0⟩, ⟨[0, 0, 0, 0, 0, 0, 0, 0], 0⟩],
   [⟨[1, 0, 0, 0, 0, 0, 0, 0], 0⟩, ⟨[0, 0, 0, 0, 0, 0, 0, 0], 0⟩, ⟨[0, 0, 0, 0, 0, 0, 0, 0], 0⟩, ⟨[0, 0, 0, 0, 0, 0, 0, 0], 0⟩, ⟨[0, 0, 0, 0, 0, 0, 0, 0], 0⟩, ⟨[0, 0, 0, 0, 0, 0, 0, 0], 0⟩, ⟨[0, 0, 0, 0, 0, 0, 0, 0], 0⟩, ⟨[0, 0, 0, 0, 0, 0, 0, 0], 0⟩],
   [⟨[0, 0, 0, 0, 0, 0, 0, 0], 0⟩, ⟨[1, 0, 0, 0, 0, 0, 0, 0], 0⟩, ⟨[0, 0, 0, 0, 0, 0, 0, 0], 0⟩, ⟨[0, 0, 0, 0, 0, 0, 0, 0], 0⟩, ⟨[0, 0, 0, 0, 0, 0, 0, 0], 0⟩, ⟨[0, 0, 0, 0, 0, 0, 0, 0], 0⟩, ⟨[0, 0, 0, 0, 0, 0, 0, 0], 0⟩, ⟨[0, 0, 0, 0, 0, 0, 0, 0], 0⟩],
   [⟨[0, 0, 0, 0, 0, 0, 0, 0], 0⟩, ⟨[0, 0, 0, 0, 0, 0, 0, 0], 0⟩, ⟨[0, 0, 0, 0, 0, 0, 0, 0], 0⟩, ⟨[0, 0, 0, 0, 0, 0, 0, 0], 0⟩, ⟨[0, 0, 0, 0, 0, 0, 0, 0], 0⟩, ⟨[0, 0, 0, 0, 0, 0, 0, 0], 0⟩, ⟨[1, 0, 0, 0, 0, 0, 0, 0], 0⟩, ⟨[0, 0, 0, 0, 0, 0, 0, 0], 0⟩],
   [⟨[0, 0, 0, 0, 0, 0, 0, 0], 0⟩, ⟨[0, 0, 0, 0, 0, 0, 0, 0], 0⟩, ⟨[0, 0, 0, 0, 0, 0, 0, 0], 0⟩, ⟨[0, 0, 0, 0, 0, 0, 0, 0], 0⟩, ⟨[0, 0, 0, 0, 0, 0, 0, 0], 0⟩, ⟨[0, 0, 0, 0, 0, 0, 0, 0], 0⟩, ⟨[0, 0, 0, 0, 0, 0, 0, 0], 0⟩, ⟨[1, 0, 0, 0, 0, 0, 0, 0], 0⟩],
   [⟨[0, 0, 0, 0, 0, 0, 0, 0], 0⟩, ⟨[0, 0, 0, 0, 0, 0, 0, 0], 0⟩, ⟨[0, 0, 0, 0, 0, 0, 0, 0], 0⟩, ⟨[0, 0, 0, 0, 0, 0, 0, 0], 0⟩, ⟨[1, 0, 0, 0, 0, 0, 0, 0], 0⟩, ⟨[0, 0, 0, 0, 0, 0, 0, 0], 0⟩, ⟨[0, 0, 0, 0, 0, 0, 0, 0], 0⟩, ⟨[0, 0, 0, 0, 0, 0, 0, 0], 0⟩],
   [⟨[0, 0, 0, 0, 0, 0, 0, 0], 0⟩, ⟨[0, 0, 0, 0, 0, 0, 0, 0], 0⟩, ⟨[0, 0, 0, 0, 0, 0, 0, 0], 0⟩, ⟨[0, 0, 0, 0, 0, 0, 0, 0], 0⟩, ⟨[0, 0, 0, 0, 0, 0, 0, 0], 0⟩, ⟨[1, 0, 0, 0, 0, 0, 0, 0], 0⟩, ⟨[0, 0, 0, 0, 0, 0, 0, 0], 0⟩, ⟨[0, 0, 0, 0, 0, 0, 0, 0], 0⟩]]

theorem embEq33 : embedMat [0, 1, 2] [1] (XmatK) = embLit33 := by decide

def hadamardGPart1 : MatK :=
  [[⟨[1, 0, 0, 0, 0, 0, 0, 0], 0⟩, ⟨[0, 0, 0, 0, 0, 0, 0, 0], 0⟩],
   [⟨[0, 0, 0, 0, 0, 0, 0, 0], 0⟩, ⟨[0, 0, 0, 0, 1, 0, 0, 0], 0⟩]]

theorem hadamardGStep1 : matMulK embLit0 (idK 2) = hadamardGPart1 := by decide

def hadamardGPart2 : MatK :=
  [[⟨[0, 0, 1, 0, 0, 0, -1, 0], 1⟩, ⟨[0, 0, 1, 0, 0, 0, -1, 0], 1⟩],
   [⟨[0, 0, -1, 0, 0, 0, -1, 0], 1⟩, ⟨[0, 0, 1, 0, 0, 0, 1, 0], 1⟩]]

theorem hadamardGStep2 : matMulK embLit1 hadamardGPart1 = hadamardGPart2 := by decide

def hadamardGPart3 : MatK :=
  [[⟨[0, 0, 1, 0, 0, 0, -1, 0], 1⟩, ⟨[0, 0, 1, 0, 0, 0, -1, 0], 1⟩],
   [⟨[0, 0, 1, 0, 0, 0, -1, 0], 1⟩, ⟨[0, 0, -1, 0, 0, 0, 1, 0], 1⟩]]

theorem hadamardGStep3 : matMulK embLit0 hadamardGPart2 = hadamardGPart3 := by decide

theorem hadamardGBuild : build_unitary hadamardDecomp [0] = hadamardGPart3 := by
  simp only [build_unitary, hadamardDecomp, List.foldl_cons, List.foldl_nil, List.length_cons, List.length_nil, Nat.reducePow, Nat.reduceAdd, embEq0, embEq1, hadamardGStep1, hadamardGStep2, hadamardGStep3]

def pauliXGPart1 : MatK :=
  [[⟨[1, 0, 0, 0, 0, 0, 0, 0], 0⟩, ⟨[0, 0, 0, 0, 0, 0, 0, 0], 0⟩],
   [⟨[0, 0, 0, 0, 0, 0, 0, 0], 0⟩, ⟨[0, 0, 0, 0, 1, 0, 0, 0], 0⟩]]

theorem pauliXGStep1 : matMulK embLit0 (idK 2) = pauliXGPart1 := by decide

def pauliXGPart2 : MatK :=
  [[⟨[0, 0, 0, 0, 0, 0, 0, 0], 0⟩, ⟨[1, 0, 0, 0, 0, 0, 0, 0], 0⟩],
   [⟨[0, 0, 0, 0, -1, 0, 0, 0], 0⟩, ⟨[0, 0, 0, 0, 0, 0, 0, 0], 0⟩]]

theorem pauliXGStep2 : matMulK embLit2 pauliXGPart1 = pauliXGPart2 := by decide

def pauliXGPart3 : MatK :=
  [[⟨[0, 0, 0, 0, 0, 0, 0, 0], 0⟩, ⟨[1, 0, 0, 0, 0, 0, 0, 0], 0⟩],
   [⟨[1, 0, 0, 0, 0, 0, 0, 0], 0⟩, ⟨[0, 0, 0, 0, 0, 0, 0, 0], 0⟩]]

theorem pauliXGStep3 : matMulK embLit0 pauliXGPart2 = pauliXGPart3 := by decide

theorem pauliXGBuild : build_unitary pauliXDecomp [0] = pauliXGPart3 := by
  simp only [build_unitary, pauliXDecomp, List.foldl_cons, List.foldl_nil, List.length_cons, List.length_nil, Nat.reducePow, Nat.reduceAdd, embEq0, embEq2, pauliXGStep1, pauliXGStep2, pauliXGStep3]

def pauliYGPart1 : MatK :=
  [[⟨[1, 0, 0, 0, 0, 0, 0, 0], 0⟩, ⟨[0, 0, 0, 0, 0, 0, 0, 0], 0⟩],
   [⟨[0, 0, 0, 0, 0, 0, 0, 0], 0⟩, ⟨[0, 0, 0, 0, 1, 0, 0, 0], 0⟩]]

theorem pauliYGStep1 : matMulK embLit0 (idK 2) = pauliYGPart1 := by decide

def pauliYGPart2 : MatK :=
  [[⟨[0, 0, 0, 0, 0, 0, 0, 0], 0⟩, ⟨[0, 0, 0, 0, -1, 0, 0, 0], 0⟩],
   [⟨[1, 0, 0, 0, 0, 0, 0, 0], 0⟩, ⟨[0, 0, 0, 0, 0, 0, 0, 0], 0⟩]]

theorem pauliYGStep2 : matMulK embLit3 pauliYGPart1 = pauliYGPart2 := by decide

def pauliYGPart3 : MatK :=
  [[⟨[0, 0, 0, 0, 0, 0, 0, 0], 0⟩, ⟨[0, 0, 0, 0, -1, 0, 0, 0], 0⟩],
   [⟨[0, 0, 0, 0, 1, 0, 0, 0], 0⟩, ⟨[0, 0, 0, 0, 0, 0, 0, 0], 0⟩]]

theorem pauliYGStep3 : matMulK embLit0 pauliYGPart2 = pauliYGPart3 := by decide

theorem pauliYGBuild : build_unitary pauliYDecomp [0] = pauliYGPart3 := by
  simp only [build_unitary, pauliYDecomp, List.foldl_cons, List.foldl_nil, List.length_cons, List.length_nil, Nat.reducePow, Nat.reduceAdd, embEq0, embEq3, pauliYGStep1, pauliYGStep2, pauliYGStep3]

def pauliZGPart1 : MatK :=
  [[⟨[1, 0, 0, 0, 0, 0, 0, 0], 0⟩, ⟨[0, 0, 0, 0, 0, 0, 0, 0], 0⟩],
   [⟨[0, 0, 0, 0, 0, 0, 0, 0], 0⟩, ⟨[-1, 0, 0, 0, 0, 0, 0, 0], 0⟩]]

theorem pauliZGStep1 : matMulK embLit4 (idK 2) = pauliZGPart1 := by decide

theorem pauliZGBuild : build_unitary pauliZDecomp [0] = pauliZGPart1 := by
  simp only [build_unitary, pauliZDecomp, List.foldl_cons, List.foldl_nil, List.length_cons, List.length_nil, Nat.reducePow, Nat.reduceAdd, embEq4, pauliZGStep1]

def sGPart1 : MatK :=
  [[⟨[1, 0, 0, 0, 0, 0, 0, 0], 0⟩, ⟨[0, 0, 0, 0, 0, 0, 0, 0], 0⟩],
   [⟨[0, 0, 0, 0, 0, 0, 0, 0], 0⟩, ⟨[0, 0, 0, 0, 1, 0, 0, 0], 0⟩]]

theorem sGStep1 : matMulK embLit0 (idK 2) = sGPart1 := by decide

theorem sGBuild : build_unitary sDecomp [0] = sGPart1 := by
  simp only [build_unitary, sDecomp, List.foldl_cons, List.foldl_nil, List.length_cons, List.length_nil, Nat.reducePow, Nat.reduceAdd, embEq0, sGStep1]

def tGPart1 : MatK :=
  [[⟨[1, 0, 0, 0, 0, 0, 0, 0], 0⟩, ⟨[0, 0, 0, 0, 0, 0, 0, 0], 0⟩],
   [⟨[0, 0, 0, 0, 0, 0, 0, 0], 0⟩, ⟨[0, 0, 1, 0, 0, 0, 0, 0], 0⟩]]

theorem tGStep1 : matMulK embLit5 (idK 2) = tGPart1 := by decide

theorem tGBuild : build_unitary tDecomp [0] = tGPart1 := by
  simp only [build_unitary, tDecomp, List.foldl_cons, List.foldl_nil, List.length_cons, List.length_nil, Nat.reducePow, Nat.reduceAdd, embEq5, tGStep1]

def sxGPart1 : MatK :=
  [[⟨[0, 0, 0, 0, 0, 0, -1, 0], 0⟩, ⟨[0, 0, 0, 0, 0, 0, 0, 0], 0⟩],
   [⟨[0, 0, 0, 0, 0, 0, 0, 0], 0⟩, ⟨[0, 0, 1, 0, 0, 0, 0, 0], 0⟩]]

theorem sxGStep1 : matMulK embLit6 (idK 2) = sxGPart1 := by decide

def sxGPart2 : MatK :=
  [[⟨[1, 0, 0, 0, -1, 0, 0, 0], 1⟩, ⟨[-1, 0, 0, 0, -1, 0, 0, 0], 1⟩],
   [⟨[1, 0, 0, 0, -1, 0, 0, 0], 1⟩, ⟨[1, 0, 0, 0, 1, 0, 0, 0], 1⟩]]

theorem sxGStep2 : matMulK embLit7 sxGPart1 = sxGPart2 := by decide

def sxGPart3 : MatK :=
  [[⟨[1, 0, 0, 0, 1, 0, 0, 0], 1⟩, ⟨[1, 0, 0, 0, -1, 0, 0, 0], 1⟩],
   [⟨[-1, 0, 0, 0, -1, 0, 0, 0], 1⟩, ⟨[1, 0, 0, 0, -1, 0, 0, 0], 1⟩]]

theorem sxGStep3 : matMulK embLit8 sxGPart2 = sxGPart3 := by decide

def sxGPart4 : MatK :=
  [[⟨[1, 0, 0, 0, 1, 0, 0, 0], 1⟩, ⟨[1, 0, 0, 0, -1, 0, 0, 0], 1⟩],
   [⟨[1, 0, 0, 0, -1, 0, 0, 0], 1⟩, ⟨[1, 0, 0, 0, 1, 0, 0, 0], 1⟩]]

theorem sxGStep4 : matMulK embLit0 sxGPart3 = sxGPart4 := by decide

theorem sxGBuild : build_unitary sxDecomp [0] = sxGPart4 := by
  simp only [build_unitary, sxDecomp, List.foldl_cons, List.foldl_nil, List.length_cons, List.length_nil, Nat.reducePow, Nat.reduceAdd, embEq6, embEq7, embEq8, embEq0, sxGStep1, sxGStep2, sxGStep3, sxGStep4]

def cyGPart1 : MatK :=
  [[⟨[1, 0, 0, 0, 0, 0, 0, 0], 0⟩, ⟨[0, 0, 0, 0, 0, 0, 0, 0], 0⟩, ⟨[0, 0, 0, 0, 0, 0, 0, 0], 0⟩, ⟨[0, 0, 0, 0, 0, 0, 0, 0], 0⟩],
   [⟨[0, 0, 0, 0, 0, 0, 0, 0], 0⟩, ⟨[1, 0, 0, 0, 0, 0, 0, 0], 0⟩, ⟨[0, 0, 0, 0, 0, 0, 0, 0], 0⟩, ⟨[0, 0, 0, 0, 0, 0, 0, 0], 0⟩],
   [⟨[0, 0, 0, 0, 0, 0, 0, 0], 0⟩, ⟨[0, 0, 0, 0, 0, 0, 0, 0], 0⟩, ⟨[0, 0, 0, 0, 0, 0, 0, 0], 0⟩, ⟨[-1, 0, 0, 0, 0, 0, 0, 0], 0⟩],
   [⟨[0, 0, 0, 0, 0, 0, 0, 0], 0⟩, ⟨[0, 0, 0, 0, 0, 0, 0, 0], 0⟩, ⟨[1, 0, 0, 0, 0, 0, 0, 0], 0⟩, ⟨[0, 0, 0, 0, 0, 0, 0, 0], 0⟩]]

theorem cyGStep1 : matMulK embLit9 (idK 4) = cyGPart1 := by decide

def cyGPart2 : MatK :=
  [[⟨[1, 0, 0, 0, 0, 0, 0, 0], 0⟩, ⟨[0, 0, 0, 0, 0, 0, 0, 0], 0⟩, ⟨[0, 0, 0, 0, 0, 0, 0, 0], 0⟩, ⟨[0, 0, 0, 0, 0, 0, 0, 0], 0⟩],
   [⟨[0, 0, 0, 0, 0, 0, 0, 0], 0⟩, ⟨[1, 0, 0, 0, 0, 0, 0, 0], 0⟩, ⟨[0, 0, 0, 0, 0, 0, 0, 0], 0⟩, ⟨[0, 0, 0, 0, 0, 0, 0, 0], 0⟩],
   [⟨[0, 0, 0, 0, 0, 0, 0, 0], 0⟩, ⟨[0, 0, 0, 0, 0, 0, 0, 0], 0⟩, ⟨[0, 0, 0, 0, 0, 0, 0, 0], 0⟩, ⟨[0, 0, 0, 0, -1, 0, 0, 0], 0⟩],
   [⟨[0, 0, 0, 0, 0, 0, 0, 0], 0⟩, ⟨[0, 0, 0, 0, 0, 0, 0, 0], 0⟩, ⟨[0, 0, 0, 0, 1, 0, 0, 0], 0⟩, ⟨[0, 0, 0, 0, 0, 0, 0, 0], 0⟩]]

theorem cyGStep2 : matMulK embLit10 cyGPart1 = cyGPart2 := by decide

theorem cyGBuild : build_unitary cyDecomp [0, 1] = cyGPart2 := by
  simp only [build_unitary, cyDecomp, List.foldl_cons, List.foldl_nil, List.length_cons, List.length_nil, Nat.reducePow, Nat.reduceAdd, embEq9, embEq10, cyGStep1, cyGStep2]

def swapGPart1 : MatK :=
  [[⟨[1, 0, 0, 0, 0, 0, 0, 0], 0⟩, ⟨[0, 0, 0, 0, 0, 0, 0, 0], 0⟩, ⟨[0, 0, 0, 0, 0, 0, 0, 0], 0⟩, ⟨[0, 0, 0, 0, 0, 0, 0, 0], 0⟩],
   [⟨[0, 0, 0, 0, 0, 0, 0, 0], 0⟩, ⟨[1, 0, 0, 0, 0, 0, 0, 0], 0⟩, ⟨[0, 0, 0, 0, 0, 0, 0, 0], 0⟩, ⟨[0, 0, 0, 0, 0, 0, 0, 0], 0⟩],
   [⟨[0, 0, 0, 0, 0, 0, 0, 0], 0⟩, ⟨[0, 0, 0, 0, 0, 0, 0, 0], 0⟩, ⟨[0, 0, 0, 0, 0, 0, 0, 0], 0⟩, ⟨[1, 0, 0, 0, 0, 0, 0, 0], 0⟩],
   [⟨[0, 0, 0, 0, 0, 0, 0, 0], 0⟩, ⟨[0, 0, 0, 0, 0, 0, 0, 0], 0⟩, ⟨[1, 0, 0, 0, 0, 0, 0, 0], 0⟩, ⟨[0, 0, 0, 0, 0, 0, 0, 0], 0⟩]]

theorem swapGStep1 : matMulK embLit11 (idK 4) = swapGPart1 := by decide

def swapGPart2 : MatK :=
  [[⟨[1, 0, 0, 0, 0, 0, 0, 0], 0⟩, ⟨[0, 0, 0, 0, 0, 0, 0, 0], 0⟩, ⟨[0, 0, 0, 0, 0, 0, 0, 0], 0⟩, ⟨[0, 0, 0, 0, 0, 0, 0, 0], 0⟩],
   [⟨[0, 0, 0, 0, 0, 0, 0, 0], 0⟩, ⟨[0, 0, 0, 0, 0, 0, 0, 0], 0⟩, ⟨[1, 0, 0, 0, 0, 0, 0, 0], 0⟩, ⟨[0, 0, 0, 0, 0, 0, 0, 0], 0⟩],
   [⟨[0, 0, 0, 0, 0, 0, 0, 0], 0⟩, ⟨[0, 0, 0, 0, 0, 0, 0, 0], 0⟩, ⟨[0, 0, 0, 0, 0, 0, 0, 0], 0⟩, ⟨[1, 0, 0, 0, 0, 0, 0, 0], 0⟩],
   [⟨[0, 0, 0, 0, 0, 0, 0, 0], 0⟩, ⟨[1, 0, 0, 0, 0, 0, 0, 0], 0⟩, ⟨[0, 0, 0, 0, 0, 0, 0, 0], 0⟩, ⟨[0, 0, 0, 0, 0, 0, 0, 0], 0⟩]]

theorem swapGStep2 : matMulK embLit12 swapGPart1 = swapGPart2 := by decide

def swapGPart3 : MatK :=
  [[⟨[1, 0, 0, 0, 0, 0, 0, 0], 0⟩, ⟨[0, 0, 0, 0, 0, 0, 0, 0], 0⟩, ⟨[0, 0, 0, 0, 0, 0, 0, 0], 0⟩, ⟨[0, 0, 0, 0, 0, 0, 0, 0], 0⟩],
   [⟨[0, 0, 0, 0, 0, 0, 0, 0], 0⟩, ⟨[0, 0, 0, 0, 0, 0, 0, 0], 0⟩, ⟨[1, 0, 0, 0, 0, 0, 0, 0], 0⟩, ⟨[0, 0, 0, 0, 0, 0, 0, 0], 0⟩],
   [⟨[0, 0, 0, 0, 0, 0, 0, 0], 0⟩, ⟨[1, 0, 0, 0, 0, 0, 0, 0], 0⟩, ⟨[0, 0, 0, 0, 0, 0, 0, 0], 0⟩, ⟨[0, 0, 0, 0, 0, 0, 0, 0], 0⟩],
   [⟨[0, 0, 0, 0, 0, 0, 0, 0], 0⟩, ⟨[0, 0, 0, 0, 0, 0, 0, 0], 0⟩, ⟨[0, 0, 0, 0, 0, 0, 0, 0], 0⟩, ⟨[1, 0, 0, 0, 0, 0, 0, 0], 0⟩]]

theorem swapGStep3 : matMulK embLit11 swapGPart2 = swapGPart3 := by decide

theorem swapGBuild : build_unitary swapDecomp [0, 1] = swapGPart3 := by
  simp only [build_unitary, swapDecomp, List.foldl_cons, List.foldl_nil, List.length_cons, List.length_nil, Nat.reducePow, Nat.reduceAdd, embEq11, embEq12, swapGStep1, swapGStep2, swapGStep3]

def iswapGPart1 : MatK :=
  [[⟨[1, 0, 0, 0, 0, 0, 0, 0], 0⟩, ⟨[0, 0, 0, 0, 0, 0, 0, 0], 0⟩, ⟨[0, 0, 0, 0, 0, 0, 0, 0], 0⟩, ⟨[0, 0, 0, 0, 0, 0, 0, 0], 0⟩],
   [⟨[0, 0, 0, 0, 0, 0, 0, 0], 0⟩, ⟨[1, 0, 0, 0, 0, 0, 0, 0], 0⟩, ⟨[0, 0, 0, 0, 0, 0, 0, 0], 0⟩, ⟨[0, 0, 0, 0, 0, 0, 0, 0], 0⟩],
   [⟨[0, 0, 0, 0, 0, 0, 0, 0], 0⟩, ⟨[0, 0, 0, 0, 0, 0, 0, 0], 0⟩, ⟨[0, 0, 0, 0, 1, 0, 0, 0], 0⟩, ⟨[0, 0, 0, 0, 0, 0, 0, 0], 0⟩],
   [⟨[0, 0, 0, 0, 0, 0, 0, 0], 0⟩, ⟨[0, 0, 0, 0, 0, 0, 0, 0], 0⟩, ⟨[0, 0, 0, 0, 0, 0, 0, 0], 0⟩, ⟨[0, 0, 0, 0, 1, 0, 0, 0], 0⟩]]

theorem iswapGStep1 : matMulK embLit10 (idK 4) = iswapGPart1 := by decide

def iswapGPart2 : MatK :=
  [[⟨[1, 0, 0, 0, 0, 0, 0, 0], 0⟩, ⟨[0, 0, 0, 0, 0, 0, 0, 0], 0⟩, ⟨[0, 0, 0, 0, 0, 0, 0, 0], 0⟩, ⟨[0, 0, 0, 0, 0, 0, 0, 0], 0⟩],
   [⟨[0, 0, 0, 0, 0, 0, 0, 0], 0⟩, ⟨[0, 0, 0, 0, 1, 0, 0, 0], 0⟩, ⟨[0, 0, 0, 0, 0, 0, 0, 0], 0⟩, ⟨[0, 0, 0, 0, 0, 0, 0, 0], 0⟩],
   [⟨[0, 0, 0, 0, 0, 0, 0, 0], 0⟩, ⟨[0, 0, 0, 0, 0, 0, 0, 0], 0⟩, ⟨[0, 0, 0, 0, 1, 0, 0, 0], 0⟩, ⟨[0, 0, 0, 0, 0, 0, 0, 0], 0⟩],
   [⟨[0, 0, 0, 0, 0, 0, 0, 0], 0⟩, ⟨[0, 0, 0, 0, 0, 0, 0, 0], 0⟩, ⟨[0, 0, 0, 0, 0, 0, 0, 0], 0⟩, ⟨[-1, 0, 0, 0, 0, 0, 0, 0], 0⟩]]

theorem iswapGStep2 : matMulK embLit13 iswapGPart1 = iswapGPart2 := by decide

def iswapGPart3 : MatK :=
  [[⟨[0, 0, 1, 0, 0, 0, -1, 0], 1⟩, ⟨[0, 0, 0, 0, 0, 0, 0, 0], 0⟩, ⟨[0, 0, 1, 0, 0, 0, 1, 0], 1⟩, ⟨[0, 0, 0, 0, 0, 0, 0, 0], 0⟩],
   [⟨[0, 0, 0, 0, 0, 0, 0, 0], 0⟩, ⟨[0, 0, 1, 0, 0, 0, 1, 0], 1⟩, ⟨[0, 0, 0, 0, 0, 0, 0, 0], 0⟩, ⟨[0, 0, -1, 0, 0, 0, 1, 0], 1⟩],
   [⟨[0, 0, 1, 0, 0, 0, -1, 0], 1⟩, ⟨[0, 0, 0, 0, 0, 0, 0, 0], 0⟩, ⟨[0, 0, -1, 0, 0, 0, -1, 0], 1⟩, ⟨[0, 0, 0, 0, 0, 0, 0, 0], 0⟩],
   [⟨[0, 0, 0, 0, 0, 0, 0, 0], 0⟩, ⟨[0, 0, 1, 0, 0, 0, 1, 0], 1⟩, ⟨[0, 0, 0, 0, 0, 0, 0, 0], 0⟩, ⟨[0, 0, 1, 0, 0, 0, -1, 0], 1⟩]]

theorem iswapGStep3 : matMulK embLit14 iswapGPart2 = iswapGPart3 := by decide

def iswapGPart4 : MatK :=
  [[⟨[0, 0, 1, 0, 0, 0, -1, 0], 1⟩, ⟨[0, 0, 0, 0, 0, 0, 0, 0], 0⟩, ⟨[0, 0, 1, 0, 0, 0, 1, 0], 1⟩, ⟨[0, 0, 0, 0, 0, 0, 0, 0], 0⟩],
   [⟨[0, 0, 0, 0, 0, 0, 0, 0], 0⟩, ⟨[0, 0, 1, 0, 0, 0, 1, 0], 1⟩, ⟨[0, 0, 0, 0, 0, 0, 0, 0], 0⟩, ⟨[0, 0, -1, 0, 0, 0, 1, 0], 1⟩],
   [⟨[0, 0, 0, 0, 0, 0, 0, 0], 0⟩, ⟨[0, 0, 1, 0, 0, 0, 1, 0], 1⟩, ⟨[0, 0, 0, 0, 0, 0, 0, 0], 0⟩, ⟨[0, 0, 1, 0, 0, 0, -1, 0], 1⟩],
   [⟨[0, 0, 1, 0, 0, 0, -1, 0], 1⟩, ⟨[0, 0, 0, 0, 0, 0, 0, 0], 0⟩, ⟨[0, 0, -1, 0, 0, 0, -1, 0], 1⟩, ⟨[0, 0, 0, 0, 0, 0, 0, 0], 0⟩]]

theorem iswapGStep4 : matMulK embLit11 iswapGPart3 = iswapGPart4 := by decide

def iswapGPart5 : MatK :=
  [[⟨[0, 0, 1, 0, 0, 0, -1, 0], 1⟩, ⟨[0, 0, 0, 0, 0, 0, 0, 0], 0⟩, ⟨[0, 0, 1, 0, 0, 0, 1, 0], 1⟩, ⟨[0, 0, 0, 0, 0, 0, 0, 0], 0⟩],
   [⟨[0, 0, 1, 0, 0, 0, -1, 0], 1⟩, ⟨[0, 0, 0, 0, 0, 0, 0, 0], 0⟩, ⟨[0, 0, -1, 0, 0, 0, -1, 0], 1⟩, ⟨[0, 0, 0, 0, 0, 0, 0, 0], 0⟩],
   [⟨[0, 0, 0, 0, 0, 0, 0, 0], 0⟩, ⟨[0, 0, 1, 0, 0, 0, 1, 0], 1⟩, ⟨[0, 0, 0, 0, 0, 0, 0, 0], 0⟩, ⟨[0, 0, 1, 0, 0, 0, -1, 0], 1⟩],
   [⟨[0, 0, 0, 0, 0, 0, 0, 0], 0⟩, ⟨[0, 0, 1, 0, 0, 0, 1, 0], 1⟩, ⟨[0, 0, 0, 0, 0, 0, 0, 0], 0⟩, ⟨[0, 0, -1, 0, 0, 0, 1, 0], 1⟩]]

theorem iswapGStep5 : matMulK embLit12 iswapGPart4 = iswapGPart5 := by decide

def iswapGPart6 : MatK :=
  [[⟨[1, 0, 0, 0, 0, 0, 0, 0], 0⟩, ⟨[0, 0, 0, 0, 0, 0, 0, 0], 0⟩, ⟨[0, 0, 0, 0, 0, 0, 0, 0], 0⟩, ⟨[0, 0, 0, 0, 0, 0, 0, 0], 0⟩],
   [⟨[0, 0, 0, 0, 0, 0, 0, 0], 0⟩, ⟨[0, 0, 0, 0, 0, 0, 0, 0], 0⟩, ⟨[0, 0, 0, 0, 1, 0, 0, 0], 0⟩, ⟨[0, 0, 0, 0, 0, 0, 0, 0], 0⟩],
   [⟨[0, 0, 0, 0, 0, 0, 0, 0], 0⟩, ⟨[0, 0, 0, 0, 1, 0, 0, 0], 0⟩, ⟨[0, 0, 0, 0, 0, 0, 0, 0], 0⟩, ⟨[0, 0, 0, 0, 0, 0, 0, 0], 0⟩],
   [⟨[0, 0, 0, 0, 0, 0, 0, 0], 0⟩, ⟨[0, 0, 0, 0, 0, 0, 0, 0], 0⟩, ⟨[0, 0, 0, 0, 0, 0, 0, 0], 0⟩, ⟨[1, 0, 0, 0, 0, 0, 0, 0], 0⟩]]

theorem iswapGStep6 : matMulK embLit15 iswapGPart5 = iswapGPart6 := by decide

theorem iswapGBuild : build_unitary iswapDecomp [0, 1] = iswapGPart6 := by
  simp only [build_unitary, iswapDecomp, List.foldl_cons, List.foldl_nil, List.length_cons, List.length_nil, Nat.reducePow, Nat.reduceAdd, embEq10, embEq13, embEq14, embEq11, embEq12, embEq15, iswapGStep1, iswapGStep2, iswapGStep3, iswapGStep4, iswapGStep5, iswapGStep6]

def siswapGPart1 : MatK :=
  [[⟨[1, 0, 0, 0, 1, 0, 0, 0], 1⟩, ⟨[0, 0, 0, 0, 0, 0, 0, 0], 0⟩, ⟨[1, 0, 0, 0, -1, 0, 0, 0], 1⟩, ⟨[0, 0, 0, 0, 0, 0, 0, 0], 0⟩],
   [⟨[0, 0, 0, 0, 0, 0, 0, 0], 0⟩, ⟨[1, 0, 0, 0, 1, 0, 0, 0], 1⟩, ⟨[0, 0, 0, 0, 0, 0, 0, 0], 0⟩, ⟨[1, 0, 0, 0, -1, 0, 0, 0], 1⟩],
   [⟨[1, 0, 0, 0, -1, 0, 0, 0], 1⟩, ⟨[0, 0, 0, 0, 0, 0, 0, 0], 0⟩, ⟨[1, 0, 0, 0, 1, 0, 0, 0], 1⟩, ⟨[0, 0, 0, 0, 0, 0, 0, 0], 0⟩],
   [⟨[0, 0, 0, 0, 0, 0, 0, 0], 0⟩, ⟨[1, 0, 0, 0, -1, 0, 0, 0], 1⟩, ⟨[0, 0, 0, 0, 0, 0, 0, 0], 0⟩, ⟨[1, 0, 0, 0, 1, 0, 0, 0], 1⟩]]

theorem siswapGStep1 : matMulK embLit16 (idK 4) = siswapGPart1 := by decide

def siswapGPart2 : MatK :=
  [[⟨[0, 0, 1, 0, 0, 0, -1, 0], 1⟩, ⟨[0, 0, 0, 0, 0, 0, 0, 0], 0⟩, ⟨[0, 0, -1, 0, 0, 0, -1, 0], 1⟩, ⟨[0, 0, 0, 0, 0, 0, 0, 0], 0⟩],
   [⟨[0, 0, 0, 0, 0, 0, 0, 0], 0⟩, ⟨[0, 0, 1, 0, 0, 0, -1, 0], 1⟩, ⟨[0, 0, 0, 0, 0, 0, 0, 0], 0⟩, ⟨[0, 0, -1, 0, 0, 0, -1, 0], 1⟩],
   [⟨[0, 0, 1, 0, 0, 0, -1, 0], 1⟩, ⟨[0, 0, 0, 0, 0, 0, 0, 0], 0⟩, ⟨[0, 0, 1, 0, 0, 0, 1, 0], 1⟩, ⟨[0, 0, 0, 0, 0, 0, 0, 0], 0⟩],
   [⟨[0, 0, 0, 0, 0, 0, 0, 0], 0⟩, ⟨[0, 0, 1, 0, 0, 0, -1, 0], 1⟩, ⟨[0, 0, 0, 0, 0, 0, 0, 0], 0⟩, ⟨[0, 0, 1, 0, 0, 0, 1, 0], 1⟩]]

theorem siswapGStep2 : matMulK embLit17 siswapGPart1 = siswapGPart2 := by decide

def siswapGPart3 : MatK :=
  [[⟨[0, 0, 1, 0, 0, 0, -1, 0], 1⟩, ⟨[0, 0, 0, 0, 0, 0, 0, 0], 0⟩, ⟨[0, 0, -1, 0, 0, 0, -1, 0], 1⟩, ⟨[0, 0, 0, 0, 0, 0, 0, 0], 0⟩],
   [⟨[0, 0, 0, 0, 0, 0, 0, 0], 0⟩, ⟨[0, 0, 1, 0, 0, 0, -1, 0], 1⟩, ⟨[0, 0, 0, 0, 0, 0, 0, 0], 0⟩, ⟨[0, 0, -1, 0, 0, 0, -1, 0], 1⟩],
   [⟨[0, 0, 0, 0, 0, 0, 0, 0], 0⟩, ⟨[0, 0, 1, 0, 0, 0, -1, 0], 1⟩, ⟨[0, 0, 0, 0, 0, 0, 0, 0], 0⟩, ⟨[0, 0, 1, 0, 0, 0, 1, 0], 1⟩],
   [⟨[0, 0, 1, 0, 0, 0, -1, 0], 1⟩, ⟨[0, 0, 0, 0, 0, 0, 0, 0], 0⟩, ⟨[0, 0, 1, 0, 0, 0, 1, 0], 1⟩, ⟨[0, 0, 0, 0, 0, 0, 0, 0], 0⟩]]

theorem siswapGStep3 : matMulK embLit11 siswapGPart2 = siswapGPart3 := by decide

def siswapGPart4 : MatK :=
  [[⟨[0, 0, 1, 0, 0, 0, 0, 0], 1⟩, ⟨[0, 0, 0, 0, 0, 0, -1, 0], 1⟩, ⟨[0, 0, 0, 0, 0, 0, -1, 0], 1⟩, ⟨[0, 0, 1, 0, 0, 0, 0, 0], 1⟩],
   [⟨[0, 0, 0, 0, 0, 0, -1, 0], 1⟩, ⟨[0, 0, 1, 0, 0, 0, 0, 0], 1⟩, ⟨[0, 0, 1, 0, 0, 0, 0, 0], 1⟩, ⟨[0, 0, 0, 0, 0, 0, -1, 0], 1⟩],
   [⟨[0, 0, 0, 0, 0, 0, -1, 0], 1⟩, ⟨[0, 0, 1, 0, 0, 0, 0, 0], 1⟩, ⟨[0, 0, -1, 0, 0, 0, 0, 0], 1⟩, ⟨[0, 0, 0, 0, 0, 0, 1, 0], 1⟩],
   [⟨[0, 0, 1, 0, 0, 0, 0, 0], 1⟩, ⟨[0, 0, 0, 0, 0, 0, -1, 0], 1⟩, ⟨[0, 0, 0, 0, 0, 0, 1, 0], 1⟩, ⟨[0, 0, -1, 0, 0, 0, 0, 0], 1⟩]]

theorem siswapGStep4 : matMulK embLit16 siswapGPart3 = siswapGPart4 := by decide

def siswapGPart5 : MatK :=
  [[⟨[0, 0, 0, -1, 0, 0, 0, 0], 1⟩, ⟨[0, 0, 0, 0, 0, 0, 0, 1], 1⟩, ⟨[0, 0, 0, 0, 0, 0, 0, 1], 1⟩, ⟨[0, 0, 0, -1, 0, 0, 0, 0], 1⟩],
   [⟨[0, 0, 0, 0, 0, 0, 0, 1], 1⟩, ⟨[0, 0, 0, -1, 0, 0, 0, 0], 1⟩, ⟨[0, 0, 0, -1, 0, 0, 0, 0], 1⟩, ⟨[0, 0, 0, 0, 0, 0, 0, 1], 1⟩],
   [⟨[0, 0, 0, 0, 0, 1, 0, 0], 1⟩, ⟨[0, -1, 0, 0, 0, 0, 0, 0], 1⟩, ⟨[0, 1, 0, 0, 0, 0, 0, 0], 1⟩, ⟨[0, 0, 0, 0, 0, -1, 0, 0], 1⟩],
   [⟨[0, -1, 0, 0, 0, 0, 0, 0], 1⟩, ⟨[0, 0, 0, 0, 0, 1, 0, 0], 1⟩, ⟨[0, 0, 0, 0, 0, -1, 0, 0], 1⟩, ⟨[0, 1, 0, 0, 0, 0, 0, 0], 1⟩]]

theorem siswapGStep5 : matMulK embLit18 siswapGPart4 = siswapGPart5 := by decide

def siswapGPart6 : MatK :=
  [[⟨[0, 1, 0, -1, 0, 1, 0, -1], 2⟩, ⟨[0, -1, 0, -1, 0, 1, 0, 1], 2⟩, ⟨[0, 1, 0, -1, 0, -1, 0, 1], 2⟩, ⟨[0, -1, 0, -1, 0, -1, 0, -1], 2⟩],
   [⟨[0, -1, 0, -1, 0, 1, 0, 1], 2⟩, ⟨[0, 1, 0, -1, 0, 1, 0, -1], 2⟩, ⟨[0, -1, 0, -1, 0, -1, 0, -1], 2⟩, ⟨[0, 1, 0, -1, 0, -1, 0, 1], 2⟩],
   [⟨[0, -1, 0, -1, 0, 1, 0, 1], 2⟩, ⟨[0, -1, 0, 1, 0, -1, 0, 1], 2⟩, ⟨[0, 1, 0, 1, 0, 1, 0, 1], 2⟩, ⟨[0, 1, 0, -1, 0, -1, 0, 1], 2⟩],
   [⟨[0, -1, 0, 1, 0, -1, 0, 1], 2⟩, ⟨[0, -1, 0, -1, 0, 1, 0, 1], 2⟩, ⟨[0, 1, 0, -1, 0, -1, 0, 1], 2⟩, ⟨[0, 1, 0, 1, 0, 1, 0, 1], 2⟩]]

theorem siswapGStep6 : matMulK embLit16 siswapGPart5 = siswapGPart6 := by decide

def siswapGPart7 : MatK :=
  [[⟨[0, -1, 0, 1, 0, -1, 0, -1], 2⟩, ⟨[0, -1, 0, 1, 0, 1, 0, 1], 2⟩, ⟨[0, -1, 0, -1, 0, 1, 0, -1], 2⟩, ⟨[0, -1, 0, -1, 0, -1, 0, 1], 2⟩],
   [⟨[0, -1, 0, 1, 0, 1, 0, 1], 2⟩, ⟨[0, -1, 0, 1, 0, -1, 0, -1], 2⟩, ⟨[0, -1, 0, -1, 0, -1, 0, 1], 2⟩, ⟨[0, -1, 0, -1, 0, 1, 0, -1], 2⟩],
   [⟨[0, -1, 0, -1, 0, -1, 0, 1], 2⟩, ⟨[0, -1, 0, -1, 0, 1, 0, -1], 2⟩, ⟨[0, -1, 0, 1, 0, 1, 0, 1], 2⟩, ⟨[0, -1, 0, 1, 0, -1, 0, -1], 2⟩],
   [⟨[0, -1, 0, -1, 0, 1, 0, -1], 2⟩, ⟨[0, -1, 0, -1, 0, -1, 0, 1], 2⟩, ⟨[0, -1, 0, 1, 0, -1, 0, -1], 2⟩, ⟨[0, -1, 0, 1, 0, 1, 0, 1], 2⟩]]

theorem siswapGStep7 : matMulK embLit17 siswapGPart6 = siswapGPart7 := by decide

def siswapGPart8 : MatK :=
  [[⟨[0, 0, 0, 1, 0, 0, 0, 0], 1⟩, ⟨[0, -1, 0, 0, 0, 0, 0, 0], 1⟩, ⟨[0, -1, 0, 0, 0, 0, 0, 0], 1⟩, ⟨[0, 0, 0, -1, 0, 0, 0, 0], 1⟩],
   [⟨[0, -1, 0, 0, 0, 0, 0, 0], 1⟩, ⟨[0, 0, 0, 1, 0, 0, 0, 0], 1⟩, ⟨[0, 0, 0, -1, 0, 0, 0, 0], 1⟩, ⟨[0, -1, 0, 0, 0, 0, 0, 0], 1⟩],
   [⟨[0, 0, 0, -1, 0, 0, 0, 0], 1⟩, ⟨[0, -1, 0, 0, 0, 0, 0, 0], 1⟩, ⟨[0, -1, 0, 0, 0, 0, 0, 0], 1⟩, ⟨[0, 0, 0, 1, 0, 0, 0, 0], 1⟩],
   [⟨[0, -1, 0, 0, 0, 0, 0, 0], 1⟩, ⟨[0, 0, 0, -1, 0, 0, 0, 0], 1⟩, ⟨[0, 0, 0, 1, 0, 0, 0, 0], 1⟩, ⟨[0, -1, 0, 0, 0, 0, 0, 0], 1⟩]]

theorem siswapGStep8 : matMulK embLit19 siswapGPart7 = siswapGPart8 := by decide

def siswapGPart9 : MatK :=
  [[⟨[0, 0, 0, 0, -1, 0, 0, 0], 1⟩, ⟨[0, 0, 1, 0, 0, 0, 0, 0], 1⟩, ⟨[0, 0, 1, 0, 0, 0, 0, 0], 1⟩, ⟨[0, 0, 0, 0, 1, 0, 0, 0], 1⟩],
   [⟨[1, 0, 0, 0, 0, 0, 0, 0], 1⟩, ⟨[0, 0, -1, 0, 0, 0, 0, 0], 1⟩, ⟨[0, 0, 1, 0, 0, 0, 0, 0], 1⟩, ⟨[1, 0, 0, 0, 0, 0, 0, 0], 1⟩],
   [⟨[0, 0, 0, 0, 1, 0, 0, 0], 1⟩, ⟨[0, 0, 1, 0, 0, 0, 0, 0], 1⟩, ⟨[0, 0, 1, 0, 0, 0, 0, 0], 1⟩, ⟨[0, 0, 0, 0, -1, 0, 0, 0], 1⟩],
   [⟨[1, 0, 0, 0, 0, 0, 0, 0], 1⟩, ⟨[0, 0, 1, 0, 0, 0, 0, 0], 1⟩, ⟨[0, 0, -1, 0, 0, 0, 0, 0], 1⟩, ⟨[1, 0, 0, 0, 0, 0, 0, 0], 1⟩]]

theorem siswapGStep9 : matMulK embLit20 siswapGPart8 = siswapGPart9 := by decide

def siswapGPart10 : MatK :=
  [[⟨[0, 0, 0, 0, -1, 0, 0, 0], 1⟩, ⟨[0, 0, 1, 0, 0, 0, 0, 0], 1⟩, ⟨[0, 0, 1, 0, 0, 0, 0, 0], 1⟩, ⟨[0, 0, 0, 0, 1, 0, 0, 0], 1⟩],
   [⟨[1, 0, 0, 0, 0, 0, 0, 0], 1⟩, ⟨[0, 0, -1, 0, 0, 0, 0, 0], 1⟩, ⟨[0, 0, 1, 0, 0, 0, 0, 0], 1⟩, ⟨[1, 0, 0, 0, 0, 0, 0, 0], 1⟩],
   [⟨[1, 0, 0, 0, 0, 0, 0, 0], 1⟩, ⟨[0, 0, 1, 0, 0, 0, 0, 0], 1⟩, ⟨[0, 0, -1, 0, 0, 0, 0, 0], 1⟩, ⟨[1, 0, 0, 0, 0, 0, 0, 0], 1⟩],
   [⟨[0, 0, 0, 0, 1, 0, 0, 0], 1⟩, ⟨[0, 0, 1, 0, 0, 0, 0, 0], 1⟩, ⟨[0, 0, 1, 0, 0, 0, 0, 0], 1⟩, ⟨[0, 0, 0, 0, -1, 0, 0, 0], 1⟩]]

theorem siswapGStep10 : matMulK embLit11 siswapGPart9 = siswapGPart10 := by decide

def siswapGPart11 : MatK :=
  [[⟨[1, 0, 0, 0, -1, 0, 0, 0], 1⟩, ⟨[0, 0, 1, 0, 0, 0, 0, 0], 1⟩, ⟨[0, 0, 0, 0, 0, 0, 1, 0], 1⟩, ⟨[0, 0, 0, 0, 0, 0, 0, 0], 0⟩],
   [⟨[1, 0, 0, 0, 1, 0, 0, 0], 1⟩, ⟨[0, 0, 0, 0, 0, 0, -1, 0], 1⟩, ⟨[0, 0, 1, 0, 0, 0, 0, 0], 1⟩, ⟨[0, 0, 0, 0, 0, 0, 0, 0], 0⟩],
   [⟨[0, 0, 0, 0, 0, 0, 0, 0], 0⟩, ⟨[0, 0, 1, 0, 0, 0, 0, 0], 1⟩, ⟨[0, 0, 0, 0, 0, 0, -1, 0], 1⟩, ⟨[1, 0, 0, 0, 1, 0, 0, 0], 1⟩],
   [⟨[0, 0, 0, 0, 0, 0, 0, 0], 0⟩, ⟨[0, 0, 0, 0, 0, 0, 1, 0], 1⟩, ⟨[0, 0, 1, 0, 0, 0, 0, 0], 1⟩, ⟨[1, 0, 0, 0, -1, 0, 0, 0], 1⟩]]

theorem siswapGStep11 : matMulK embLit16 siswapGPart10 = siswapGPart11 := by decide

def siswapGPart12 : MatK :=
  [[⟨[1, 0, 0, 0, 0, 0, 0, 0], 0⟩, ⟨[0, 0, 0, 0, 0, 0, 0, 0], 0⟩, ⟨[0, 0, 0, 0, 0, 0, 0, 0], 0⟩, ⟨[0, 0, 0, 0, 0, 0, 0, 0], 0⟩],
   [⟨[0, 0, 0, 0, 0, 0, 0, 0], 0⟩, ⟨[0, 0, 1, 0, 0, 0, -1, 0], 1⟩, ⟨[0, 0, 1, 0, 0, 0, 1, 0], 1⟩, ⟨[0, 0, 0, 0, 0, 0, 0, 0], 0⟩],
   [⟨[0, 0, 0, 0, 0, 0, 0, 0], 0⟩, ⟨[0, 0, 1, 0, 0, 0, 1, 0], 1⟩, ⟨[0, 0, 1, 0, 0, 0, -1, 0], 1⟩, ⟨[0, 0, 0, 0, 0, 0, 0, 0], 0⟩],
   [⟨[0, 0, 0, 0, 0, 0, 0, 0], 0⟩, ⟨[0, 0, 0, 0, 0, 0, 0, 0], 0⟩, ⟨[0, 0, 0, 0, 0, 0, 0, 0], 0⟩, ⟨[1, 0, 0, 0, 0, 0, 0, 0], 0⟩]]

theorem siswapGStep12 : matMulK embLit19 siswapGPart11 = siswapGPart12 := by decide

theorem siswapGBuild : build_unitary siswapDecomp [0, 1] = siswapGPart12 := by
  simp only [build_unitary, siswapDecomp, List.foldl_cons, List.foldl_nil, List.length_cons, List.length_nil, Nat.reducePow, Nat.reduceAdd, embEq16, embEq17, embEq11, embEq18, embEq19, embEq20, siswapGStep1, siswapGStep2, siswapGStep3, siswapGStep4, siswapGStep5, siswapGStep6, siswapGStep7, siswapGStep8, siswapGStep9, siswapGStep10, siswapGStep11, siswapGStep12]

def cswapGPart1 : MatK :=
  [[⟨[1, 0, 0, 0, 0, 0, 0, 0], 0⟩, ⟨[0, 0, 0, 0, 0, 0, 0, 0], 0⟩, ⟨[0, 0, 0, 0, 0, 0, 0, 0], 0⟩, ⟨[0, 0, 0, 0, 0, 0, 0, 0], 0⟩, ⟨[0, 0, 0, 0, 0, 0, 0, 0], 0⟩, ⟨[0, 0, 0, 0, 0, 0, 0, 0], 0⟩, ⟨[0, 0, 0, 0, 0, 0, 0, 0], 0⟩, ⟨[0, 0, 0, 0, 0, 0, 0, 0], 0⟩],
   [⟨[0, 0, 0, 0, 0, 0, 0, 0], 0⟩, ⟨[1, 0, 0, 0, 0, 0, 0, 0], 0⟩, ⟨[0, 0, 0, 0, 0, 0, 0, 0], 0⟩, ⟨[0, 0, 0, 0, 0, 0, 0, 0], 0⟩, ⟨[0, 0, 0, 0, 0, 0, 0, 0], 0⟩, ⟨[0, 0, 0, 0, 0, 0, 0, 0], 0⟩, ⟨[0, 0, 0, 0, 0, 0, 0, 0], 0⟩, ⟨[0, 0, 0, 0, 0, 0, 0, 0], 0⟩],
   [⟨[0, 0, 0, 0, 0, 0, 0, 0], 0⟩, ⟨[0, 0, 0, 0, 0, 0, 0, 0], 0⟩, ⟨[1, 0, 0, 0, 0, 0, 0, 0], 0⟩, ⟨[0, 0, 0, 0, 0, 0, 0, 0], 0⟩, ⟨[0, 0, 0, 0, 0, 0, 0, 0], 0⟩, ⟨[0, 0, 0, 0, 0, 0, 0, 0], 0⟩, ⟨[0, 0, 0, 0, 0, 0, 0, 0], 0⟩, ⟨[0, 0, 0, 0, 0, 0, 0, 0], 0⟩],
   [⟨[0, 0, 0, 0, 0, 0, 0, 0], 0⟩, ⟨[0, 0, 0, 0, 0, 0, 0, 0], 0⟩, ⟨[0, 0, 0, 0, 0, 0, 0, 0], 0⟩, ⟨[1, 0, 0, 0, 0, 0, 0, 0], 0⟩, ⟨[0, 0, 0, 0, 0, 0, 0, 0], 0⟩, ⟨[0, 0, 0, 0, 0, 0, 0, 0], 0⟩, ⟨[0, 0, 0, 0, 0, 0, 0, 0], 0⟩, ⟨[0, 0, 0, 0, 0, 0, 0, 0], 0⟩],
   [⟨[0, 0, 0, 0, 0, 0, 0, 0], 0⟩, ⟨[0, 0, 0, 0, 0, 0, 0, 0], 0⟩, ⟨[0, 0, 0, 0, 0, 0, 0, 0], 0⟩, ⟨[0, 0, 0, 0, 0, 0, 0, 0], 0⟩, ⟨[1, 0, 0, 0, 0, 0, 0, 0], 0⟩, ⟨[0, 0, 0, 0, 0, 0, 0, 0], 0⟩, ⟨[0, 0, 0, 0, 0, 0, 0, 0], 0⟩, ⟨[0, 0, 0, 0, 0, 0, 0, 0], 0⟩],
   [⟨[0, 0, 0, 0, 0, 0, 0, 0], 0⟩, ⟨[0, 0, 0, 0, 0, 0, 0, 0], 0⟩, ⟨[0, 0, 0, 0, 0, 0, 0, 0], 0⟩, ⟨[0, 0, 0, 0, 0, 0, 0, 0], 0⟩, ⟨[0, 0, 0, 0, 0, 0, 0, 0], 0⟩, ⟨[0, 0, 0, 0, 0, 0, 0, 0], 0⟩, ⟨[0, 0, 0, 0, 0, 0, 0, 0], 0⟩, ⟨[1, 0, 0, 0, 0, 0, 0, 0], 0⟩],
   [⟨[0, 0, 0, 0, 0, 0, 0, 0], 0⟩, ⟨[0, 0, 0, 0, 0, 0, 0, 0], 0⟩, ⟨[0, 0, 0, 0, 0, 0, 0, 0], 0⟩, ⟨[0, 0, 0, 0, 0, 0, 0, 0], 0⟩, ⟨[0, 0, 0, 0, 0, 0, 0, 0], 0⟩, ⟨[0, 0, 0, 0, 0, 0, 0, 0], 0⟩, ⟨[1, 0, 0, 0, 0, 0, 0, 0], 0⟩, ⟨[0, 0, 0, 0, 0, 0, 0, 0], 0⟩],
   [⟨[0, 0, 0, 0, 0, 0, 0, 0], 0⟩, ⟨[0, 0, 0, 0, 0, 0, 0, 0], 0⟩, ⟨[0, 0, 0, 0, 0, 0, 0, 0], 0⟩, ⟨[0, 0, 0, 0, 0, 0, 0, 0], 0⟩, ⟨[0, 0, 0, 0, 0, 0, 0, 0], 0⟩, ⟨[1, 0, 0, 0, 0, 0, 0, 0], 0⟩, ⟨[0, 0, 0, 0, 0, 0, 0, 0], 0⟩, ⟨[0, 0, 0, 0, 0, 0, 0, 0], 0⟩]]

theorem cswapGStep1 : matMulK embLit21 (idK 8) = cswapGPart1 := by decide

def cswapGPart2 : MatK :=
  [[⟨[1, 0, 0, 0, 0, 0, 0, 0], 0⟩, ⟨[0, 0, 0, 0, 0, 0, 0, 0], 0⟩, ⟨[0, 0, 0, 0, 0, 0, 0, 0], 0⟩, ⟨[0, 0, 0, 0, 0, 0, 0, 0], 0⟩, ⟨[0, 0, 0, 0, 0, 0, 0, 0], 0⟩, ⟨[0, 0, 0, 0, 0, 0, 0, 0], 0⟩, ⟨[0, 0, 0, 0, 0, 0, 0, 0], 0⟩, ⟨[0, 0, 0, 0, 0, 0, 0, 0], 0⟩],
   [⟨[0, 0, 0, 0, 0, 0, 0, 0], 0⟩, ⟨[1, 0, 0, 0, 0, 0, 0, 0], 0⟩, ⟨[0, 0, 0, 0, 0, 0, 0, 0], 0⟩, ⟨[0, 0, 0, 0, 0, 0, 0, 0], 0⟩, ⟨[0, 0, 0, 0, 0, 0, 0, 0], 0⟩, ⟨[0, 0, 0, 0, 0, 0, 0, 0], 0⟩, ⟨[0, 0, 0, 0, 0, 0, 0, 0], 0⟩, ⟨[0, 0, 0, 0, 0, 0, 0, 0], 0⟩],
   [⟨[0, 0, 0, 0, 0, 0, 0, 0], 0⟩, ⟨[0, 0, 0, 0, 0, 0, 0, 0], 0⟩, ⟨[1, 0, 0, 0, 0, 0, 0, 0], 0⟩, ⟨[0, 0, 0, 0, 0, 0, 0, 0], 0⟩, ⟨[0, 0, 0, 0, 0, 0, 0, 0], 0⟩, ⟨[0, 0, 0, 0, 0, 0, 0, 0], 0⟩, ⟨[0, 0, 0, 0, 0, 0, 0, 0], 0⟩, ⟨[0, 0, 0, 0, 0, 0, 0, 0], 0⟩],
   [⟨[0, 0, 0, 0, 0, 0, 0, 0], 0⟩, ⟨[0, 0, 0, 0, 0, 0, 0, 0], 0⟩, ⟨[0, 0, 0, 0, 0, 0, 0, 0], 0⟩, ⟨[1, 0, 0, 0, 0, 0, 0, 0], 0⟩, ⟨[0, 0, 0, 0, 0, 0, 0, 0], 0⟩, ⟨[0, 0, 0, 0, 0, 0, 0, 0], 0⟩, ⟨[0, 0, 0, 0, 0, 0, 0, 0], 0⟩, ⟨[0, 0, 0, 0, 0, 0, 0, 0], 0⟩],
   [⟨[0, 0, 0, 0, 0, 0, 0, 0], 0⟩, ⟨[0, 0, 0, 0, 0, 0, 0, 0], 0⟩, ⟨[0, 0, 0, 0, 0, 0, 0, 0], 0⟩, ⟨[0, 0, 0, 0, 0, 0, 0, 0], 0⟩, ⟨[1, 0, 0, 0, 0, 0, 0, 0], 0⟩, ⟨[0, 0, 0, 0, 0, 0, 0, 0], 0⟩, ⟨[0, 0, 0, 0, 0, 0, 0, 0], 0⟩, ⟨[0, 0, 0, 0, 0, 0, 0, 0], 0⟩],
   [⟨[0, 0, 0, 0, 0, 0, 0, 0], 0⟩, ⟨[0, 0, 0, 0, 0, 0, 0, 0], 0⟩, ⟨[0, 0, 0, 0, 0, 0, 0, 0], 0⟩, ⟨[0, 0, 0, 0, 0, 0, 0, 0], 0⟩, ⟨[0, 0, 0, 0, 0, 0, 0, 0], 0⟩, ⟨[0, 0, 0, 0, 0, 0, 0, 0], 0⟩, ⟨[0, 0, 0, 0, 0, 0, 0, 0], 0⟩, ⟨[1, 0, 0, 0, 0, 0, 0, 0], 0⟩],
   [⟨[0, 0, 0, 0, 0, 0, 0, 0], 0⟩, ⟨[0, 0, 0, 0, 0, 0, 0, 0], 0⟩, ⟨[0, 0, 0, 0, 0, 0, 0, 0], 0⟩, ⟨[0, 0, 0, 0, 0, 0, 0, 0], 0⟩, ⟨[0, 0, 0, 0, 0, 0, 0, 0], 0⟩, ⟨[1, 0, 0, 0, 0, 0, 0, 0], 0⟩, ⟨[0, 0, 0, 0, 0, 0, 0, 0], 0⟩, ⟨[0, 0, 0, 0, 0, 0, 0, 0], 0⟩],
   [⟨[0, 0, 0, 0, 0, 0, 0, 0], 0⟩, ⟨[0, 0, 0, 0, 0, 0, 0, 0], 0⟩, ⟨[0, 0, 0, 0, 0, 0, 0, 0], 0⟩, ⟨[0, 0, 0, 0, 0, 0, 0, 0], 0⟩, ⟨[0, 0, 0, 0, 0, 0, 0, 0], 0⟩, ⟨[0, 0, 0, 0, 0, 0, 0, 0], 0⟩, ⟨[1, 0, 0, 0, 0, 0, 0, 0], 0⟩, ⟨[0, 0, 0, 0, 0, 0, 0, 0], 0⟩]]

theorem cswapGStep2 : matMulK embLit22 cswapGPart1 = cswapGPart2 := by decide

def cswapGPart3 : MatK :=
  [[⟨[1, 0, 0, 0, 0, 0, 0, 0], 0⟩, ⟨[0, 0, 0, 0, 0, 0, 0, 0], 0⟩, ⟨[0, 0, 0, 0, 0, 0, 0, 0], 0⟩, ⟨[0, 0, 0, 0, 0, 0, 0, 0], 0⟩, ⟨[0, 0, 0, 0, 0, 0, 0, 0], 0⟩, ⟨[0, 0, 0, 0, 0, 0, 0, 0], 0⟩, ⟨[0, 0, 0, 0, 0, 0, 0, 0], 0⟩, ⟨[0, 0, 0, 0, 0, 0, 0, 0], 0⟩],
   [⟨[0, 0, 0, 0, 0, 0, 0, 0], 0⟩, ⟨[1, 0, 0, 0, 0, 0, 0, 0], 0⟩, ⟨[0, 0, 0, 0, 0, 0, 0, 0], 0⟩, ⟨[0, 0, 0, 0, 0, 0, 0, 0], 0⟩, ⟨[0, 0, 0, 0, 0, 0, 0, 0], 0⟩, ⟨[0, 0, 0, 0, 0, 0, 0, 0], 0⟩, ⟨[0, 0, 0, 0, 0, 0, 0, 0], 0⟩, ⟨[0, 0, 0, 0, 0, 0, 0, 0], 0⟩],
   [⟨[0, 0, 0, 0, 0, 0, 0, 0], 0⟩, ⟨[0, 0, 0, 0, 0, 0, 0, 0], 0⟩, ⟨[1, 0, 0, 0, 0, 0, 0, 0], 0⟩, ⟨[0, 0, 0, 0, 0, 0, 0, 0], 0⟩, ⟨[0, 0, 0, 0, 0, 0, 0, 0], 0⟩, ⟨[0, 0, 0, 0, 0, 0, 0, 0], 0⟩, ⟨[0, 0, 0, 0, 0, 0, 0, 0], 0⟩, ⟨[0, 0, 0, 0, 0, 0, 0, 0], 0⟩],
   [⟨[0, 0, 0, 0, 0, 0, 0, 0], 0⟩, ⟨[0, 0, 0, 0, 0, 0, 0, 0], 0⟩, ⟨[0, 0, 0, 0, 0, 0, 0, 0], 0⟩, ⟨[1, 0, 0, 0, 0, 0, 0, 0], 0⟩, ⟨[0, 0, 0, 0, 0, 0, 0, 0], 0⟩, ⟨[0, 0, 0, 0, 0, 0, 0, 0], 0⟩, ⟨[0, 0, 0, 0, 0, 0, 0, 0], 0⟩, ⟨[0, 0, 0, 0, 0, 0, 0, 0], 0⟩],
   [⟨[0, 0, 0, 0, 0, 0, 0, 0], 0⟩, ⟨[0, 0, 0, 0, 0, 0, 0, 0], 0⟩, ⟨[0, 0, 0, 0, 0, 0, 0, 0], 0⟩, ⟨[0, 0, 0, 0, 0, 0, 0, 0], 0⟩, ⟨[1, 0, 0, 0, 0, 0, 0, 0], 0⟩, ⟨[0, 0, 0, 0, 0, 0, 0, 0], 0⟩, ⟨[0, 0, 0, 0, 0, 0, 0, 0], 0⟩, ⟨[0, 0, 0, 0, 0, 0, 0, 0], 0⟩],
   [⟨[0, 0, 0, 0, 0, 0, 0, 0], 0⟩, ⟨[0, 0, 0, 0, 0, 0, 0, 0], 0⟩, ⟨[0, 0, 0, 0, 0, 0, 0, 0], 0⟩, ⟨[0, 0, 0, 0, 0, 0, 0, 0], 0⟩, ⟨[0, 0, 0, 0, 0, 0, 0, 0], 0⟩, ⟨[0, 0, 0, 0, 0, 0, 0, 0], 0⟩, ⟨[1, 0, 0, 0, 0, 0, 0, 0], 0⟩, ⟨[0, 0, 0, 0, 0, 0, 0, 0], 0⟩],
   [⟨[0, 0, 0, 0, 0, 0, 0, 0], 0⟩, ⟨[0, 0, 0, 0, 0, 0, 0, 0], 0⟩, ⟨[0, 0, 0, 0, 0, 0, 0, 0], 0⟩, ⟨[0, 0, 0, 0, 0, 0, 0, 0], 0⟩, ⟨[0, 0, 0, 0, 0, 0, 0, 0], 0⟩, ⟨[1, 0, 0, 0, 0, 0, 0, 0], 0⟩, ⟨[0, 0, 0, 0, 0, 0, 0, 0], 0⟩, ⟨[0, 0, 0, 0, 0, 0, 0, 0], 0⟩],
   [⟨[0, 0, 0, 0, 0, 0, 0, 0], 0⟩, ⟨[0, 0, 0, 0, 0, 0, 0, 0], 0⟩, ⟨[0, 0, 0, 0, 0, 0, 0, 0], 0⟩, ⟨[0, 0, 0, 0, 0, 0, 0, 0], 0⟩, ⟨[0, 0, 0, 0, 0, 0, 0, 0], 0⟩, ⟨[0, 0, 0, 0, 0, 0, 0, 0], 0⟩, ⟨[0, 0, 0, 0, 0, 0, 0, 0], 0⟩, ⟨[1, 0, 0, 0, 0, 0, 0, 0], 0⟩]]

theorem cswapGStep3 : matMulK embLit21 cswapGPart2 = cswapGPart3 := by decide

theorem cswapGBuild : build_unitary cswapDecomp [0, 1, 2] = cswapGPart3 := by
  simp only [build_unitary, cswapDecomp, List.foldl_cons, List.foldl_nil, List.length_cons, List.length_nil, Nat.reducePow, Nat.reduceAdd, embEq21, embEq22, cswapGStep1, cswapGStep2, cswapGStep3]

def toffoliGPart1 : MatK :=
  [[⟨[0, 0, 1, 0, 0, 0, -1, 0], 1⟩, ⟨[0, 0, 1, 0, 0, 0, -1, 0], 1⟩, ⟨[0, 0, 0, 0, 0, 0, 0, 0], 0⟩, ⟨[0, 0, 0, 0, 0, 0, 0, 0], 0⟩, ⟨[0, 0, 0, 0, 0, 0, 0, 0], 0⟩, ⟨[0, 0, 0, 0, 0, 0, 0, 0], 0⟩, ⟨[0, 0, 0, 0, 0, 0, 0, 0], 0⟩, ⟨[0, 0, 0, 0, 0, 0, 0, 0], 0⟩],
   [⟨[0, 0, 1, 0, 0, 0, -1, 0], 1⟩, ⟨[0, 0, -1, 0, 0, 0, 1, 0], 1⟩, ⟨[0, 0, 0, 0, 0, 0, 0, 0], 0⟩, ⟨[0, 0, 0, 0, 0, 0, 0, 0], 0⟩, ⟨[0, 0, 0, 0, 0, 0, 0, 0], 0⟩, ⟨[0, 0, 0, 0, 0, 0, 0, 0], 0⟩, ⟨[0, 0, 0, 0, 0, 0, 0, 0], 0⟩, ⟨[0, 0, 0, 0, 0, 0, 0, 0], 0⟩],
   [⟨[0, 0, 0, 0, 0, 0, 0, 0], 0⟩, ⟨[0, 0, 0, 0, 0, 0, 0, 0], 0⟩, ⟨[0, 0, 1, 0, 0, 0, -1, 0], 1⟩, ⟨[0, 0, 1, 0, 0, 0, -1, 0], 1⟩, ⟨[0, 0, 0, 0, 0, 0, 0, 0], 0⟩, ⟨[0, 0, 0, 0, 0, 0, 0, 0], 0⟩, ⟨[0, 0, 0, 0, 0, 0, 0, 0], 0⟩, ⟨[0, 0, 0, 0, 0, 0, 0, 0], 0⟩],
   [⟨[0, 0, 0, 0, 0, 0, 0, 0], 0⟩, ⟨[0, 0, 0, 0, 0, 0, 0, 0], 0⟩, ⟨[0, 0, 1, 0, 0, 0, -1, 0], 1⟩, ⟨[0, 0, -1, 0, 0, 0, 1, 0], 1⟩, ⟨[0, 0, 0, 0, 0, 0, 0, 0], 0⟩, ⟨[0, 0, 0, 0, 0, 0, 0, 0], 0⟩, ⟨[0, 0, 0, 0, 0, 0, 0, 0], 0⟩, ⟨[0, 0, 0, 0, 0, 0, 0, 0], 0⟩],
   [⟨[0, 0, 0, 0, 0, 0, 0, 0], 0⟩, ⟨[0, 0, 0, 0, 0, 0, 0, 0], 0⟩, ⟨[0, 0, 0, 0, 0, 0, 0, 0], 0⟩, ⟨[0, 0, 0, 0, 0, 0, 0, 0], 0⟩, ⟨[0, 0, 1, 0, 0, 0, -1, 0], 1⟩, ⟨[0, 0, 1, 0, 0, 0, -1, 0], 1⟩, ⟨[0, 0, 0, 0, 0, 0, 0, 0], 0⟩, ⟨[0, 0, 0, 0, 0, 0, 0, 0], 0⟩],
   [⟨[0, 0, 0, 0, 0, 0, 0, 0], 0⟩, ⟨[0, 0, 0, 0, 0, 0, 0, 0], 0⟩, ⟨[0, 0, 0, 0, 0, 0, 0, 0], 0⟩, ⟨[0, 0, 0, 0, 0, 0, 0, 0], 0⟩, ⟨[0, 0, 1, 0, 0, 0, -1, 0], 1⟩, ⟨[0, 0, -1, 0, 0, 0, 1, 0], 1⟩, ⟨[0, 0, 0, 0, 0, 0, 0, 0], 0⟩, ⟨[0, 0, 0, 0, 0, 0, 0, 0], 0⟩],
   [⟨[0, 0, 0, 0, 0, 0, 0, 0], 0⟩, ⟨[0, 0, 0, 0, 0, 0, 0, 0], 0⟩, ⟨[0, 0, 0, 0, 0, 0, 0, 0], 0⟩, ⟨[0, 0, 0, 0, 0, 0, 0, 0], 0⟩, ⟨[0, 0, 0, 0, 0, 0, 0, 0], 0⟩, ⟨[0, 0, 0, 0, 0, 0, 0, 0], 0⟩, ⟨[0, 0, 1, 0, 0, 0, -1, 0], 1⟩, ⟨[0, 0, 1, 0, 0, 0, -1, 0], 1⟩],
   [⟨[0, 0, 0, 0, 0, 0, 0, 0], 0⟩, ⟨[0, 0, 0, 0, 0, 0, 0, 0], 0⟩, ⟨[0, 0, 0, 0, 0, 0, 0, 0], 0⟩, ⟨[0, 0, 0, 0, 0, 0, 0, 0], 0⟩, ⟨[0, 0, 0, 0, 0, 0, 0, 0], 0⟩, ⟨[0, 0, 0, 0, 0, 0, 0, 0], 0⟩, ⟨[0, 0, 1, 0, 0, 0, -1, 0], 1⟩, ⟨[0, 0, -1, 0, 0, 0, 1, 0], 1⟩]]

theorem toffoliGStep1 : matMulK embLit23 (idK 8) = toffoliGPart1 := by decide

def toffoliGPart2 : MatK :=
  [[⟨[0, 0, 1, 0, 0, 0, -1, 0], 1⟩, ⟨[0, 0, 1, 0, 0, 0, -1, 0], 1⟩, ⟨[0, 0, 0, 0, 0, 0, 0, 0], 0⟩, ⟨[0, 0, 0, 0, 0, 0, 0, 0], 0⟩, ⟨[0, 0, 0, 0, 0, 0, 0, 0], 0⟩, ⟨[0, 0, 0, 0, 0, 0, 0, 0], 0⟩, ⟨[0, 0, 0, 0, 0, 0, 0, 0], 0⟩, ⟨[0, 0, 0, 0, 0, 0, 0, 0], 0⟩],
   [⟨[0, 0, 1, 0, 0, 0, -1, 0], 1⟩, ⟨[0, 0, -1, 0, 0, 0, 1, 0], 1⟩, ⟨[0, 0, 0, 0, 0, 0, 0, 0], 0⟩, ⟨[0, 0, 0, 0, 0, 0, 0, 0], 0⟩, ⟨[0, 0, 0, 0, 0, 0, 0, 0], 0⟩, ⟨[0, 0, 0, 0, 0, 0, 0, 0], 0⟩, ⟨[0, 0, 0, 0, 0, 0, 0, 0], 0⟩, ⟨[0, 0, 0, 0, 0, 0, 0, 0], 0⟩],
   [⟨[0, 0, 0, 0, 0, 0, 0, 0], 0⟩, ⟨[0, 0, 0, 0, 0, 0, 0, 0], 0⟩, ⟨[0, 0, 1, 0, 0, 0, -1, 0], 1⟩, ⟨[0, 0, -1, 0, 0, 0, 1, 0], 1⟩, ⟨[0, 0, 0, 0, 0, 0, 0, 0], 0⟩, ⟨[0, 0, 0, 0, 0, 0, 0, 0], 0⟩, ⟨[0, 0, 0, 0, 0, 0, 0, 0], 0⟩, ⟨[0, 0, 0, 0, 0, 0, 0, 0], 0⟩],
   [⟨[0, 0, 0, 0, 0, 0, 0, 0], 0⟩, ⟨[0, 0, 0, 0, 0, 0, 0, 0], 0⟩, ⟨[0, 0, 1, 0, 0, 0, -1, 0], 1⟩, ⟨[0, 0, 1, 0, 0, 0, -1, 0], 1⟩, ⟨[0, 0, 0, 0, 0, 0, 0, 0], 0⟩, ⟨[0, 0, 0, 0, 0, 0, 0, 0], 0⟩, ⟨[0, 0, 0, 0, 0, 0, 0, 0], 0⟩, ⟨[0, 0, 0, 0, 0, 0, 0, 0], 0⟩],
   [⟨[0, 0, 0, 0, 0, 0, 0, 0], 0⟩, ⟨[0, 0, 0, 0, 0, 0, 0, 0], 0⟩, ⟨[0, 0, 0, 0, 0, 0, 0, 0], 0⟩, ⟨[0, 0, 0, 0, 0, 0, 0, 0], 0⟩, ⟨[0, 0, 1, 0, 0, 0, -1, 0], 1⟩, ⟨[0, 0, 1, 0, 0, 0, -1, 0], 1⟩, ⟨[0, 0, 0, 0, 0, 0, 0, 0], 0⟩, ⟨[0, 0, 0, 0, 0, 0, 0, 0], 0⟩],
   [⟨[0, 0, 0, 0, 0, 0, 0, 0], 0⟩, ⟨[0, 0, 0, 0, 0, 0, 0, 0], 0⟩, ⟨[0, 0, 0, 0, 0, 0, 0, 0], 0⟩, ⟨[0, 0, 0, 0, 0, 0, 0, 0], 0⟩, ⟨[0, 0, 1, 0, 0, 0, -1, 0], 1⟩, ⟨[0, 0, -1, 0, 0, 0, 1, 0], 1⟩, ⟨[0, 0, 0, 0, 0, 0, 0, 0], 0⟩, ⟨[0, 0, 0, 0, 0, 0, 0, 0], 0⟩],
   [⟨[0, 0, 0, 0, 0, 0, 0, 0], 0⟩, ⟨[0, 0, 0, 0, 0, 0, 0, 0], 0⟩, ⟨[0, 0, 0, 0, 0, 0, 0, 0], 0⟩, ⟨[0, 0, 0, 0, 0, 0, 0, 0], 0⟩, ⟨[0, 0, 0, 0, 0, 0, 0, 0], 0⟩, ⟨[0, 0, 0, 0, 0, 0, 0, 0], 0⟩, ⟨[0, 0, 1, 0, 0, 0, -1, 0], 1⟩, ⟨[0, 0, -1, 0, 0, 0, 1, 0], 1⟩],
   [⟨[0, 0, 0, 0, 0, 0, 0, 0], 0⟩, ⟨[0, 0, 0, 0, 0, 0, 0, 0], 0⟩, ⟨[0, 0, 0, 0, 0, 0, 0, 0], 0⟩, ⟨[0, 0, 0, 0, 0, 0, 0, 0], 0⟩, ⟨[0, 0, 0, 0, 0, 0, 0, 0], 0⟩, ⟨[0, 0, 0, 0, 0, 0, 0, 0], 0⟩, ⟨[0, 0, 1, 0, 0, 0, -1, 0], 1⟩, ⟨[0, 0, 1, 0, 0, 0, -1, 0], 1⟩]]

theorem toffoliGStep2 : matMulK embLit24 toffoliGPart1 = toffoliGPart2 := by decide

def toffoliGPart3 : MatK :=
  [[⟨[0, 0, 1, 0, 0, 0, -1, 0], 1⟩, ⟨[0, 0, 1, 0, 0, 0, -1, 0], 1⟩, ⟨[0, 0, 0, 0, 0, 0, 0, 0], 0⟩, ⟨[0, 0, 0, 0, 0, 0, 0, 0], 0⟩, ⟨[0, 0, 0, 0, 0, 0, 0, 0], 0⟩, ⟨[0, 0, 0, 0, 0, 0, 0, 0], 0⟩, ⟨[0, 0, 0, 0, 0, 0, 0, 0], 0⟩, ⟨[0, 0, 0, 0, 0, 0, 0, 0], 0⟩],
   [⟨[1, 0, 0, 0, -1, 0, 0, 0], 1⟩, ⟨[-1, 0, 0, 0, 1, 0, 0, 0], 1⟩, ⟨[0, 0, 0, 0, 0, 0, 0, 0], 0⟩, ⟨[0, 0, 0, 0, 0, 0, 0, 0], 0⟩, ⟨[0, 0, 0, 0, 0, 0, 0, 0], 0⟩, ⟨[0, 0, 0, 0, 0, 0, 0, 0], 0⟩, ⟨[0, 0, 0, 0, 0, 0, 0, 0], 0⟩, ⟨[0, 0, 0, 0, 0, 0, 0, 0], 0⟩],
   [⟨[0, 0, 0, 0, 0, 0, 0, 0], 0⟩, ⟨[0, 0, 0, 0, 0, 0, 0, 0], 0⟩, ⟨[0, 0, 1, 0, 0, 0, -1, 0], 1⟩, ⟨[0, 0, -1, 0, 0, 0, 1, 0], 1⟩, ⟨[0, 0, 0, 0, 0, 0, 0, 0], 0⟩, ⟨[0, 0, 0, 0, 0, 0, 0, 0], 0⟩, ⟨[0, 0, 0, 0, 0, 0, 0, 0], 0⟩, ⟨[0, 0, 0, 0, 0, 0, 0, 0], 0⟩],
   [⟨[0, 0, 0, 0, 0, 0, 0, 0], 0⟩, ⟨[0, 0, 0, 0, 0, 0, 0, 0], 0⟩, ⟨[1, 0, 0, 0, -1, 0, 0, 0], 1⟩, ⟨[1, 0, 0, 0, -1, 0, 0, 0], 1⟩, ⟨[0, 0, 0, 0, 0, 0, 0, 0], 0⟩, ⟨[0, 0, 0, 0, 0, 0, 0, 0], 0⟩, ⟨[0, 0, 0, 0, 0, 0, 0, 0], 0⟩, ⟨[0, 0, 0, 0, 0, 0, 0, 0], 0⟩],
   [⟨[0, 0, 0, 0, 0, 0, 0, 0], 0⟩, ⟨[0, 0, 0, 0, 0, 0, 0, 0], 0⟩, ⟨[0, 0, 0, 0, 0, 0, 0, 0], 0⟩, ⟨[0, 0, 0, 0, 0, 0, 0, 0], 0⟩, ⟨[0, 0, 1, 0, 0, 0, -1, 0], 1⟩, ⟨[0, 0, 1, 0, 0, 0, -1, 0], 1⟩, ⟨[0, 0, 0, 0, 0, 0, 0, 0], 0⟩, ⟨[0, 0, 0, 0, 0, 0, 0, 0], 0⟩],
   [⟨[0, 0, 0, 0, 0, 0, 0, 0], 0⟩, ⟨[0, 0, 0, 0, 0, 0, 0, 0], 0⟩, ⟨[0, 0, 0, 0, 0, 0, 0, 0], 0⟩, ⟨[0, 0, 0, 0, 0, 0, 0, 0], 0⟩, ⟨[1, 0, 0, 0, -1, 0, 0, 0], 1⟩, ⟨[-1, 0, 0, 0, 1, 0, 0, 0], 1⟩, ⟨[0, 0, 0, 0, 0, 0, 0, 0], 0⟩, ⟨[0, 0, 0, 0, 0, 0, 0, 0], 0⟩],
   [⟨[0, 0, 0, 0, 0, 0, 0, 0], 0⟩, ⟨[0, 0, 0, 0, 0, 0, 0, 0], 0⟩, ⟨[0, 0, 0, 0, 0, 0, 0, 0], 0⟩, ⟨[0, 0, 0, 0, 0, 0, 0, 0], 0⟩, ⟨[0, 0, 0, 0, 0, 0, 0, 0], 0⟩, ⟨[0, 0, 0, 0, 0, 0, 0, 0], 0⟩, ⟨[0, 0, 1, 0, 0, 0, -1, 0], 1⟩, ⟨[0, 0, -1, 0, 0, 0, 1, 0], 1⟩],
   [⟨[0, 0, 0, 0, 0, 0, 0, 0], 0⟩, ⟨[0, 0, 0, 0, 0, 0, 0, 0], 0⟩, ⟨[0, 0, 0, 0, 0, 0, 0, 0], 0⟩, ⟨[0, 0, 0, 0, 0, 0, 0, 0], 0⟩, ⟨[0, 0, 0, 0, 0, 0, 0, 0], 0⟩, ⟨[0, 0, 0, 0, 0, 0, 0, 0], 0⟩, ⟨[1, 0, 0, 0, -1, 0, 0, 0], 1⟩, ⟨[1, 0, 0, 0, -1, 0, 0, 0], 1⟩]]

theorem toffoliGStep3 : matMulK embLit25 toffoliGPart2 = toffoliGPart3 := by decide

def toffoliGPart4 : MatK :=
  [[⟨[0, 0, 1, 0, 0, 0, -1, 0], 1⟩, ⟨[0, 0, 1, 0, 0, 0, -1, 0], 1⟩, ⟨[0, 0, 0, 0, 0, 0, 0, 0], 0⟩, ⟨[0, 0, 0, 0, 0, 0, 0, 0], 0⟩, ⟨[0, 0, 0, 0, 0, 0, 0, 0], 0⟩, ⟨[0, 0, 0, 0, 0, 0, 0, 0], 0⟩, ⟨[0, 0, 0, 0, 0, 0, 0, 0], 0⟩, ⟨[0, 0, 0, 0, 0, 0, 0, 0], 0⟩],
   [⟨[1, 0, 0, 0, -1, 0, 0, 0], 1⟩, ⟨[-1, 0, 0, 0, 1, 0, 0, 0], 1⟩, ⟨[0, 0, 0, 0, 0, 0, 0, 0], 0⟩, ⟨[0, 0, 0, 0, 0, 0, 0, 0], 0⟩, ⟨[0, 0, 0, 0, 0, 0, 0, 0], 0⟩, ⟨[0, 0, 0, 0, 0, 0, 0, 0], 0⟩, ⟨[0, 0, 0, 0, 0, 0, 0, 0], 0⟩, ⟨[0, 0, 0, 0, 0, 0, 0, 0], 0⟩],
   [⟨[0, 0, 0, 0, 0, 0, 0, 0], 0⟩, ⟨[0, 0, 0, 0, 0, 0, 0, 0], 0⟩, ⟨[0, 0, 1, 0, 0, 0, -1, 0], 1⟩, ⟨[0, 0, -1, 0, 0, 0, 1, 0], 1⟩, ⟨[0, 0, 0, 0, 0, 0, 0, 0], 0⟩, ⟨[0, 0, 0, 0, 0, 0, 0, 0], 0⟩, ⟨[0, 0, 0, 0, 0, 0, 0, 0], 0⟩, ⟨[0, 0, 0, 0, 0, 0, 0, 0], 0⟩],
   [⟨[0, 0, 0, 0, 0, 0, 0, 0], 0⟩, ⟨[0, 0, 0, 0, 0, 0, 0, 0], 0⟩, ⟨[1, 0, 0, 0, -1, 0, 0, 0], 1⟩, ⟨[1, 0, 0, 0, -1, 0, 0, 0], 1⟩, ⟨[0, 0, 0, 0, 0, 0, 0, 0], 0⟩, ⟨[0, 0, 0, 0, 0, 0, 0, 0], 0⟩, ⟨[0, 0, 0, 0, 0, 0, 0, 0], 0⟩, ⟨[0, 0, 0, 0, 0, 0, 0, 0], 0⟩],
   [⟨[0, 0, 0, 0, 0, 0, 0, 0], 0⟩, ⟨[0, 0, 0, 0, 0, 0, 0, 0], 0⟩, ⟨[0, 0, 0, 0, 0, 0, 0, 0], 0⟩, ⟨[0, 0, 0, 0, 0, 0, 0, 0], 0⟩, ⟨[1, 0, 0, 0, -1, 0, 0, 0], 1⟩, ⟨[-1, 0, 0, 0, 1, 0, 0, 0], 1⟩, ⟨[0, 0, 0, 0, 0, 0, 0, 0], 0⟩, ⟨[0, 0, 0, 0, 0, 0, 0, 0], 0⟩],
   [⟨[0, 0, 0, 0, 0, 0, 0, 0], 0⟩, ⟨[0, 0, 0, 0, 0, 0, 0, 0], 0⟩, ⟨[0, 0, 0, 0, 0, 0, 0, 0], 0⟩, ⟨[0, 0, 0, 0, 0, 0, 0, 0], 0⟩, ⟨[0, 0, 1, 0, 0, 0, -1, 0], 1⟩, ⟨[0, 0, 1, 0, 0, 0, -1, 0], 1⟩, ⟨[0, 0, 0, 0, 0, 0, 0, 0], 0⟩, ⟨[0, 0, 0, 0, 0, 0, 0, 0], 0⟩],
   [⟨[0, 0, 0, 0, 0, 0, 0, 0], 0⟩, ⟨[0, 0, 0, 0, 0, 0, 0, 0], 0⟩, ⟨[0, 0, 0, 0, 0, 0, 0, 0], 0⟩, ⟨[0, 0, 0, 0, 0, 0, 0, 0], 0⟩, ⟨[0, 0, 0, 0, 0, 0, 0, 0], 0⟩, ⟨[0, 0, 0, 0, 0, 0, 0, 0], 0⟩, ⟨[1, 0, 0, 0, -1, 0, 0, 0], 1⟩, ⟨[1, 0, 0, 0, -1, 0, 0, 0], 1⟩],
   [⟨[0, 0, 0, 0, 0, 0, 0, 0], 0⟩, ⟨[0, 0, 0, 0, 0, 0, 0, 0], 0⟩, ⟨[0, 0, 0, 0, 0, 0, 0, 0], 0⟩, ⟨[0, 0, 0, 0, 0, 0, 0, 0], 0⟩, ⟨[0, 0, 0, 0, 0, 0, 0, 0], 0⟩, ⟨[0, 0, 0, 0, 0, 0, 0, 0], 0⟩, ⟨[0, 0, 1, 0, 0, 0, -1, 0], 1⟩, ⟨[0, 0, -1, 0, 0, 0, 1, 0], 1⟩]]

theorem toffoliGStep4 : matMulK embLit26 toffoliGPart3 = toffoliGPart4 := by decide

def toffoliGPart5 : MatK :=
  [[⟨[0, 0, 1, 0, 0, 0, -1, 0], 1⟩, ⟨[0, 0, 1, 0, 0, 0, -1, 0], 1⟩, ⟨[0, 0, 0, 0, 0, 0, 0, 0], 0⟩, ⟨[0, 0, 0, 0, 0, 0, 0, 0], 0⟩, ⟨[0, 0, 0, 0, 0, 0, 0, 0], 0⟩, ⟨[0, 0, 0, 0, 0, 0, 0, 0], 0⟩, ⟨[0, 0, 0, 0, 0, 0, 0, 0], 0⟩, ⟨[0, 0, 0, 0, 0, 0, 0, 0], 0⟩],
   [⟨[0, 0, 1, 0, 0, 0, -1, 0], 1⟩, ⟨[0, 0, -1, 0, 0, 0, 1, 0], 1⟩, ⟨[0, 0, 0, 0, 0, 0, 0, 0], 0⟩, ⟨[0, 0, 0, 0, 0, 0, 0, 0], 0⟩, ⟨[0, 0, 0, 0, 0, 0, 0, 0], 0⟩, ⟨[0, 0, 0, 0, 0, 0, 0, 0], 0⟩, ⟨[0, 0, 0, 0, 0, 0, 0, 0], 0⟩, ⟨[0, 0, 0, 0, 0, 0, 0, 0], 0⟩],
   [⟨[0, 0, 0, 0, 0, 0, 0, 0], 0⟩, ⟨[0, 0, 0, 0, 0, 0, 0, 0], 0⟩, ⟨[0, 0, 1, 0, 0, 0, -1, 0], 1⟩, ⟨[0, 0, -1, 0, 0, 0, 1, 0], 1⟩, ⟨[0, 0, 0, 0, 0, 0, 0, 0], 0⟩, ⟨[0, 0, 0, 0, 0, 0, 0, 0], 0⟩, ⟨[0, 0, 0, 0, 0, 0, 0, 0], 0⟩, ⟨[0, 0, 0, 0, 0, 0, 0, 0], 0⟩],
   [⟨[0, 0, 0, 0, 0, 0, 0, 0], 0⟩, ⟨[0, 0, 0, 0, 0, 0, 0, 0], 0⟩, ⟨[0, 0, 1, 0, 0, 0, -1, 0], 1⟩, ⟨[0, 0, 1, 0, 0, 0, -1, 0], 1⟩, ⟨[0, 0, 0, 0, 0, 0, 0, 0], 0⟩, ⟨[0, 0, 0, 0, 0, 0, 0, 0], 0⟩, ⟨[0, 0, 0, 0, 0, 0, 0, 0], 0⟩, ⟨[0, 0, 0, 0, 0, 0, 0, 0], 0⟩],
   [⟨[0, 0, 0, 0, 0, 0, 0, 0], 0⟩, ⟨[0, 0, 0, 0, 0, 0, 0, 0], 0⟩, ⟨[0, 0, 0, 0, 0, 0, 0, 0], 0⟩, ⟨[0, 0, 0, 0, 0, 0, 0, 0], 0⟩, ⟨[1, 0, 0, 0, -1, 0, 0, 0], 1⟩, ⟨[-1, 0, 0, 0, 1, 0, 0, 0], 1⟩, ⟨[0, 0, 0, 0, 0, 0, 0, 0], 0⟩, ⟨[0, 0, 0, 0, 0, 0, 0, 0], 0⟩],
   [⟨[0, 0, 0, 0, 0, 0, 0, 0], 0⟩, ⟨[0, 0, 0, 0, 0, 0, 0, 0], 0⟩, ⟨[0, 0, 0, 0, 0, 0, 0, 0], 0⟩, ⟨[0, 0, 0, 0, 0, 0, 0, 0], 0⟩, ⟨[1, 0, 0, 0, 1, 0, 0, 0], 1⟩, ⟨[1, 0, 0, 0, 1, 0, 0, 0], 1⟩, ⟨[0, 0, 0, 0, 0, 0, 0, 0], 0⟩, ⟨[0, 0, 0, 0, 0, 0, 0, 0], 0⟩],
   [⟨[0, 0, 0, 0, 0, 0, 0, 0], 0⟩, ⟨[0, 0, 0, 0, 0, 0, 0, 0], 0⟩, ⟨[0, 0, 0, 0, 0, 0, 0, 0], 0⟩, ⟨[0, 0, 0, 0, 0, 0, 0, 0], 0⟩, ⟨[0, 0, 0, 0, 0, 0, 0, 0], 0⟩, ⟨[0, 0, 0, 0, 0, 0, 0, 0], 0⟩, ⟨[1, 0, 0, 0, -1, 0, 0, 0], 1⟩, ⟨[1, 0, 0, 0, -1, 0, 0, 0], 1⟩],
   [⟨[0, 0, 0, 0, 0, 0, 0, 0], 0⟩, ⟨[0, 0, 0, 0, 0, 0, 0, 0], 0⟩, ⟨[0, 0, 0, 0, 0, 0, 0, 0], 0⟩, ⟨[0, 0, 0, 0, 0, 0, 0, 0], 0⟩, ⟨[0, 0, 0, 0, 0, 0, 0, 0], 0⟩, ⟨[0, 0, 0, 0, 0, 0, 0, 0], 0⟩, ⟨[1, 0, 0, 0, 1, 0, 0, 0], 1⟩, ⟨[-1, 0, 0, 0, -1, 0, 0, 0], 1⟩]]

theorem toffoliGStep5 : matMulK embLit27 toffoliGPart4 = toffoliGPart5 := by decide

def toffoliGPart6 : MatK :=
  [[⟨[0, 0, 1, 0, 0, 0, -1, 0], 1⟩, ⟨[0, 0, 1, 0, 0, 0, -1, 0], 1⟩, ⟨[0, 0, 0, 0, 0, 0, 0, 0], 0⟩, ⟨[0, 0, 0, 0, 0, 0, 0, 0], 0⟩, ⟨[0, 0, 0, 0, 0, 0, 0, 0], 0⟩, ⟨[0, 0, 0, 0, 0, 0, 0, 0], 0⟩, ⟨[0, 0, 0, 0, 0, 0, 0, 0], 0⟩, ⟨[0, 0, 0, 0, 0, 0, 0, 0], 0⟩],
   [⟨[0, 0, 1, 0, 0, 0, -1, 0], 1⟩, ⟨[0, 0, -1, 0, 0, 0, 1, 0], 1⟩, ⟨[0, 0, 0, 0, 0, 0, 0, 0], 0⟩, ⟨[0, 0, 0, 0, 0, 0, 0, 0], 0⟩, ⟨[0, 0, 0, 0, 0, 0, 0, 0], 0⟩, ⟨[0, 0, 0, 0, 0, 0, 0, 0], 0⟩, ⟨[0, 0, 0, 0, 0, 0, 0, 0], 0⟩, ⟨[0, 0, 0, 0, 0, 0, 0, 0], 0⟩],
   [⟨[0, 0, 0, 0, 0, 0, 0, 0], 0⟩, ⟨[0, 0, 0, 0, 0, 0, 0, 0], 0⟩, ⟨[0, 0, 1, 0, 0, 0, -1, 0], 1⟩, ⟨[0, 0, 1, 0, 0, 0, -1, 0], 1⟩, ⟨[0, 0, 0, 0, 0, 0, 0, 0], 0⟩, ⟨[0, 0, 0, 0, 0, 0, 0, 0], 0⟩, ⟨[0, 0, 0, 0, 0, 0, 0, 0], 0⟩, ⟨[0, 0, 0, 0, 0, 0, 0, 0], 0⟩],
   [⟨[0, 0, 0, 0, 0, 0, 0, 0], 0⟩, ⟨[0, 0, 0, 0, 0, 0, 0, 0], 0⟩, ⟨[0, 0, 1, 0, 0, 0, -1, 0], 1⟩, ⟨[0, 0, -1, 0, 0, 0, 1, 0], 1⟩, ⟨[0, 0, 0, 0, 0, 0, 0, 0], 0⟩, ⟨[0, 0, 0, 0, 0, 0, 0, 0], 0⟩, ⟨[0, 0, 0, 0, 0, 0, 0, 0], 0⟩, ⟨[0, 0, 0, 0, 0, 0, 0, 0], 0⟩],
   [⟨[0, 0, 0, 0, 0, 0, 0, 0], 0⟩, ⟨[0, 0, 0, 0, 0, 0, 0, 0], 0⟩, ⟨[0, 0, 0, 0, 0, 0, 0, 0], 0⟩, ⟨[0, 0, 0, 0, 0, 0, 0, 0], 0⟩, ⟨[1, 0, 0, 0, -1, 0, 0, 0], 1⟩, ⟨[-1, 0, 0, 0, 1, 0, 0, 0], 1⟩, ⟨[0, 0, 0, 0, 0, 0, 0, 0], 0⟩, ⟨[0, 0, 0, 0, 0, 0, 0, 0], 0⟩],
   [⟨[0, 0, 0, 0, 0, 0, 0, 0], 0⟩, ⟨[0, 0, 0, 0, 0, 0, 0, 0], 0⟩, ⟨[0, 0, 0, 0, 0, 0, 0, 0], 0⟩, ⟨[0, 0, 0, 0, 0, 0, 0, 0], 0⟩, ⟨[1, 0, 0, 0, 1, 0, 0, 0], 1⟩, ⟨[1, 0, 0, 0, 1, 0, 0, 0], 1⟩, ⟨[0, 0, 0, 0, 0, 0, 0, 0], 0⟩, ⟨[0, 0, 0, 0, 0, 0, 0, 0], 0⟩],
   [⟨[0, 0, 0, 0, 0, 0, 0, 0], 0⟩, ⟨[0, 0, 0, 0, 0, 0, 0, 0], 0⟩, ⟨[0, 0, 0, 0, 0, 0, 0, 0], 0⟩, ⟨[0, 0, 0, 0, 0, 0, 0, 0], 0⟩, ⟨[0, 0, 0, 0, 0, 0, 0, 0], 0⟩, ⟨[0, 0, 0, 0, 0, 0, 0, 0], 0⟩, ⟨[1, 0, 0, 0, 1, 0, 0, 0], 1⟩, ⟨[-1, 0, 0, 0, -1, 0, 0, 0], 1⟩],
   [⟨[0, 0, 0, 0, 0, 0, 0, 0], 0⟩, ⟨[0, 0, 0, 0, 0, 0, 0, 0], 0⟩, ⟨[0, 0, 0, 0, 0, 0, 0, 0], 0⟩, ⟨[0, 0, 0, 0, 0, 0, 0, 0], 0⟩, ⟨[0, 0, 0, 0, 0, 0, 0, 0], 0⟩, ⟨[0, 0, 0, 0, 0, 0, 0, 0], 0⟩, ⟨[1, 0, 0, 0, -1, 0, 0, 0], 1⟩, ⟨[1, 0, 0, 0, -1, 0, 0, 0], 1⟩]]

theorem toffoliGStep6 : matMulK embLit24 toffoliGPart5 = toffoliGPart6 := by decide

def toffoliGPart7 : MatK :=
  [[⟨[0, 0, 1, 0, 0, 0, -1, 0], 1⟩, ⟨[0, 0, 1, 0, 0, 0, -1, 0], 1⟩, ⟨[0, 0, 0, 0, 0, 0, 0, 0], 0⟩, ⟨[0, 0, 0, 0, 0, 0, 0, 0], 0⟩, ⟨[0, 0, 0, 0, 0, 0, 0, 0], 0⟩, ⟨[0, 0, 0, 0, 0, 0, 0, 0], 0⟩, ⟨[0, 0, 0, 0, 0, 0, 0, 0], 0⟩, ⟨[0, 0, 0, 0, 0, 0, 0, 0], 0⟩],
   [⟨[1, 0, 0, 0, -1, 0, 0, 0], 1⟩, ⟨[-1, 0, 0, 0, 1, 0, 0, 0], 1⟩, ⟨[0, 0, 0, 0, 0, 0, 0, 0], 0⟩, ⟨[0, 0, 0, 0, 0, 0, 0, 0], 0⟩, ⟨[0, 0, 0, 0, 0, 0, 0, 0], 0⟩, ⟨[0, 0, 0, 0, 0, 0, 0, 0], 0⟩, ⟨[0, 0, 0, 0, 0, 0, 0, 0], 0⟩, ⟨[0, 0, 0, 0, 0, 0, 0, 0], 0⟩],
   [⟨[0, 0, 0, 0, 0, 0, 0, 0], 0⟩, ⟨[0, 0, 0, 0, 0, 0, 0, 0], 0⟩, ⟨[0, 0, 1, 0, 0, 0, -1, 0], 1⟩, ⟨[0, 0, 1, 0, 0, 0, -1, 0], 1⟩, ⟨[0, 0, 0, 0, 0, 0, 0, 0], 0⟩, ⟨[0, 0, 0, 0, 0, 0, 0, 0], 0⟩, ⟨[0, 0, 0, 0, 0, 0, 0, 0], 0⟩, ⟨[0, 0, 0, 0, 0, 0, 0, 0], 0⟩],
   [⟨[0, 0, 0, 0, 0, 0, 0, 0], 0⟩, ⟨[0, 0, 0, 0, 0, 0, 0, 0], 0⟩, ⟨[1, 0, 0, 0, -1, 0, 0, 0], 1⟩, ⟨[-1, 0, 0, 0, 1, 0, 0, 0], 1⟩, ⟨[0, 0, 0, 0, 0, 0, 0, 0], 0⟩, ⟨[0, 0, 0, 0, 0, 0, 0, 0], 0⟩, ⟨[0, 0, 0, 0, 0, 0, 0, 0], 0⟩, ⟨[0, 0, 0, 0, 0, 0, 0, 0], 0⟩],
   [⟨[0, 0, 0, 0, 0, 0, 0, 0], 0⟩, ⟨[0, 0, 0, 0, 0, 0, 0, 0], 0⟩, ⟨[0, 0, 0, 0, 0, 0, 0, 0], 0⟩, ⟨[0, 0, 0, 0, 0, 0, 0, 0], 0⟩, ⟨[1, 0, 0, 0, -1, 0, 0, 0], 1⟩, ⟨[-1, 0, 0, 0, 1, 0, 0, 0], 1⟩, ⟨[0, 0, 0, 0, 0, 0, 0, 0], 0⟩, ⟨[0, 0, 0, 0, 0, 0, 0, 0], 0⟩],
   [⟨[0, 0, 0, 0, 0, 0, 0, 0], 0⟩, ⟨[0, 0, 0, 0, 0, 0, 0, 0], 0⟩, ⟨[0, 0, 0, 0, 0, 0, 0, 0], 0⟩, ⟨[0, 0, 0, 0, 0, 0, 0, 0], 0⟩, ⟨[0, 0, 1, 0, 0, 0, -1, 0], 1⟩, ⟨[0, 0, 1, 0, 0, 0, -1, 0], 1⟩, ⟨[0, 0, 0, 0, 0, 0, 0, 0], 0⟩, ⟨[0, 0, 0, 0, 0, 0, 0, 0], 0⟩],
   [⟨[0, 0, 0, 0, 0, 0, 0, 0], 0⟩, ⟨[0, 0, 0, 0, 0, 0, 0, 0], 0⟩, ⟨[0, 0, 0, 0, 0, 0, 0, 0], 0⟩, ⟨[0, 0, 0, 0, 0, 0, 0, 0], 0⟩, ⟨[0, 0, 0, 0, 0, 0, 0, 0], 0⟩, ⟨[0, 0, 0, 0, 0, 0, 0, 0], 0⟩, ⟨[1, 0, 0, 0, 1, 0, 0, 0], 1⟩, ⟨[-1, 0, 0, 0, -1, 0, 0, 0], 1⟩],
   [⟨[0, 0, 0, 0, 0, 0, 0, 0], 0⟩, ⟨[0, 0, 0, 0, 0, 0, 0, 0], 0⟩, ⟨[0, 0, 0, 0, 0, 0, 0, 0], 0⟩, ⟨[0, 0, 0, 0, 0, 0, 0, 0], 0⟩, ⟨[0, 0, 0, 0, 0, 0, 0, 0], 0⟩, ⟨[0, 0, 0, 0, 0, 0, 0, 0], 0⟩, ⟨[0, 0, -1, 0, 0, 0, -1, 0], 1⟩, ⟨[0, 0, -1, 0, 0, 0, -1, 0], 1⟩]]

theorem toffoliGStep7 : matMulK embLit25 toffoliGPart6 = toffoliGPart7 := by decide

def toffoliGPart8 : MatK :=
  [[⟨[0, 0, 1, 0, 0, 0, -1, 0], 1⟩, ⟨[0, 0, 1, 0, 0, 0, -1, 0], 1⟩, ⟨[0, 0, 0, 0, 0, 0, 0, 0], 0⟩, ⟨[0, 0, 0, 0, 0, 0, 0, 0], 0⟩, ⟨[0, 0, 0, 0, 0, 0, 0, 0], 0⟩, ⟨[0, 0, 0, 0, 0, 0, 0, 0], 0⟩, ⟨[0, 0, 0, 0, 0, 0, 0, 0], 0⟩, ⟨[0, 0, 0, 0, 0, 0, 0, 0], 0⟩],
   [⟨[1, 0, 0, 0, -1, 0, 0, 0], 1⟩, ⟨[-1, 0, 0, 0, 1, 0, 0, 0], 1⟩, ⟨[0, 0, 0, 0, 0, 0, 0, 0], 0⟩, ⟨[0, 0, 0, 0, 0, 0, 0, 0], 0⟩, ⟨[0, 0, 0, 0, 0, 0, 0, 0], 0⟩, ⟨[0, 0, 0, 0, 0, 0, 0, 0], 0⟩, ⟨[0, 0, 0, 0, 0, 0, 0, 0], 0⟩, ⟨[0, 0, 0, 0, 0, 0, 0, 0], 0⟩],
   [⟨[0, 0, 0, 0, 0, 0, 0, 0], 0⟩, ⟨[0, 0, 0, 0, 0, 0, 0, 0], 0⟩, ⟨[0, 0, 1, 0, 0, 0, -1, 0], 1⟩, ⟨[0, 0, 1, 0, 0, 0, -1, 0], 1⟩, ⟨[0, 0, 0, 0, 0, 0, 0, 0], 0⟩, ⟨[0, 0, 0, 0, 0, 0, 0, 0], 0⟩, ⟨[0, 0, 0, 0, 0, 0, 0, 0], 0⟩, ⟨[0, 0, 0, 0, 0, 0, 0, 0], 0⟩],
   [⟨[0, 0, 0, 0, 0, 0, 0, 0], 0⟩, ⟨[0, 0, 0, 0, 0, 0, 0, 0], 0⟩, ⟨[1, 0, 0, 0, -1, 0, 0, 0], 1⟩, ⟨[-1, 0, 0, 0, 1, 0, 0, 0], 1⟩, ⟨[0, 0, 0, 0, 0, 0, 0, 0], 0⟩, ⟨[0, 0, 0, 0, 0, 0, 0, 0], 0⟩, ⟨[0, 0, 0, 0, 0, 0, 0, 0], 0⟩, ⟨[0, 0, 0, 0, 0, 0, 0, 0], 0⟩],
   [⟨[0, 0, 0, 0, 0, 0, 0, 0], 0⟩, ⟨[0, 0, 0, 0, 0, 0, 0, 0], 0⟩, ⟨[0, 0, 0, 0, 0, 0, 0, 0], 0⟩, ⟨[0, 0, 0, 0, 0, 0, 0, 0], 0⟩, ⟨[0, 0, 1, 0, 0, 0, -1, 0], 1⟩, ⟨[0, 0, 1, 0, 0, 0, -1, 0], 1⟩, ⟨[0, 0, 0, 0, 0, 0, 0, 0], 0⟩, ⟨[0, 0, 0, 0, 0, 0, 0, 0], 0⟩],
   [⟨[0, 0, 0, 0, 0, 0, 0, 0], 0⟩, ⟨[0, 0, 0, 0, 0, 0, 0, 0], 0⟩, ⟨[0, 0, 0, 0, 0, 0, 0, 0], 0⟩, ⟨[0, 0, 0, 0, 0, 0, 0, 0], 0⟩, ⟨[1, 0, 0, 0, -1, 0, 0, 0], 1⟩, ⟨[-1, 0, 0, 0, 1, 0, 0, 0], 1⟩, ⟨[0, 0, 0, 0, 0, 0, 0, 0], 0⟩, ⟨[0, 0, 0, 0, 0, 0, 0, 0], 0⟩],
   [⟨[0, 0, 0, 0, 0, 0, 0, 0], 0⟩, ⟨[0, 0, 0, 0, 0, 0, 0, 0], 0⟩, ⟨[0, 0, 0, 0, 0, 0, 0, 0], 0⟩, ⟨[0, 0, 0, 0, 0, 0, 0, 0], 0⟩, ⟨[0, 0, 0, 0, 0, 0, 0, 0], 0⟩, ⟨[0, 0, 0, 0, 0, 0, 0, 0], 0⟩, ⟨[0, 0, -1, 0, 0, 0, -1, 0], 1⟩, ⟨[0, 0, -1, 0, 0, 0, -1, 0], 1⟩],
   [⟨[0, 0, 0, 0, 0, 0, 0, 0], 0⟩, ⟨[0, 0, 0, 0, 0, 0, 0, 0], 0⟩, ⟨[0, 0, 0, 0, 0, 0, 0, 0], 0⟩, ⟨[0, 0, 0, 0, 0, 0, 0, 0], 0⟩, ⟨[0, 0, 0, 0, 0, 0, 0, 0], 0⟩, ⟨[0, 0, 0, 0, 0, 0, 0, 0], 0⟩, ⟨[1, 0, 0, 0, 1, 0, 0, 0], 1⟩, ⟨[-1, 0, 0, 0, -1, 0, 0, 0], 1⟩]]

theorem toffoliGStep8 : matMulK embLit26 toffoliGPart7 = toffoliGPart8 := by decide

def toffoliGPart9 : MatK :=
  [[⟨[0, 0, 1, 0, 0, 0, -1, 0], 1⟩, ⟨[0, 0, 1, 0, 0, 0, -1, 0], 1⟩, ⟨[0, 0, 0, 0, 0, 0, 0, 0], 0⟩, ⟨[0, 0, 0, 0, 0, 0, 0, 0], 0⟩, ⟨[0, 0, 0, 0, 0, 0, 0, 0], 0⟩, ⟨[0, 0, 0, 0, 0, 0, 0, 0], 0⟩, ⟨[0, 0, 0, 0, 0, 0, 0, 0], 0⟩, ⟨[0, 0, 0, 0, 0, 0, 0, 0], 0⟩],
   [⟨[0, 0, 1, 0, 0, 0, -1, 0], 1⟩, ⟨[0, 0, -1, 0, 0, 0, 1, 0], 1⟩, ⟨[0, 0, 0, 0, 0, 0, 0, 0], 0⟩, ⟨[0, 0, 0, 0, 0, 0, 0, 0], 0⟩, ⟨[0, 0, 0, 0, 0, 0, 0, 0], 0⟩, ⟨[0, 0, 0, 0, 0, 0, 0, 0], 0⟩, ⟨[0, 0, 0, 0, 0, 0, 0, 0], 0⟩, ⟨[0, 0, 0, 0, 0, 0, 0, 0], 0⟩],
   [⟨[0, 0, 0, 0, 0, 0, 0, 0], 0⟩, ⟨[0, 0, 0, 0, 0, 0, 0, 0], 0⟩, ⟨[0, 0, 1, 0, 0, 0, -1, 0], 1⟩, ⟨[0, 0, 1, 0, 0, 0, -1, 0], 1⟩, ⟨[0, 0, 0, 0, 0, 0, 0, 0], 0⟩, ⟨[0, 0, 0, 0, 0, 0, 0, 0], 0⟩, ⟨[0, 0, 0, 0, 0, 0, 0, 0], 0⟩, ⟨[0, 0, 0, 0, 0, 0, 0, 0], 0⟩],
   [⟨[0, 0, 0, 0, 0, 0, 0, 0], 0⟩, ⟨[0, 0, 0, 0, 0, 0, 0, 0], 0⟩, ⟨[0, 0, 1, 0, 0, 0, -1, 0], 1⟩, ⟨[0, 0, -1, 0, 0, 0, 1, 0], 1⟩, ⟨[0, 0, 0, 0, 0, 0, 0, 0], 0⟩, ⟨[0, 0, 0, 0, 0, 0, 0, 0], 0⟩, ⟨[0, 0, 0, 0, 0, 0, 0, 0], 0⟩, ⟨[0, 0, 0, 0, 0, 0, 0, 0], 0⟩],
   [⟨[0, 0, 0, 0, 0, 0, 0, 0], 0⟩, ⟨[0, 0, 0, 0, 0, 0, 0, 0], 0⟩, ⟨[0, 0, 0, 0, 0, 0, 0, 0], 0⟩, ⟨[0, 0, 0, 0, 0, 0, 0, 0], 0⟩, ⟨[0, 0, 1, 0, 0, 0, -1, 0], 1⟩, ⟨[0, 0, 1, 0, 0, 0, -1, 0], 1⟩, ⟨[0, 0, 0, 0, 0, 0, 0, 0], 0⟩, ⟨[0, 0, 0, 0, 0, 0, 0, 0], 0⟩],
   [⟨[0, 0, 0, 0, 0, 0, 0, 0], 0⟩, ⟨[0, 0, 0, 0, 0, 0, 0, 0], 0⟩, ⟨[0, 0, 0, 0, 0, 0, 0, 0], 0⟩, ⟨[0, 0, 0, 0, 0, 0, 0, 0], 0⟩, ⟨[0, 0, 1, 0, 0, 0, -1, 0], 1⟩, ⟨[0, 0, -1, 0, 0, 0, 1, 0], 1⟩, ⟨[0, 0, 0, 0, 0, 0, 0, 0], 0⟩, ⟨[0, 0, 0, 0, 0, 0, 0, 0], 0⟩],
   [⟨[0, 0, 0, 0, 0, 0, 0, 0], 0⟩, ⟨[0, 0, 0, 0, 0, 0, 0, 0], 0⟩, ⟨[0, 0, 0, 0, 0, 0, 0, 0], 0⟩, ⟨[0, 0, 0, 0, 0, 0, 0, 0], 0⟩, ⟨[0, 0, 0, 0, 0, 0, 0, 0], 0⟩, ⟨[0, 0, 0, 0, 0, 0, 0, 0], 0⟩, ⟨[0, 0, -1, 0, 0, 0, -1, 0], 1⟩, ⟨[0, 0, -1, 0, 0, 0, -1, 0], 1⟩],
   [⟨[0, 0, 0, 0, 0, 0, 0, 0], 0⟩, ⟨[0, 0, 0, 0, 0, 0, 0, 0], 0⟩, ⟨[0, 0, 0, 0, 0, 0, 0, 0], 0⟩, ⟨[0, 0, 0, 0, 0, 0, 0, 0], 0⟩, ⟨[0, 0, 0, 0, 0, 0, 0, 0], 0⟩, ⟨[0, 0, 0, 0, 0, 0, 0, 0], 0⟩, ⟨[0, 0, 1, 0, 0, 0, 1, 0], 1⟩, ⟨[0, 0, -1, 0, 0, 0, -1, 0], 1⟩]]

theorem toffoliGStep9 : matMulK embLit27 toffoliGPart8 = toffoliGPart9 := by decide

def toffoliGPart10 : MatK :=
  [[⟨[0, 0, 1, 0, 0, 0, -1, 0], 1⟩, ⟨[0, 0, 1, 0, 0, 0, -1, 0], 1⟩, ⟨[0, 0, 0, 0, 0, 0, 0, 0], 0⟩, ⟨[0, 0, 0, 0, 0, 0, 0, 0], 0⟩, ⟨[0, 0, 0, 0, 0, 0, 0, 0], 0⟩, ⟨[0, 0, 0, 0, 0, 0, 0, 0], 0⟩, ⟨[0, 0, 0, 0, 0, 0, 0, 0], 0⟩, ⟨[0, 0, 0, 0, 0, 0, 0, 0], 0⟩],
   [⟨[0, 0, 1, 0, 0, 0, -1, 0], 1⟩, ⟨[0, 0, -1, 0, 0, 0, 1, 0], 1⟩, ⟨[0, 0, 0, 0, 0, 0, 0, 0], 0⟩, ⟨[0, 0, 0, 0, 0, 0, 0, 0], 0⟩, ⟨[0, 0, 0, 0, 0, 0, 0, 0], 0⟩, ⟨[0, 0, 0, 0, 0, 0, 0, 0], 0⟩, ⟨[0, 0, 0, 0, 0, 0, 0, 0], 0⟩, ⟨[0, 0, 0, 0, 0, 0, 0, 0], 0⟩],
   [⟨[0, 0, 0, 0, 0, 0, 0, 0], 0⟩, ⟨[0, 0, 0, 0, 0, 0, 0, 0], 0⟩, ⟨[1, 0, 0, 0, 1, 0, 0, 0], 1⟩, ⟨[1, 0, 0, 0, 1, 0, 0, 0], 1⟩, ⟨[0, 0, 0, 0, 0, 0, 0, 0], 0⟩, ⟨[0, 0, 0, 0, 0, 0, 0, 0], 0⟩, ⟨[0, 0, 0, 0, 0, 0, 0, 0], 0⟩, ⟨[0, 0, 0, 0, 0, 0, 0, 0], 0⟩],
   [⟨[0, 0, 0, 0, 0, 0, 0, 0], 0⟩, ⟨[0, 0, 0, 0, 0, 0, 0, 0], 0⟩, ⟨[1, 0, 0, 0, 1, 0, 0, 0], 1⟩, ⟨[-1, 0, 0, 0, -1, 0, 0, 0], 1⟩, ⟨[0, 0, 0, 0, 0, 0, 0, 0], 0⟩, ⟨[0, 0, 0, 0, 0, 0, 0, 0], 0⟩, ⟨[0, 0, 0, 0, 0, 0, 0, 0], 0⟩, ⟨[0, 0, 0, 0, 0, 0, 0, 0], 0⟩],
   [⟨[0, 0, 0, 0, 0, 0, 0, 0], 0⟩, ⟨[0, 0, 0, 0, 0, 0, 0, 0], 0⟩, ⟨[0, 0, 0, 0, 0, 0, 0, 0], 0⟩, ⟨[0, 0, 0, 0, 0, 0, 0, 0], 0⟩, ⟨[0, 0, 1, 0, 0, 0, -1, 0], 1⟩, ⟨[0, 0, 1, 0, 0, 0, -1, 0], 1⟩, ⟨[0, 0, 0, 0, 0, 0, 0, 0], 0⟩, ⟨[0, 0, 0, 0, 0, 0, 0, 0], 0⟩],
   [⟨[0, 0, 0, 0, 0, 0, 0, 0], 0⟩, ⟨[0, 0, 0, 0, 0, 0, 0, 0], 0⟩, ⟨[0, 0, 0, 0, 0, 0, 0, 0], 0⟩, ⟨[0, 0, 0, 0, 0, 0, 0, 0], 0⟩, ⟨[0, 0, 1, 0, 0, 0, -1, 0], 1⟩, ⟨[0, 0, -1, 0, 0, 0, 1, 0], 1⟩, ⟨[0, 0, 0, 0, 0, 0, 0, 0], 0⟩, ⟨[0, 0, 0, 0, 0, 0, 0, 0], 0⟩],
   [⟨[0, 0, 0, 0, 0, 0, 0, 0], 0⟩, ⟨[0, 0, 0, 0, 0, 0, 0, 0], 0⟩, ⟨[0, 0, 0, 0, 0, 0, 0, 0], 0⟩, ⟨[0, 0, 0, 0, 0, 0, 0, 0], 0⟩, ⟨[0, 0, 0, 0, 0, 0, 0, 0], 0⟩, ⟨[0, 0, 0, 0, 0, 0, 0, 0], 0⟩, ⟨[1, 0, 0, 0, -1, 0, 0, 0], 1⟩, ⟨[1, 0, 0, 0, -1, 0, 0, 0], 1⟩],
   [⟨[0, 0, 0, 0, 0, 0, 0, 0], 0⟩, ⟨[0, 0, 0, 0, 0, 0, 0, 0], 0⟩, ⟨[0, 0, 0, 0, 0, 0, 0, 0], 0⟩, ⟨[0, 0, 0, 0, 0, 0, 0, 0], 0⟩, ⟨[0, 0, 0, 0, 0, 0, 0, 0], 0⟩, ⟨[0, 0, 0, 0, 0, 0, 0, 0], 0⟩, ⟨[-1, 0, 0, 0, 1, 0, 0, 0], 1⟩, ⟨[1, 0, 0, 0, -1, 0, 0, 0], 1⟩]]

theorem toffoliGStep10 : matMulK embLit28 toffoliGPart9 = toffoliGPart10 := by decide

def toffoliGPart11 : MatK :=
  [[⟨[0, 0, 1, 0, 0, 0, -1, 0], 1⟩, ⟨[0, 0, 1, 0, 0, 0, -1, 0], 1⟩, ⟨[0, 0, 0, 0, 0, 0, 0, 0], 0⟩, ⟨[0, 0, 0, 0, 0, 0, 0, 0], 0⟩, ⟨[0, 0, 0, 0, 0, 0, 0, 0], 0⟩, ⟨[0, 0, 0, 0, 0, 0, 0, 0], 0⟩, ⟨[0, 0, 0, 0, 0, 0, 0, 0], 0⟩, ⟨[0, 0, 0, 0, 0, 0, 0, 0], 0⟩],
   [⟨[0, 0, 1, 0, 0, 0, -1, 0], 1⟩, ⟨[0, 0, -1, 0, 0, 0, 1, 0], 1⟩, ⟨[0, 0, 0, 0, 0, 0, 0, 0], 0⟩, ⟨[0, 0, 0, 0, 0, 0, 0, 0], 0⟩, ⟨[0, 0, 0, 0, 0, 0, 0, 0], 0⟩, ⟨[0, 0, 0, 0, 0, 0, 0, 0], 0⟩, ⟨[0, 0, 0, 0, 0, 0, 0, 0], 0⟩, ⟨[0, 0, 0, 0, 0, 0, 0, 0], 0⟩],
   [⟨[0, 0, 0, 0, 0, 0, 0, 0], 0⟩, ⟨[0, 0, 0, 0, 0, 0, 0, 0], 0⟩, ⟨[1, 0, 0, 0, 1, 0, 0, 0], 1⟩, ⟨[1, 0, 0, 0, 1, 0, 0, 0], 1⟩, ⟨[0, 0, 0, 0, 0, 0, 0, 0], 0⟩, ⟨[0, 0, 0, 0, 0, 0, 0, 0], 0⟩, ⟨[0, 0, 0, 0, 0, 0, 0, 0], 0⟩, ⟨[0, 0, 0, 0, 0, 0, 0, 0], 0⟩],
   [⟨[0, 0, 0, 0, 0, 0, 0, 0], 0⟩, ⟨[0, 0, 0, 0, 0, 0, 0, 0], 0⟩, ⟨[1, 0, 0, 0, 1, 0, 0, 0], 1⟩, ⟨[-1, 0, 0, 0, -1, 0, 0, 0], 1⟩, ⟨[0, 0, 0, 0, 0, 0, 0, 0], 0⟩, ⟨[0, 0, 0, 0, 0, 0, 0, 0], 0⟩, ⟨[0, 0, 0, 0, 0, 0, 0, 0], 0⟩, ⟨[0, 0, 0, 0, 0, 0, 0, 0], 0⟩],
   [⟨[0, 0, 0, 0, 0, 0, 0, 0], 0⟩, ⟨[0, 0, 0, 0, 0, 0, 0, 0], 0⟩, ⟨[0, 0, 0, 0, 0, 0, 0, 0], 0⟩, ⟨[0, 0, 0, 0, 0, 0, 0, 0], 0⟩, ⟨[0, 0, 0, 0, 0, 0, 0, 0], 0⟩, ⟨[0, 0, 0, 0, 0, 0, 0, 0], 0⟩, ⟨[1, 0, 0, 0, -1, 0, 0, 0], 1⟩, ⟨[1, 0, 0, 0, -1, 0, 0, 0], 1⟩],
   [⟨[0, 0, 0, 0, 0, 0, 0, 0], 0⟩, ⟨[0, 0, 0, 0, 0, 0, 0, 0], 0⟩, ⟨[0, 0, 0, 0, 0, 0, 0, 0], 0⟩, ⟨[0, 0, 0, 0, 0, 0, 0, 0], 0⟩, ⟨[0, 0, 0, 0, 0, 0, 0, 0], 0⟩, ⟨[0, 0, 0, 0, 0, 0, 0, 0], 0⟩, ⟨[-1, 0, 0, 0, 1, 0, 0, 0], 1⟩, ⟨[1, 0, 0, 0, -1, 0, 0, 0], 1⟩],
   [⟨[0, 0, 0, 0, 0, 0, 0, 0], 0⟩, ⟨[0, 0, 0, 0, 0, 0, 0, 0], 0⟩, ⟨[0, 0, 0, 0, 0, 0, 0, 0], 0⟩, ⟨[0, 0, 0, 0, 0, 0, 0, 0], 0⟩, ⟨[0, 0, 1, 0, 0, 0, -1, 0], 1⟩, ⟨[0, 0, 1, 0, 0, 0, -1, 0], 1⟩, ⟨[0, 0, 0, 0, 0, 0, 0, 0], 0⟩, ⟨[0, 0, 0, 0, 0, 0, 0, 0], 0⟩],
   [⟨[0, 0, 0, 0, 0, 0, 0, 0], 0⟩, ⟨[0, 0, 0, 0, 0, 0, 0, 0], 0⟩, ⟨[0, 0, 0, 0, 0, 0, 0, 0], 0⟩, ⟨[0, 0, 0, 0, 0, 0, 0, 0], 0⟩, ⟨[0, 0, 1, 0, 0, 0, -1, 0], 1⟩, ⟨[0, 0, -1, 0, 0, 0, 1, 0], 1⟩, ⟨[0, 0, 0, 0, 0, 0, 0, 0], 0⟩, ⟨[0, 0, 0, 0, 0, 0, 0, 0], 0⟩]]

theorem toffoliGStep11 : matMulK embLit29 toffoliGPart10 = toffoliGPart11 := by decide

def toffoliGPart12 : MatK :=
  [[⟨[1, 0, 0, 0, 0, 0, 0, 0], 0⟩, ⟨[0, 0, 0, 0, 0, 0, 0, 0], 0⟩, ⟨[0, 0, 0, 0, 0, 0, 0, 0], 0⟩, ⟨[0, 0, 0, 0, 0, 0, 0, 0], 0⟩, ⟨[0, 0, 0, 0, 0, 0, 0, 0], 0⟩, ⟨[0, 0, 0, 0, 0, 0, 0, 0], 0⟩, ⟨[0, 0, 0, 0, 0, 0, 0, 0], 0⟩, ⟨[0, 0, 0, 0, 0, 0, 0, 0], 0⟩],
   [⟨[0, 0, 0, 0, 0, 0, 0, 0], 0⟩, ⟨[1, 0, 0, 0, 0, 0, 0, 0], 0⟩, ⟨[0, 0, 0, 0, 0, 0, 0, 0], 0⟩, ⟨[0, 0, 0, 0, 0, 0, 0, 0], 0⟩, ⟨[0, 0, 0, 0, 0, 0, 0, 0], 0⟩, ⟨[0, 0, 0, 0, 0, 0, 0, 0], 0⟩, ⟨[0, 0, 0, 0, 0, 0, 0, 0], 0⟩, ⟨[0, 0, 0, 0, 0, 0, 0, 0], 0⟩],
   [⟨[0, 0, 0, 0, 0, 0, 0, 0], 0⟩, ⟨[0, 0, 0, 0, 0, 0, 0, 0], 0⟩, ⟨[0, 0, 1, 0, 0, 0, 0, 0], 0⟩, ⟨[0, 0, 0, 0, 0, 0, 0, 0], 0⟩, ⟨[0, 0, 0, 0, 0, 0, 0, 0], 0⟩, ⟨[0, 0, 0, 0, 0, 0, 0, 0], 0⟩, ⟨[0, 0, 0, 0, 0, 0, 0, 0], 0⟩, ⟨[0, 0, 0, 0, 0, 0, 0, 0], 0⟩],
   [⟨[0, 0, 0, 0, 0, 0, 0, 0], 0⟩, ⟨[0, 0, 0, 0, 0, 0, 0, 0], 0⟩, ⟨[0, 0, 0, 0, 0, 0, 0, 0], 0⟩, ⟨[0, 0, 1, 0, 0, 0, 0, 0], 0⟩, ⟨[0, 0, 0, 0, 0, 0, 0, 0], 0⟩, ⟨[0, 0, 0, 0, 0, 0, 0, 0], 0⟩, ⟨[0, 0, 0, 0, 0, 0, 0, 0], 0⟩, ⟨[0, 0, 0, 0, 0, 0, 0, 0], 0⟩],
   [⟨[0, 0, 0, 0, 0, 0, 0, 0], 0⟩, ⟨[0, 0, 0, 0, 0, 0, 0, 0], 0⟩, ⟨[0, 0, 0, 0, 0, 0, 0, 0], 0⟩, ⟨[0, 0, 0, 0, 0, 0, 0, 0], 0⟩, ⟨[0, 0, 0, 0, 0, 0, 0, 0], 0⟩, ⟨[0, 0, 0, 0, 0, 0, 0, 0], 0⟩, ⟨[0, 0, 0, 0, 0, 0, 0, 0], 0⟩, ⟨[0, 0, 0, 0, 0, 0, -1, 0], 0⟩],
   [⟨[0, 0, 0, 0, 0, 0, 0, 0], 0⟩, ⟨[0, 0, 0, 0, 0, 0, 0, 0], 0⟩, ⟨[0, 0, 0, 0, 0, 0, 0, 0], 0⟩, ⟨[0, 0, 0, 0, 0, 0, 0, 0], 0⟩, ⟨[0, 0, 0, 0, 0, 0, 0, 0], 0⟩, ⟨[0, 0, 0, 0, 0, 0, 0, 0], 0⟩, ⟨[0, 0, 0, 0, 0, 0, -1, 0], 0⟩, ⟨[0, 0, 0, 0, 0, 0, 0, 0], 0⟩],
   [⟨[0, 0, 0, 0, 0, 0, 0, 0], 0⟩, ⟨[0, 0, 0, 0, 0, 0, 0, 0], 0⟩, ⟨[0, 0, 0, 0, 0, 0, 0, 0], 0⟩, ⟨[0, 0, 0, 0, 0, 0, 0, 0], 0⟩, ⟨[1, 0, 0, 0, 0, 0, 0, 0], 0⟩, ⟨[0, 0, 0, 0, 0, 0, 0, 0], 0⟩, ⟨[0, 0, 0, 0, 0, 0, 0, 0], 0⟩, ⟨[0, 0, 0, 0, 0, 0, 0, 0], 0⟩],
   [⟨[0, 0, 0, 0, 0, 0, 0, 0], 0⟩, ⟨[0, 0, 0, 0, 0, 0, 0, 0], 0⟩, ⟨[0, 0, 0, 0, 0, 0, 0, 0], 0⟩, ⟨[0, 0, 0, 0, 0, 0, 0, 0], 0⟩, ⟨[0, 0, 0, 0, 0, 0, 0, 0], 0⟩, ⟨[1, 0, 0, 0, 0, 0, 0, 0], 0⟩, ⟨[0, 0, 0, 0, 0, 0, 0, 0], 0⟩, ⟨[0, 0, 0, 0, 0, 0, 0, 0], 0⟩]]

theorem toffoliGStep12 : matMulK embLit23 toffoliGPart11 = toffoliGPart12 := by decide

def toffoliGPart13 : MatK :=
  [[⟨[1, 0, 0, 0, 0, 0, 0, 0], 0⟩, ⟨[0, 0, 0, 0, 0, 0, 0, 0], 0⟩, ⟨[0, 0, 0, 0, 0, 0, 0, 0], 0⟩, ⟨[0, 0, 0, 0, 0, 0, 0, 0], 0⟩, ⟨[0, 0, 0, 0, 0, 0, 0, 0], 0⟩, ⟨[0, 0, 0, 0, 0, 0, 0, 0], 0⟩, ⟨[0, 0, 0, 0, 0, 0, 0, 0], 0⟩, ⟨[0, 0, 0, 0, 0, 0, 0, 0], 0⟩],
   [⟨[0, 0, 0, 0, 0, 0, 0, 0], 0⟩, ⟨[1, 0, 0, 0, 0, 0, 0, 0], 0⟩, ⟨[0, 0, 0, 0, 0, 0, 0, 0], 0⟩, ⟨[0, 0, 0, 0, 0, 0, 0, 0], 0⟩, ⟨[0, 0, 0, 0, 0, 0, 0, 0], 0⟩, ⟨[0, 0, 0, 0, 0, 0, 0, 0], 0⟩, ⟨[0, 0, 0, 0, 0, 0, 0, 0], 0⟩, ⟨[0, 0, 0, 0, 0, 0, 0, 0], 0⟩],
   [⟨[0, 0, 0, 0, 0, 0, 0, 0], 0⟩, ⟨[0, 0, 0, 0, 0, 0, 0, 0], 0⟩, ⟨[0, 0, 1, 0, 0, 0, 0, 0], 0⟩, ⟨[0, 0, 0, 0, 0, 0, 0, 0], 0⟩, ⟨[0, 0, 0, 0, 0, 0, 0, 0], 0⟩, ⟨[0, 0, 0, 0, 0, 0, 0, 0], 0⟩, ⟨[0, 0, 0, 0, 0, 0, 0, 0], 0⟩, ⟨[0, 0, 0, 0, 0, 0, 0, 0], 0⟩],
   [⟨[0, 0, 0, 0, 0, 0, 0, 0], 0⟩, ⟨[0, 0, 0, 0, 0, 0, 0, 0], 0⟩, ⟨[0, 0, 0, 0, 0, 0, 0, 0], 0⟩, ⟨[0, 0, 1, 0, 0, 0, 0, 0], 0⟩, ⟨[0, 0, 0, 0, 0, 0, 0, 0], 0⟩, ⟨[0, 0, 0, 0, 0, 0, 0, 0], 0⟩, ⟨[0, 0, 0, 0, 0, 0, 0, 0], 0⟩, ⟨[0, 0, 0, 0, 0, 0, 0, 0], 0⟩],
   [⟨[0, 0, 0, 0, 0, 0, 0, 0], 0⟩, ⟨[0, 0, 0, 0, 0, 0, 0, 0], 0⟩, ⟨[0, 0, 0, 0, 0, 0, 0, 0], 0⟩, ⟨[0, 0, 0, 0, 0, 0, 0, 0], 0⟩, ⟨[0, 0, 0, 0, 0, 0, 0, 0], 0⟩, ⟨[0, 0, 0, 0, 0, 0, 0, 0], 0⟩, ⟨[0, 0, 0, 0, 0, 0, 0, 0], 0⟩, ⟨[1, 0, 0, 0, 0, 0, 0, 0], 0⟩],
   [⟨[0, 0, 0, 0, 0, 0, 0, 0], 0⟩, ⟨[0, 0, 0, 0, 0, 0, 0, 0], 0⟩, ⟨[0, 0, 0, 0, 0, 0, 0, 0], 0⟩, ⟨[0, 0, 0, 0, 0, 0, 0, 0], 0⟩, ⟨[0, 0, 0, 0, 0, 0, 0, 0], 0⟩, ⟨[0, 0, 0, 0, 0, 0, 0, 0], 0⟩, ⟨[1, 0, 0, 0, 0, 0, 0, 0], 0⟩, ⟨[0, 0, 0, 0, 0, 0, 0, 0], 0⟩],
   [⟨[0, 0, 0, 0, 0, 0, 0, 0], 0⟩, ⟨[0, 0, 0, 0, 0, 0, 0, 0], 0⟩, ⟨[0, 0, 0, 0, 0, 0, 0, 0], 0⟩, ⟨[0, 0, 0, 0, 0, 0, 0, 0], 0⟩, ⟨[0, 0, 1, 0, 0, 0, 0, 0], 0⟩, ⟨[0, 0, 0, 0, 0, 0, 0, 0], 0⟩, ⟨[0, 0, 0, 0, 0, 0, 0, 0], 0⟩, ⟨[0, 0, 0, 0, 0, 0, 0, 0], 0⟩],
   [⟨[0, 0, 0, 0, 0, 0, 0, 0], 0⟩, ⟨[0, 0, 0, 0, 0, 0, 0, 0], 0⟩, ⟨[0, 0, 0, 0, 0, 0, 0, 0], 0⟩, ⟨[0, 0, 0, 0, 0, 0, 0, 0], 0⟩, ⟨[0, 0, 0, 0, 0, 0, 0, 0], 0⟩, ⟨[0, 0, 1, 0, 0, 0, 0, 0], 0⟩, ⟨[0, 0, 0, 0, 0, 0, 0, 0], 0⟩, ⟨[0, 0, 0, 0, 0, 0, 0, 0], 0⟩]]

theorem toffoliGStep13 : matMulK embLit30 toffoliGPart12 = toffoliGPart13 := by decide

def toffoliGPart14 : MatK :=
  [[⟨[1, 0, 0, 0, 0, 0, 0, 0], 0⟩, ⟨[0, 0, 0, 0, 0, 0, 0, 0], 0⟩, ⟨[0, 0, 0, 0, 0, 0, 0, 0], 0⟩, ⟨[0, 0, 0, 0, 0, 0, 0, 0], 0⟩, ⟨[0, 0, 0, 0, 0, 0, 0, 0], 0⟩, ⟨[0, 0, 0, 0, 0, 0, 0, 0], 0⟩, ⟨[0, 0, 0, 0, 0, 0, 0, 0], 0⟩, ⟨[0, 0, 0, 0, 0, 0, 0, 0], 0⟩],
   [⟨[0, 0, 0, 0, 0, 0, 0, 0], 0⟩, ⟨[1, 0, 0, 0, 0, 0, 0, 0], 0⟩, ⟨[0, 0, 0, 0, 0, 0, 0, 0], 0⟩, ⟨[0, 0, 0, 0, 0, 0, 0, 0], 0⟩, ⟨[0, 0, 0, 0, 0, 0, 0, 0], 0⟩, ⟨[0, 0, 0, 0, 0, 0, 0, 0], 0⟩, ⟨[0, 0, 0, 0, 0, 0, 0, 0], 0⟩, ⟨[0, 0, 0, 0, 0, 0, 0, 0], 0⟩],
   [⟨[0, 0, 0, 0, 0, 0, 0, 0], 0⟩, ⟨[0, 0, 0, 0, 0, 0, 0, 0], 0⟩, ⟨[1, 0, 0, 0, 0, 0, 0, 0], 0⟩, ⟨[0, 0, 0, 0, 0, 0, 0, 0], 0⟩, ⟨[0, 0, 0, 0, 0, 0, 0, 0], 0⟩, ⟨[0, 0, 0, 0, 0, 0, 0, 0], 0⟩, ⟨[0, 0, 0, 0, 0, 0, 0, 0], 0⟩, ⟨[0, 0, 0, 0, 0, 0, 0, 0], 0⟩],
   [⟨[0, 0, 0, 0, 0, 0, 0, 0], 0⟩, ⟨[0, 0, 0, 0, 0, 0, 0, 0], 0⟩, ⟨[0, 0, 0, 0, 0, 0, 0, 0], 0⟩, ⟨[1, 0, 0, 0, 0, 0, 0, 0], 0⟩, ⟨[0, 0, 0, 0, 0, 0, 0, 0], 0⟩, ⟨[0, 0, 0, 0, 0, 0, 0, 0], 0⟩, ⟨[0, 0, 0, 0, 0, 0, 0, 0], 0⟩, ⟨[0, 0, 0, 0, 0, 0, 0, 0], 0⟩],
   [⟨[0, 0, 0, 0, 0, 0, 0, 0], 0⟩, ⟨[0, 0, 0, 0, 0, 0, 0, 0], 0⟩, ⟨[0, 0, 0, 0, 0, 0, 0, 0], 0⟩, ⟨[0, 0, 0, 0, 0, 0, 0, 0], 0⟩, ⟨[0, 0, 0, 0, 0, 0, 0, 0], 0⟩, ⟨[0, 0, 0, 0, 0, 0, 0, 0], 0⟩, ⟨[0, 0, 0, 0, 0, 0, 0, 0], 0⟩, ⟨[1, 0, 0, 0, 0, 0, 0, 0], 0⟩],
   [⟨[0, 0, 0, 0, 0, 0, 0, 0], 0⟩, ⟨[0, 0, 0, 0, 0, 0, 0, 0], 0⟩, ⟨[0, 0, 0, 0, 0, 0, 0, 0], 0⟩, ⟨[0, 0, 0, 0, 0, 0, 0, 0], 0⟩, ⟨[0, 0, 0, 0, 0, 0, 0, 0], 0⟩, ⟨[0, 0, 0, 0, 0, 0, 0, 0], 0⟩, ⟨[1, 0, 0, 0, 0, 0, 0, 0], 0⟩, ⟨[0, 0, 0, 0, 0, 0, 0, 0], 0⟩],
   [⟨[0, 0, 0, 0, 0, 0, 0, 0], 0⟩, ⟨[0, 0, 0, 0, 0, 0, 0, 0], 0⟩, ⟨[0, 0, 0, 0, 0, 0, 0, 0], 0⟩, ⟨[0, 0, 0, 0, 0, 0, 0, 0], 0⟩, ⟨[1, 0, 0, 0, 0, 0, 0, 0], 0⟩, ⟨[0, 0, 0, 0, 0, 0, 0, 0], 0⟩, ⟨[0, 0, 0, 0, 0, 0, 0, 0], 0⟩, ⟨[0, 0, 0, 0, 0, 0, 0, 0], 0⟩],
   [⟨[0, 0, 0, 0, 0, 0, 0, 0], 0⟩, ⟨[0, 0, 0, 0, 0, 0, 0, 0], 0⟩, ⟨[0, 0, 0, 0, 0, 0, 0, 0], 0⟩, ⟨[0, 0, 0, 0, 0, 0, 0, 0], 0⟩, ⟨[0, 0, 0, 0, 0, 0, 0, 0], 0⟩, ⟨[1, 0, 0, 0, 0, 0, 0, 0], 0⟩, ⟨[0, 0, 0, 0, 0, 0, 0, 0], 0⟩, ⟨[0, 0, 0, 0, 0, 0, 0, 0], 0⟩]]

theorem toffoliGStep14 : matMulK embLit31 toffoliGPart13 = toffoliGPart14 := by decide

def toffoliGPart15 : MatK :=
  [[⟨[1, 0, 0, 0, 0, 0, 0, 0], 0⟩, ⟨[0, 0, 0, 0, 0, 0, 0, 0], 0⟩, ⟨[0, 0, 0, 0, 0, 0, 0, 0], 0⟩, ⟨[0, 0, 0, 0, 0, 0, 0, 0], 0⟩, ⟨[0, 0, 0, 0, 0, 0, 0, 0], 0⟩, ⟨[0, 0, 0, 0, 0, 0, 0, 0], 0⟩, ⟨[0, 0, 0, 0, 0, 0, 0, 0], 0⟩, ⟨[0, 0, 0, 0, 0, 0, 0, 0], 0⟩],
   [⟨[0, 0, 0, 0, 0, 0, 0, 0], 0⟩, ⟨[1, 0, 0, 0, 0, 0, 0, 0], 0⟩, ⟨[0, 0, 0, 0, 0, 0, 0, 0], 0⟩, ⟨[0, 0, 0, 0, 0, 0, 0, 0], 0⟩, ⟨[0, 0, 0, 0, 0, 0, 0, 0], 0⟩, ⟨[0, 0, 0, 0, 0, 0, 0, 0], 0⟩, ⟨[0, 0, 0, 0, 0, 0, 0, 0], 0⟩, ⟨[0, 0, 0, 0, 0, 0, 0, 0], 0⟩],
   [⟨[0, 0, 0, 0, 0, 0, 0, 0], 0⟩, ⟨[0, 0, 0, 0, 0, 0, 0, 0], 0⟩, ⟨[1, 0, 0, 0, 0, 0, 0, 0], 0⟩, ⟨[0, 0, 0, 0, 0, 0, 0, 0], 0⟩, ⟨[0, 0, 0, 0, 0, 0, 0, 0], 0⟩, ⟨[0, 0, 0, 0, 0, 0, 0, 0], 0⟩, ⟨[0, 0, 0, 0, 0, 0, 0, 0], 0⟩, ⟨[0, 0, 0, 0, 0, 0, 0, 0], 0⟩],
   [⟨[0, 0, 0, 0, 0, 0, 0, 0], 0⟩, ⟨[0, 0, 0, 0, 0, 0, 0, 0], 0⟩, ⟨[0, 0, 0, 0, 0, 0, 0, 0], 0⟩, ⟨[1, 0, 0, 0, 0, 0, 0, 0], 0⟩, ⟨[0, 0, 0, 0, 0, 0, 0, 0], 0⟩, ⟨[0, 0, 0, 0, 0, 0, 0, 0], 0⟩, ⟨[0, 0, 0, 0, 0, 0, 0, 0], 0⟩, ⟨[0, 0, 0, 0, 0, 0, 0, 0], 0⟩],
   [⟨[0, 0, 0, 0, 0, 0, 0, 0], 0⟩, ⟨[0, 0, 0, 0, 0, 0, 0, 0], 0⟩, ⟨[0, 0, 0, 0, 0, 0, 0, 0], 0⟩, ⟨[0, 0, 0, 0, 0, 0, 0, 0], 0⟩, ⟨[1, 0, 0, 0, 0, 0, 0, 0], 0⟩, ⟨[0, 0, 0, 0, 0, 0, 0, 0], 0⟩, ⟨[0, 0, 0, 0, 0, 0, 0, 0], 0⟩, ⟨[0, 0, 0, 0, 0, 0, 0, 0], 0⟩],
   [⟨[0, 0, 0, 0, 0, 0, 0, 0], 0⟩, ⟨[0, 0, 0, 0, 0, 0, 0, 0], 0⟩, ⟨[0, 0, 0, 0, 0, 0, 0, 0], 0⟩, ⟨[0, 0, 0, 0, 0, 0, 0, 0], 0⟩, ⟨[0, 0, 0, 0, 0, 0, 0, 0], 0⟩, ⟨[1, 0, 0, 0, 0, 0, 0, 0], 0⟩, ⟨[0, 0, 0, 0, 0, 0, 0, 0], 0⟩, ⟨[0, 0, 0, 0, 0, 0, 0, 0], 0⟩],
   [⟨[0, 0, 0, 0, 0, 0, 0, 0], 0⟩, ⟨[0, 0, 0, 0, 0, 0, 0, 0], 0⟩, ⟨[0, 0, 0, 0, 0, 0, 0, 0], 0⟩, ⟨[0, 0, 0, 0, 0, 0, 0, 0], 0⟩, ⟨[0, 0, 0, 0, 0, 0, 0, 0], 0⟩, ⟨[0, 0, 0, 0, 0, 0, 0, 0], 0⟩, ⟨[0, 0, 0, 0, 0, 0, 0, 0], 0⟩, ⟨[1, 0, 0, 0, 0, 0, 0, 0], 0⟩],
   [⟨[0, 0, 0, 0, 0, 0, 0, 0], 0⟩, ⟨[0, 0, 0, 0, 0, 0, 0, 0], 0⟩, ⟨[0, 0, 0, 0, 0, 0, 0, 0], 0⟩, ⟨[0, 0, 0, 0, 0, 0, 0, 0], 0⟩, ⟨[0, 0, 0, 0, 0, 0, 0, 0], 0⟩, ⟨[0, 0, 0, 0, 0, 0, 0, 0], 0⟩, ⟨[1, 0, 0, 0, 0, 0, 0, 0], 0⟩, ⟨[0, 0, 0, 0, 0, 0, 0, 0], 0⟩]]

theorem toffoliGStep15 : matMulK embLit29 toffoliGPart14 = toffoliGPart15 := by decide

theorem toffoliGBuild : build_unitary toffoliDecomp [0, 1, 2] = toffoliGPart15 := by
  simp only [build_unitary, toffoliDecomp, List.foldl_cons, List.foldl_nil, List.length_cons, List.length_nil, Nat.reducePow, Nat.reduceAdd, embEq23, embEq24, embEq25, embEq26, embEq27, embEq28, embEq29, embEq30, embEq31, toffoliGStep1, toffoliGStep2, toffoliGStep3, toffoliGStep4, toffoliGStep5, toffoliGStep6, toffoliGStep7, toffoliGStep8, toffoliGStep9, toffoliGStep10, toffoliGStep11, toffoliGStep12, toffoliGStep13, toffoliGStep14, toffoliGStep15]

def mcx1GPart1 : MatK :=
  [[⟨[0, 0, 0, 0, 0, 0, 0, 0], 0⟩, ⟨[0, 0, 0, 0, 0, 0, 0, 0], 0⟩, ⟨[1, 0, 0, 0, 0, 0, 0, 0], 0⟩, ⟨[0, 0, 0, 0, 0, 0, 0, 0], 0⟩],
   [⟨[0, 0, 0, 0, 0, 0, 0, 0], 0⟩, ⟨[0, 0, 0, 0, 0, 0, 0, 0], 0⟩, ⟨[0, 0, 0, 0, 0, 0, 0, 0], 0⟩, ⟨[1, 0, 0, 0, 0, 0, 0, 0], 0⟩],
   [⟨[1, 0, 0, 0, 0, 0, 0, 0], 0⟩, ⟨[0, 0, 0, 0, 0, 0, 0, 0], 0⟩, ⟨[0, 0, 0, 0, 0, 0, 0, 0], 0⟩, ⟨[0, 0, 0, 0, 0, 0, 0, 0], 0⟩],
   [⟨[0, 0, 0, 0, 0, 0, 0, 0], 0⟩, ⟨[1, 0, 0, 0, 0, 0, 0, 0], 0⟩, ⟨[0, 0, 0, 0, 0, 0, 0, 0], 0⟩, ⟨[0, 0, 0, 0, 0, 0, 0, 0], 0⟩]]

theorem mcx1GStep1 : matMulK embLit32 (idK 4) = mcx1GPart1 := by decide

def mcx1GPart2 : MatK :=
  [[⟨[0, 0, 0, 0, 0, 0, 0, 0], 0⟩, ⟨[0, 0, 0, 0, 0, 0, 0, 0], 0⟩, ⟨[1, 0, 0, 0, 0, 0, 0, 0], 0⟩, ⟨[0, 0, 0, 0, 0, 0, 0, 0], 0⟩],
   [⟨[0, 0, 0, 0, 0, 0, 0, 0], 0⟩, ⟨[0, 0, 0, 0, 0, 0, 0, 0], 0⟩, ⟨[0, 0, 0, 0, 0, 0, 0, 0], 0⟩, ⟨[1, 0, 0, 0, 0, 0, 0, 0], 0⟩],
   [⟨[0, 0, 0, 0, 0, 0, 0, 0], 0⟩, ⟨[1, 0, 0, 0, 0, 0, 0, 0], 0⟩, ⟨[0, 0, 0, 0, 0, 0, 0, 0], 0⟩, ⟨[0, 0, 0, 0, 0, 0, 0, 0], 0⟩],
   [⟨[1, 0, 0, 0, 0, 0, 0, 0], 0⟩, ⟨[0, 0, 0, 0, 0, 0, 0, 0], 0⟩, ⟨[0, 0, 0, 0, 0, 0, 0, 0], 0⟩, ⟨[0, 0, 0, 0, 0, 0, 0, 0], 0⟩]]

theorem mcx1GStep2 : matMulK embLit11 mcx1GPart1 = mcx1GPart2 := by decide

def mcx1GPart3 : MatK :=
  [[⟨[0, 0, 0, 0, 0, 0, 0, 0], 0⟩, ⟨[1, 0, 0, 0, 0, 0, 0, 0], 0⟩, ⟨[0, 0, 0, 0, 0, 0, 0, 0], 0⟩, ⟨[0, 0, 0, 0, 0, 0, 0, 0], 0⟩],
   [⟨[1, 0, 0, 0, 0, 0, 0, 0], 0⟩, ⟨[0, 0, 0, 0, 0, 0, 0, 0], 0⟩, ⟨[0, 0, 0, 0, 0, 0, 0, 0], 0⟩, ⟨[0, 0, 0, 0, 0, 0, 0, 0], 0⟩],
   [⟨[0, 0, 0, 0, 0, 0, 0, 0], 0⟩, ⟨[0, 0, 0, 0, 0, 0, 0, 0], 0⟩, ⟨[1, 0, 0, 0, 0, 0, 0, 0], 0⟩, ⟨[0, 0, 0, 0, 0, 0, 0, 0], 0⟩],
   [⟨[0, 0, 0, 0, 0, 0, 0, 0], 0⟩, ⟨[0, 0, 0, 0, 0, 0, 0, 0], 0⟩, ⟨[0, 0, 0, 0, 0, 0, 0, 0], 0⟩, ⟨[1, 0, 0, 0, 0, 0, 0, 0], 0⟩]]

theorem mcx1GStep3 : matMulK embLit32 mcx1GPart2 = mcx1GPart3 := by decide

theorem mcx1GBuild : build_unitary mcx1ctrl0Decomp [0, 1] = mcx1GPart3 := by
  simp only [build_unitary, mcx1ctrl0Decomp, List.foldl_cons, List.foldl_nil, List.length_cons, List.length_nil, Nat.reducePow, Nat.reduceAdd, embEq32, embEq11, mcx1GStep1, mcx1GStep2, mcx1GStep3]

def mcx2GPart1 : MatK :=
  [[⟨[0, 0, 0, 0, 0, 0, 0, 0], 0⟩, ⟨[0, 0, 0, 0, 0, 0, 0, 0], 0⟩, ⟨[1, 0, 0, 0, 0, 0, 0, 0], 0⟩, ⟨[0, 0, 0, 0, 0, 0, 0, 0], 0⟩, ⟨[0, 0, 0, 0, 0, 0, 0, 0], 0⟩, ⟨[0, 0, 0, 0, 0, 0, 0, 0], 0⟩, ⟨[0, 0, 0, 0, 0, 0, 0, 0], 0⟩, ⟨[0, 0, 0, 0, 0, 0, 0, 0], 0⟩],
   [⟨[0, 0, 0, 0, 0, 0, 0, 0], 0⟩, ⟨[0, 0, 0, 0, 0, 0, 0, 0], 0⟩, ⟨[0, 0, 0, 0, 0, 0, 0, 0], 0⟩, ⟨[1, 0, 0, 0, 0, 0, 0, 0], 0⟩, ⟨[0, 0, 0, 0, 0, 0, 0, 0], 0⟩, ⟨[0, 0, 0, 0, 0, 0, 0, 0], 0⟩, ⟨[0, 0, 0, 0, 0, 0, 0, 0], 0⟩, ⟨[0, 0, 0, 0, 0, 0, 0, 0], 0⟩],
   [⟨[1, 0, 0, 0, 0, 0, 0, 0], 0⟩, ⟨[0, 0, 0, 0, 0, 0, 0, 0], 0⟩, ⟨[0, 0, 0, 0, 0, 0, 0, 0], 0⟩, ⟨[0, 0, 0, 0, 0, 0, 0, 0], 0⟩, ⟨[0, 0, 0, 0, 0, 0, 0, 0], 0⟩, ⟨[0, 0, 0, 0, 0, 0, 0, 0], 0⟩, ⟨[0, 0, 0, 0, 0, 0, 0, 0], 0⟩, ⟨[0, 0, 0, 0, 0, 0, 0, 0], 0⟩],
   [⟨[0, 0, 0, 0, 0, 0, 0, 0], 0⟩, ⟨[1, 0, 0, 0, 0, 0, 0, 0], 0⟩, ⟨[0, 0, 0, 0, 0, 0, 0, 0], 0⟩, ⟨[0, 0, 0, 0, 0, 0, 0, 0], 0⟩, ⟨[0, 0, 0, 0, 0, 0, 0, 0], 0⟩, ⟨[0, 0, 0, 0, 0, 0, 0, 0], 0⟩, ⟨[0, 0, 0, 0, 0, 0, 0, 0], 0⟩, ⟨[0, 0, 0, 0, 0, 0, 0, 0], 0⟩],
   [⟨[0, 0, 0, 0, 0, 0, 0, 0], 0⟩, ⟨[0, 0, 0, 0, 0, 0, 0, 0], 0⟩, ⟨[0, 0, 0, 0, 0, 0, 0, 0], 0⟩, ⟨[0, 0, 0, 0, 0, 0, 0, 0], 0⟩, ⟨[0, 0, 0, 0, 0, 0, 0, 0], 0⟩, ⟨[0, 0, 0, 0, 0, 0, 0, 0], 0⟩, ⟨[1, 0, 0, 0, 0, 0, 0, 0], 0⟩, ⟨[0, 0, 0, 0, 0, 0, 0, 0], 0⟩],
   [⟨[0, 0, 0, 0, 0, 0, 0, 0], 0⟩, ⟨[0, 0, 0, 0, 0, 0, 0, 0], 0⟩, ⟨[0, 0, 0, 0, 0, 0, 0, 0], 0⟩, ⟨[0, 0, 0, 0, 0, 0, 0, 0], 0⟩, ⟨[0, 0, 0, 0, 0, 0, 0, 0], 0⟩, ⟨[0, 0, 0, 0, 0, 0, 0, 0], 0⟩, ⟨[0, 0, 0, 0, 0, 0, 0, 0], 0⟩, ⟨[1, 0, 0, 0, 0, 0, 0, 0], 0⟩],
   [⟨[0, 0, 0, 0, 0, 0, 0, 0], 0⟩, ⟨[0, 0, 0, 0, 0, 0, 0, 0], 0⟩, ⟨[0, 0, 0, 0, 0, 0, 0, 0], 0⟩, ⟨[0, 0, 0, 0, 0, 0, 0, 0], 0⟩, ⟨[1, 0, 0, 0, 0, 0, 0, 0], 0⟩, ⟨[0, 0, 0, 0, 0, 0, 0, 0], 0⟩, ⟨[0, 0, 0, 0, 0, 0, 0, 0], 0⟩, ⟨[0, 0, 0, 0, 0, 0, 0, 0], 0⟩],
   [⟨[0, 0, 0, 0, 0, 0, 0, 0], 0⟩, ⟨[0, 0, 0, 0, 0, 0, 0, 0], 0⟩, ⟨[0, 0, 0, 0, 0, 0, 0, 0], 0⟩, ⟨[0, 0, 0, 0, 0, 0, 0, 0], 0⟩, ⟨[0, 0, 0, 0, 0, 0, 0, 0], 0⟩, ⟨[1, 0, 0, 0, 0, 0, 0, 0], 0⟩, ⟨[0, 0, 0, 0, 0, 0, 0, 0], 0⟩, ⟨[0, 0, 0, 0, 0, 0, 0, 0], 0⟩]]

theorem mcx2GStep1 : matMulK embLit33 (idK 8) = mcx2GPart1 := by decide

def mcx2GPart2 : MatK :=
  [[⟨[0, 0, 0, 0, 0, 0, 0, 0], 0⟩, ⟨[0, 0, 0, 0, 0, 0, 0, 0], 0⟩, ⟨[1, 0, 0, 0, 0, 0, 0, 0], 0⟩, ⟨[0, 0, 0, 0, 0, 0, 0, 0], 0⟩, ⟨[0, 0, 0, 0, 0, 0, 0, 0], 0⟩, ⟨[0, 0, 0, 0, 0, 0, 0, 0], 0⟩, ⟨[0, 0, 0, 0, 0, 0, 0, 0], 0⟩, ⟨[0, 0, 0, 0, 0, 0, 0, 0], 0⟩],
   [⟨[0, 0, 0, 0, 0, 0, 0, 0], 0⟩, ⟨[0, 0, 0, 0, 0, 0, 0, 0], 0⟩, ⟨[0, 0, 0, 0, 0, 0, 0, 0], 0⟩, ⟨[1, 0, 0, 0, 0, 0, 0, 0], 0⟩, ⟨[0, 0, 0, 0, 0, 0, 0, 0], 0⟩, ⟨[0, 0, 0, 0, 0, 0, 0, 0], 0⟩, ⟨[0, 0, 0, 0, 0, 0, 0, 0], 0⟩, ⟨[0, 0, 0, 0, 0, 0, 0, 0], 0⟩],
   [⟨[1, 0, 0, 0, 0, 0, 0, 0], 0⟩, ⟨[0, 0, 0, 0, 0, 0, 0, 0], 0⟩, ⟨[0, 0, 0, 0, 0, 0, 0, 0], 0⟩, ⟨[0, 0, 0, 0, 0, 0, 0, 0], 0⟩, ⟨[0, 0, 0, 0, 0, 0, 0, 0], 0⟩, ⟨[0, 0, 0, 0, 0, 0, 0, 0], 0⟩, ⟨[0, 0, 0, 0, 0, 0, 0, 0], 0⟩, ⟨[0, 0, 0, 0, 0, 0, 0, 0], 0⟩],
   [⟨[0, 0, 0, 0, 0, 0, 0, 0], 0⟩, ⟨[1, 0, 0, 0, 0, 0, 0, 0], 0⟩, ⟨[0, 0, 0, 0, 0, 0, 0, 0], 0⟩, ⟨[0, 0, 0, 0, 0, 0, 0, 0], 0⟩, ⟨[0, 0, 0, 0, 0, 0, 0, 0], 0⟩, ⟨[0, 0, 0, 0, 0, 0, 0, 0], 0⟩, ⟨[0, 0, 0, 0, 0, 0, 0, 0], 0⟩, ⟨[0, 0, 0, 0, 0, 0, 0, 0], 0⟩],
   [⟨[0, 0, 0, 0, 0, 0, 0, 0], 0⟩, ⟨[0, 0, 0, 0, 0, 0, 0, 0], 0⟩, ⟨[0, 0, 0, 0, 0, 0, 0, 0], 0⟩, ⟨[0, 0, 0, 0, 0, 0, 0, 0], 0⟩, ⟨[0, 0, 0, 0, 0, 0, 0, 0], 0⟩, ⟨[0, 0, 0, 0, 0, 0, 0, 0], 0⟩, ⟨[1, 0, 0, 0, 0, 0, 0, 0], 0⟩, ⟨[0, 0, 0, 0, 0, 0, 0, 0], 0⟩],
   [⟨[0, 0, 0, 0, 0, 0, 0, 0], 0⟩, ⟨[0, 0, 0, 0, 0, 0, 0, 0], 0⟩, ⟨[0, 0, 0, 0, 0, 0, 0, 0], 0⟩, ⟨[0, 0, 0, 0, 0, 0, 0, 0], 0⟩, ⟨[0, 0, 0, 0, 0, 0, 0, 0], 0⟩, ⟨[0, 0, 0, 0, 0, 0, 0, 0], 0⟩, ⟨[0, 0, 0, 0, 0, 0, 0, 0], 0⟩, ⟨[1, 0, 0, 0, 0, 0, 0, 0], 0⟩],
   [⟨[0, 0, 0, 0, 0, 0, 0, 0], 0⟩, ⟨[0, 0, 0, 0, 0, 0, 0, 0], 0⟩, ⟨[0, 0, 0, 0, 0, 0, 0, 0], 0⟩, ⟨[0, 0, 0, 0, 0, 0, 0, 0], 0⟩, ⟨[0, 0, 0, 0, 0, 0, 0, 0], 0⟩, ⟨[1, 0, 0, 0, 0, 0, 0, 0], 0⟩, ⟨[0, 0, 0, 0, 0, 0, 0, 0], 0⟩, ⟨[0, 0, 0, 0, 0, 0, 0, 0], 0⟩],
   [⟨[0, 0, 0, 0, 0, 0, 0, 0], 0⟩, ⟨[0, 0, 0, 0, 0, 0, 0, 0], 0⟩, ⟨[0, 0, 0, 0, 0, 0, 0, 0], 0⟩, ⟨[0, 0, 0, 0, 0, 0, 0, 0], 0⟩, ⟨[1, 0, 0, 0, 0, 0, 0, 0], 0⟩, ⟨[0, 0, 0, 0, 0, 0, 0, 0], 0⟩, ⟨[0, 0, 0, 0, 0, 0, 0, 0], 0⟩, ⟨[0, 0, 0, 0, 0, 0, 0, 0], 0⟩]]

theorem mcx2GStep2 : matMulK embLit22 mcx2GPart1 = mcx2GPart2 := by decide

def mcx2GPart3 : MatK :=
  [[⟨[1, 0, 0, 0, 0, 0, 0, 0], 0⟩, ⟨[0, 0, 0, 0, 0, 0, 0, 0], 0⟩, ⟨[0, 0, 0, 0, 0, 0, 0, 0], 0⟩, ⟨[0, 0, 0, 0, 0, 0, 0, 0], 0⟩, ⟨[0, 0, 0, 0, 0, 0, 0, 0], 0⟩, ⟨[0, 0, 0, 0, 0, 0, 0, 0], 0⟩, ⟨[0, 0, 0, 0, 0, 0, 0, 0], 0⟩, ⟨[0, 0, 0, 0, 0, 0, 0, 0], 0⟩],
   [⟨[0, 0, 0, 0, 0, 0, 0, 0], 0⟩, ⟨[1, 0, 0, 0, 0, 0, 0, 0], 0⟩, ⟨[0, 0, 0, 0, 0, 0, 0, 0], 0⟩, ⟨[0, 0, 0, 0, 0, 0, 0, 0], 0⟩, ⟨[0, 0, 0, 0, 0, 0, 0, 0], 0⟩, ⟨[0, 0, 0, 0, 0, 0, 0, 0], 0⟩, ⟨[0, 0, 0, 0, 0, 0, 0, 0], 0⟩, ⟨[0, 0, 0, 0, 0, 0, 0, 0], 0⟩],
   [⟨[0, 0, 0, 0, 0, 0, 0, 0], 0⟩, ⟨[0, 0, 0, 0, 0, 0, 0, 0], 0⟩, ⟨[1, 0, 0, 0, 0, 0, 0, 0], 0⟩, ⟨[0, 0, 0, 0, 0, 0, 0, 0], 0⟩, ⟨[0, 0, 0, 0, 0, 0, 0, 0], 0⟩, ⟨[0, 0, 0, 0, 0, 0, 0, 0], 0⟩, ⟨[0, 0, 0, 0, 0, 0, 0, 0], 0⟩, ⟨[0, 0, 0, 0, 0, 0, 0, 0], 0⟩],
   [⟨[0, 0, 0, 0, 0, 0, 0, 0], 0⟩, ⟨[0, 0, 0, 0, 0, 0, 0, 0], 0⟩, ⟨[0, 0, 0, 0, 0, 0, 0, 0], 0⟩, ⟨[1, 0, 0, 0, 0, 0, 0, 0], 0⟩, ⟨[0, 0, 0, 0, 0, 0, 0, 0], 0⟩, ⟨[0, 0, 0, 0, 0, 0, 0, 0], 0⟩, ⟨[0, 0, 0, 0, 0, 0, 0, 0], 0⟩, ⟨[0, 0, 0, 0, 0, 0, 0, 0], 0⟩],
   [⟨[0, 0, 0, 0, 0, 0, 0, 0], 0⟩, ⟨[0, 0, 0, 0, 0, 0, 0, 0], 0⟩, ⟨[0, 0, 0, 0, 0, 0, 0, 0], 0⟩, ⟨[0, 0, 0, 0, 0, 0, 0, 0], 0⟩, ⟨[0, 0, 0, 0, 0, 0, 0, 0], 0⟩, ⟨[1, 0, 0, 0, 0, 0, 0, 0], 0⟩, ⟨[0, 0, 0, 0, 0, 0, 0, 0], 0⟩, ⟨[0, 0, 0, 0, 0, 0, 0, 0], 0⟩],
   [⟨[0, 0, 0, 0, 0, 0, 0, 0], 0⟩, ⟨[0, 0, 0, 0, 0, 0, 0, 0], 0⟩, ⟨[0, 0, 0, 0, 0, 0, 0, 0], 0⟩, ⟨[0, 0, 0, 0, 0, 0, 0, 0], 0⟩, ⟨[1, 0, 0, 0, 0, 0, 0, 0], 0⟩, ⟨[0, 0, 0, 0, 0, 0, 0, 0], 0⟩, ⟨[0, 0, 0, 0, 0, 0, 0, 0], 0⟩, ⟨[0, 0, 0, 0, 0, 0, 0, 0], 0⟩],
   [⟨[0, 0, 0, 0, 0, 0, 0, 0], 0⟩, ⟨[0, 0, 0, 0, 0, 0, 0, 0], 0⟩, ⟨[0, 0, 0, 0, 0, 0, 0, 0], 0⟩, ⟨[0, 0, 0, 0, 0, 0, 0, 0], 0⟩, ⟨[0, 0, 0, 0, 0, 0, 0, 0], 0⟩, ⟨[0, 0, 0, 0, 0, 0, 0, 0], 0⟩, ⟨[1, 0, 0, 0, 0, 0, 0, 0], 0⟩, ⟨[0, 0, 0, 0, 0, 0, 0, 0], 0⟩],
   [⟨[0, 0, 0, 0, 0, 0, 0, 0], 0⟩, ⟨[0, 0, 0, 0, 0, 0, 0, 0], 0⟩, ⟨[0, 0, 0, 0, 0, 0, 0, 0], 0⟩, ⟨[0, 0, 0, 0, 0, 0, 0, 0], 0⟩, ⟨[0, 0, 0, 0, 0, 0, 0, 0], 0⟩, ⟨[0, 0, 0, 0, 0, 0, 0, 0], 0⟩, ⟨[0, 0, 0, 0, 0, 0, 0, 0], 0⟩, ⟨[1, 0, 0, 0, 0, 0, 0, 0], 0⟩]]

theorem mcx2GStep3 : matMulK embLit33 mcx2GPart2 = mcx2GPart3 := by decide

theorem mcx2GBuild : build_unitary mcx2ctrl10Decomp [0, 1, 2] = mcx2GPart3 := by
  simp only [build_unitary, mcx2ctrl10Decomp, List.foldl_cons, List.foldl_nil, List.length_cons, List.length_nil, Nat.reducePow, Nat.reduceAdd, embEq33, embEq22, mcx2GStep1, mcx2GStep2, mcx2GStep3]



/-- The full-space matrix of the single CNOT on wires [1, 2] in wire order
[0, 1, 2] (equal to its embedding, as the accumulator starts at the
identity). -/
def c1CnotPart : MatK := embLit24

theorem c1CnotStep : matMulK embLit24 (idK 8) = c1CnotPart := by decide

theorem c1CnotKron : kronK (idK 2) CNOTmatK = c1CnotPart := by decide

/-- C1: `build_unitary` starts from the identity on the 2^|wire_order|-
dimensional space and left-multiplies, operator by operator in tape order,
the operator's matrix embedded with the first wire of `wire_order` as the
most significant tensor axis — so the result is E_n @ ... @ E_1; in
particular, for wire order [0, 1, 2] and the single operator CNOT on wires
[1, 2], the result is I(2) ⊗ CNOT. -/
theorem build_unitary_spec :
    (∀ (ops : List MOp) (o : MOp) (order : List ℕ),
      build_unitary (ops ++ [o]) order =
        matMulK (embedMat order o.wires o.matrix) (build_unitary ops order)) ∧
    (∀ order : List ℕ, build_unitary [] order = idK (2 ^ order.length)) ∧
    build_unitary [⟨[1, 2], CNOTmatK⟩] [0, 1, 2] = kronK (idK 2) CNOTmatK := by
  refine ⟨?_, fun _ => rfl, ?_⟩
  · intro ops o order
    simp [build_unitary, List.foldl_append]
  · calc build_unitary [⟨[1, 2], CNOTmatK⟩] [0, 1, 2]
        = matMulK (embedMat [0, 1, 2] [1, 2] CNOTmatK) (idK 8) := by
          simp only [build_unitary, List.foldl_cons, List.foldl_nil, List.length_cons,
            List.length_nil, Nat.reducePow, Nat.reduceAdd]
      _ = matMulK embLit24 (idK 8) := by rw [embEq24]
      _ = c1CnotPart := c1CnotStep
      _ = kronK (idK 2) CNOTmatK := c1CnotKron.symm

/-- C8: for every gate kind of non_parametric_ops.py whose decomposition
acts on the gate's own wires (all kinds of the file with a decomposition
except the matrixless Barrier and the work-wire MultiControlledX cases,
with the one- and two-control MultiControlledX instances included),
composing the decomposition's embedded gate matrices in application order
on the gate's own wires yields the gate's own matrix up to a global phase
(here the phase is exactly 1 in every case). -/
theorem decomposition_matrix_up_to_phase :
    ∀ g : DecomposedGate, ∃ k : ℕ, k < 16 ∧
      build_unitary (gateDecomp g) (gateWires g) = smulMatK (eK k) (gateMat g) := by
  intro g
  cases g with
  | hadamard =>
    exact ⟨0, by omega, by
      simp only [gateDecomp, gateWires, gateMat, hadamardGBuild]; decide⟩
  | pauliX =>
    exact ⟨0, by omega, by
      simp only [gateDecomp, gateWires, gateMat, pauliXGBuild]; decide⟩
  | pauliY =>
    exact ⟨0, by omega, by
      simp only [gateDecomp, gateWires, gateMat, pauliYGBuild]; decide⟩
  | pauliZ =>
    exact ⟨0, by omega, by
      simp only [gateDecomp, gateWires, gateMat, pauliZGBuild]; decide⟩
  | s =>
    exact ⟨0, by omega, by
      simp only [gateDecomp, gateWires, gateMat, sGBuild]; decide⟩
  | t =>
    exact ⟨0, by omega, by
      simp only [gateDecomp, gateWires, gateMat, tGBuild]; decide⟩
  | sx =>
    exact ⟨0, by omega, by
      simp only [gateDecomp, gateWires, gateMat, sxGBuild]; decide⟩
  | cy =>
    exact ⟨0, by omega, by
      simp only [gateDecomp, gateWires, gateMat, cyGBuild]; decide⟩
  | swap =>
    exact ⟨0, by omega, by
      simp only [gateDecomp, gateWires, gateMat, swapGBuild]; decide⟩
  | iswap =>
    exact ⟨0, by omega, by
      simp only [gateDecomp, gateWires, gateMat, iswapGBuild]; decide⟩
  | siswap =>
    exact ⟨0, by omega, by
      simp only [gateDecomp, gateWires, gateMat, siswapGBuild]; decide⟩
  | cswap =>
    exact ⟨0, by omega, by
      simp only [gateDecomp, gateWires, gateMat, cswapGBuild]; decide⟩
  | toffoli =>
    exact ⟨0, by omega, by
      simp only [gateDecomp, gateWires, gateMat, toffoliGBuild]; decide⟩
  | mcx1ctrl0 =>
    exact ⟨0, by omega, by
      simp only [gateDecomp, gateWires, gateMat, mcx1GBuild]; decide⟩
  | mcx2ctrl10 =>
    exact ⟨0, by omega, by
      simp only [gateDecomp, gateWires, gateMat, mcx2GBuild]; decide⟩

end PennyLane

namespace PennyLane

/-- `MultiControlledX._parse_control_values` of non_parametric_ops.py on a
string input: reject a string whose length differs from the number of
control wires, reject a character other than '0' or '1', then compute
`int(control_values, 2)` — which, as the Python `int` builtin does, raises
ValueError on the empty string. -/
def parse_control_values (control_wires : List ℕ) (control_values : String) :
    Except String ℕ :=
  if control_values.length ≠ control_wires.length then
    .error "Length of control bit string must equal number of control wires."
  else if control_values.toList.any (fun x => decide (x ≠ '0' ∧ x ≠ '1')) then
    .error "String of control values can contain only 0 or 1."
  else if control_values.isEmpty then
    .error "invalid literal for int() with base 2"
  else
    .ok (control_values.toList.foldl (fun acc c => 2 * acc + (if c = '1' then 1 else 0)) 0)

/-- The data a successfully constructed `MultiControlledX` carries. -/
structure MCXData where
  control_wires : List ℕ
  target_wire : ℕ
  work_wires : List ℕ
  control_values : String
  control_int : ℕ
deriving DecidableEq, Repr

deriving instance DecidableEq for Except

/-- `Wires.shared_wires [a, b]` is truthy: the two wire lists overlap. -/
def sharedNonempty (a b : List ℕ) : Bool := a.any (fun x => x ∈ b)

/-- The all-ones default control string `"1" * len(control_wires)`. -/
def onesString (n : ℕ) : String := String.mk (List.replicate n '1')

/-- The control string actually parsed: `if not control_values:` in Python
replaces both None and the empty string by the all-ones default. -/
def effective_control_values (control_wires : List ℕ) : Option String → String
  | none => onesString control_wires.length
  | some s => if s = "" then onesString control_wires.length else s

/-- `MultiControlledX.__init__` of non_parametric_ops.py: require exactly one
target wire; require the work wires disjoint from target and control wires;
substitute the all-ones default for a falsy `control_values`; then parse the
control string. -/
def MultiControlledX_init (control_wires wires : List ℕ)
    (control_values : Option String) (work_wires : List ℕ) :
    Except String MCXData :=
  if wires.length ≠ 1 then
    .error "MultiControlledX accepts a single target wire."
  else if sharedNonempty wires work_wires || sharedNonempty control_wires work_wires then
    .error "The work wires must be different from the control and target wires"
  else
    match parse_control_values control_wires
        (effective_control_values control_wires control_values) with
    | .error e => .error e
    | .ok ci => .ok ⟨control_wires, wires.getD 0 0, work_wires,
        effective_control_values control_wires control_values, ci⟩

theorem onesString_length (n : ℕ) : (onesString n).length = n := by
  simp [onesString, String.length]

theorem onesString_toList (n : ℕ) : (onesString n).toList = List.replicate n '1' := rfl

theorem onesString_any_false (n : ℕ) :
    (onesString n).toList.any (fun x => decide (x ≠ '0' ∧ x ≠ '1')) = false := by
  rw [onesString_toList]
  induction n with
  | zero => rfl
  | succ m ih => simp_all [List.replicate_succ, List.any_cons]

theorem onesString_eq_empty_iff (n : ℕ) : onesString n = "" ↔ n = 0 := by
  constructor
  · intro h
    have := congrArg String.length h
    simpa [onesString_length] using this
  · rintro rfl
    rfl

theorem onesFoldVal (n : ℕ) (a : ℕ) :
    (List.replicate n '1').foldl (fun acc c => 2 * acc + (if c = '1' then 1 else 0)) a =
      a * 2 ^ n + (2 ^ n - 1) := by
  induction n generalizing a with
  | zero => simp
  | succ m ih =>
    rw [List.replicate_succ, List.foldl_cons, ih]
    have h1 : (1 : ℕ) ≤ 2 ^ m := Nat.one_le_two_pow
    simp only [if_pos]
    ring_nf
    omega

theorem parse_control_values_error_iff (cw : List ℕ) (s : String) :
    (∃ e, parse_control_values cw s = .error e) ↔
      (s.length ≠ cw.length ∨
        s.toList.any (fun x => decide (x ≠ '0' ∧ x ≠ '1')) = true ∨ s = "") := by
  unfold parse_control_values
  split_ifs with h1 h2 h3
  · exact iff_of_true ⟨_, rfl⟩ (Or.inl h1)
  · exact iff_of_true ⟨_, rfl⟩ (Or.inr (Or.inl h2))
  · exact iff_of_true ⟨_, rfl⟩ (Or.inr (Or.inr ((String.isEmpty_iff s).mp h3)))
  · have hs : s ≠ "" := fun he => h3 ((String.isEmpty_iff s).mpr he)
    constructor
    · rintro ⟨e, he⟩
      simp at he
    · intro hr
      rcases hr with h | h | h
      · exact absurd h h1
      · exact absurd h h2
      · exact absurd h hs

theorem parse_control_values_ones (cw : List ℕ) (h : cw ≠ []) :
    parse_control_values cw (onesString cw.length) = .ok (2 ^ cw.length - 1) := by
  have hn : cw.length ≠ 0 := fun h0 => h (List.length_eq_zero.mp h0)
  unfold parse_control_values
  rw [if_neg (by simp [onesString_length]), if_neg (by rw [onesString_any_false]; simp),
    if_neg (by simpa [String.isEmpty_iff] using (onesString_eq_empty_iff cw.length).not.mpr hn)]
  rw [onesString_toList, onesFoldVal]
  simp

end PennyLane

namespace PennyLane

/-- C9: `MultiControlledX` construction fails exactly when the target wire
count is not 1, or the work wires overlap the control or target wires, or a
supplied NON-EMPTY control-value string has the wrong length or a symbol
other than '0'/'1', or there are no control wires at all (the default
empty control string then makes `int('', 2)` raise). A supplied empty
string is treated as omitted (Python falsiness), not as a length
mismatch. -/
theorem mcx_init_error_iff (control_wires wires work_wires : List ℕ)
    (control_values : Option String) :
    (∃ e, MultiControlledX_init control_wires wires control_values work_wires =
        .error e) ↔
      (wires.length ≠ 1 ∨
        sharedNonempty wires work_wires = true ∨
        sharedNonempty control_wires work_wires = true ∨
        (∃ s, control_values = some s ∧ s ≠ "" ∧
          (s.length ≠ control_wires.length ∨
            s.toList.any (fun x => decide (x ≠ '0' ∧ x ≠ '1')) = true)) ∨
        control_wires = []) := by
  unfold MultiControlledX_init
  split_ifs with h1 h2
  · exact iff_of_true ⟨_, rfl⟩ (Or.inl h1)
  · rcases Bool.or_eq_true_iff.mp h2 with h | h
    · exact iff_of_true ⟨_, rfl⟩ (Or.inr (Or.inl h))
    · exact iff_of_true ⟨_, rfl⟩ (Or.inr (Or.inr (Or.inl h)))
  · have hwa : sharedNonempty wires work_wires = false := by simp_all
    have hwb : sharedNonempty control_wires work_wires = false := by simp_all
    have hones : ∀ _ : control_wires ≠ [],
        ((∃ e, (match parse_control_values control_wires (onesString control_wires.length) with
          | Except.error e => Except.error e
          | Except.ok ci => Except.ok (⟨control_wires, wires.getD 0 0, work_wires,
              onesString control_wires.length, ci⟩ : MCXData)) = Except.error e) ↔ False) := by
      intro hc
      rw [parse_control_values_ones control_wires hc]
      simp
    rcases control_values with _ | s
    · simp only [effective_control_values]
      by_cases hc : control_wires = []
      · subst hc
        exact iff_of_true ⟨_, rfl⟩ (by simp)
      · rw [hones hc, false_iff]
        rintro (h | h | h | ⟨t, ht, _, _⟩ | h)
        · exact h1 h
        · simp [hwa] at h
        · simp [hwb] at h
        · exact Option.noConfusion ht
        · exact hc h
    · by_cases hse : s = ""
      · subst hse
        simp only [effective_control_values, if_true]
        by_cases hc : control_wires = []
        · subst hc
          exact iff_of_true ⟨_, rfl⟩ (by simp)
        · rw [hones hc, false_iff]
          rintro (h | h | h | ⟨t, ht, hne, _⟩ | h)
          · exact h1 h
          · simp [hwa] at h
          · simp [hwb] at h
          · exact hne (Option.some_inj.mp ht).symm
          · exact hc h
      · simp only [effective_control_values]
        rw [if_neg hse]
        rcases hp : parse_control_values control_wires s with e | ci
        · refine iff_of_true ⟨e, rfl⟩ ?_
          have := (parse_control_values_error_iff control_wires s).mp ⟨e, hp⟩
          rcases this with h | h | h
          · exact Or.inr (Or.inr (Or.inr (Or.inl ⟨s, rfl, hse, Or.inl h⟩)))
          · exact Or.inr (Or.inr (Or.inr (Or.inl ⟨s, rfl, hse, Or.inr h⟩)))
          · exact absurd h hse
        · have hnd : ¬(s.length ≠ control_wires.length ∨
              s.toList.any (fun x => decide (x ≠ '0' ∧ x ≠ '1')) = true ∨ s = "") := by
            rw [← parse_control_values_error_iff]
            rintro ⟨e', he'⟩
            rw [hp] at he'
            simp at he'
          push_neg at hnd
          refine iff_of_false ?_ ?_
          · rintro ⟨e, he⟩
            simp at he
          · rintro (h | h | h | ⟨t, ht, hne, hcond⟩ | hc)
            · exact h1 h
            · simp [hwa] at h
            · simp [hwb] at h
            · obtain rfl : t = s := (Option.some_inj.mp ht).symm
              rcases hcond with h | h
              · exact h hnd.1
              · exact hnd.2.1 h
            · apply hse
              have hl := hnd.1
              rw [hc] at hl
              cases s with
              | mk data =>
                simp [String.length] at hl
                subst hl
                rfl


/-- Witness for the amended C9: a malformed control string (wrong length and
a bad symbol) makes construction fail. -/
theorem mcx_init_error_iff_witness :
    ∃ e, MultiControlledX_init [0, 1] [2] (some "012") [] = .error e :=
  (mcx_init_error_iff [0, 1] [2] [] (some "012")).mpr
    (Or.inr (Or.inr (Or.inr (Or.inl ⟨"012", rfl, by decide, Or.inl (by decide)⟩))))

/-- C9 counterexample: with two control wires and the supplied control-value
string "" (length 0, not equal to 2), the claim says construction fails with
an invalid-control-value error, but the source's falsy-check replaces ""
with the all-ones default and construction succeeds. -/
theorem mcx_empty_string_accepted :
    MultiControlledX_init [0, 1] [2] (some "") [] =
      .ok ⟨[0, 1], 2, [], "11", 3⟩ ∧ ("" : String).length ≠ ([0, 1] : List ℕ).length := by
  constructor
  · decide
  · decide

/-- C10 counterexample: with no control wires and `control_values` omitted,
the all-ones default is the empty string and `int('', 2)` raises, so
construction does NOT succeed. -/
theorem mcx_no_controls_fails :
    MultiControlledX_init [] [0] none [] =
      .error "invalid literal for int() with base 2" := by decide

/-- C10 amended: when `control_values` is omitted (None) or the empty string
and there is at least one control wire (other validations passing), the
control values default to the all-ones string of length equal to the number
of control wires and construction succeeds without any control-value
validation error. -/
theorem mcx_default_all_ones (control_wires wires work_wires : List ℕ)
    (control_values : Option String)
    (hv : control_values = none ∨ control_values = some "")
    (hc : control_wires ≠ [])
    (ht : wires.length = 1)
    (hw1 : sharedNonempty wires work_wires = false)
    (hw2 : sharedNonempty control_wires work_wires = false) :
    MultiControlledX_init control_wires wires control_values work_wires =
      .ok ⟨control_wires, wires.getD 0 0, work_wires,
        onesString control_wires.length, 2 ^ control_wires.length - 1⟩ := by
  unfold MultiControlledX_init
  rw [if_neg (by simp [ht]), if_neg (by simp [hw1, hw2])]
  have hcv : effective_control_values control_wires control_values =
      onesString control_wires.length := by
    rcases hv with rfl | rfl <;> simp [effective_control_values]
  rw [hcv, parse_control_values_ones control_wires hc]

/-- Witness for the amended C10: two control wires, `control_values` omitted:
the default is "11" and construction succeeds. -/
theorem mcx_default_all_ones_witness :
    MultiControlledX_init [0, 1] [2] none [] =
      .ok ⟨[0, 1], [2].getD 0 0, [], onesString ([0, 1] : List ℕ).length,
        2 ^ ([0, 1] : List ℕ).length - 1⟩ :=
  mcx_default_all_ones [0, 1] [2] [] none (Or.inl rfl) (by decide) rfl rfl rfl

end PennyLane

namespace PennyLane

open Complex in
/-- Modelled from the spec: `RZ(theta).matrix` = diag(exp(-i theta/2),
exp(i theta/2)) (parametric gates live outside src). -/
noncomputable def RZM (θ : ℝ) : Matrix (Fin 2) (Fin 2) ℂ :=
  !![Complex.exp (-(θ / 2 : ℝ) * I), 0; 0, Complex.exp ((θ / 2 : ℝ) * I)]

/-- Modelled from the spec: `RY(theta).matrix`. -/
noncomputable def RYM (θ : ℝ) : Matrix (Fin 2) (Fin 2) ℂ :=
  !![(Real.cos (θ / 2) : ℂ), (-Real.sin (θ / 2) : ℝ);
     (Real.sin (θ / 2) : ℂ), (Real.cos (θ / 2) : ℝ)]

/-- Modelled from the spec: the generic three-angle rotation
`Rot(phi, theta, omega)` = RZ(omega) RY(theta) RZ(phi). -/
noncomputable def RotM (φ θ ω : ℝ) : Matrix (Fin 2) (Fin 2) ℂ :=
  RZM ω * RYM θ * RZM φ

/-- `Rot` applied to a three-angle list. -/
noncomputable def RotM3 (l : List ℝ) : Matrix (Fin 2) (Fin 2) ℂ :=
  RotM (l.getD 0 0) (l.getD 1 0) (l.getD 2 0)

/-- `Hadamard.matrix` of non_parametric_ops.py: INV_SQRT2 * [[1,1],[1,-1]]. -/
noncomputable def HM : Matrix (Fin 2) (Fin 2) ℂ :=
  (((Real.sqrt 2)⁻¹ : ℝ) : ℂ) • !![1, 1; 1, -1]

open Complex in
theorem rotM_eq (φ θ ω : ℝ) :
    RotM φ θ ω =
      !![Complex.exp (-((φ + ω) / 2 : ℝ) * I) * (Real.cos (θ / 2) : ℂ),
         -(Complex.exp (((φ - ω) / 2 : ℝ) * I) * (Real.sin (θ / 2) : ℂ));
         Complex.exp (-((φ - ω) / 2 : ℝ) * I) * (Real.sin (θ / 2) : ℂ),
         Complex.exp (((φ + ω) / 2 : ℝ) * I) * (Real.cos (θ / 2) : ℂ)] := by
  rw [RotM, RZM, RYM, RZM, Matrix.mul_fin_two, Matrix.mul_fin_two]
  have e1 : (-((φ + ω) / 2 : ℝ) : ℂ) * I = (-(ω / 2 : ℝ) : ℂ) * I + (-(φ / 2 : ℝ) : ℂ) * I := by
    push_cast; ring
  have e2 : (((φ - ω) / 2 : ℝ) : ℂ) * I = (-(ω / 2 : ℝ) : ℂ) * I + ((φ / 2 : ℝ) : ℂ) * I := by
    push_cast; ring
  have e3 : (-((φ - ω) / 2 : ℝ) : ℂ) * I = ((ω / 2 : ℝ) : ℂ) * I + (-(φ / 2 : ℝ) : ℂ) * I := by
    push_cast; ring
  have e4 : (((φ + ω) / 2 : ℝ) : ℂ) * I = ((ω / 2 : ℝ) : ℂ) * I + ((φ / 2 : ℝ) : ℂ) * I := by
    push_cast; ring
  rw [e1, e2, e3, e4, Complex.exp_add, Complex.exp_add, Complex.exp_add, Complex.exp_add]
  ext i j
  fin_cases i <;> fin_cases j <;> simp <;> ring

end PennyLane

namespace PennyLane

/-- The closed shape of the matrices `Rot` produces: second column determined
by the first by conjugation, columns normalized (an SU(2) matrix). -/
def su2form (M : Matrix (Fin 2) (Fin 2) ℂ) : Prop :=
  M 1 1 = (starRingEnd ℂ) (M 0 0) ∧ M 0 1 = -((starRingEnd ℂ) (M 1 0)) ∧
    M 0 0 * (starRingEnd ℂ) (M 0 0) + M 1 0 * (starRingEnd ℂ) (M 1 0) = 1

open Complex in
theorem conj_exp_pos (x : ℝ) :
    (starRingEnd ℂ) (Complex.exp ((x : ℂ) * I)) = Complex.exp (-(x : ℂ) * I) := by
  rw [← Complex.exp_conj]
  congr 1
  simp [Complex.conj_I]

open Complex in
theorem conj_exp_neg (x : ℝ) :
    (starRingEnd ℂ) (Complex.exp (-(x : ℂ) * I)) = Complex.exp ((x : ℂ) * I) := by
  rw [← Complex.exp_conj]
  congr 1
  simp [Complex.conj_I]

open Complex in
theorem exp_neg_mul_exp (x : ℝ) :
    Complex.exp (-(x : ℂ) * I) * Complex.exp ((x : ℂ) * I) = 1 := by
  rw [← Complex.exp_add]
  norm_num

theorem su2form_mk (a b c d : ℂ) :
    su2form !![a, b; c, d] ↔
      (d = (starRingEnd ℂ) a ∧ b = -((starRingEnd ℂ) c) ∧
        a * (starRingEnd ℂ) a + c * (starRingEnd ℂ) c = 1) := by
  unfold su2form
  simp

open Complex in
theorem rot_su2 (φ θ ω : ℝ) : su2form (RotM φ θ ω) := by
  rw [rotM_eq, su2form_mk]
  refine ⟨?_, ?_, ?_⟩
  · rw [map_mul, conj_exp_neg, Complex.conj_ofReal]
  · rw [map_mul, conj_exp_neg, Complex.conj_ofReal]
  · rw [map_mul, map_mul, conj_exp_neg, conj_exp_neg, Complex.conj_ofReal, Complex.conj_ofReal]
    calc Complex.exp (-((((φ + ω) / 2 : ℝ)) : ℂ) * I) * (Real.cos (θ / 2) : ℂ) *
          (Complex.exp (((((φ + ω) / 2 : ℝ)) : ℂ) * I) * (Real.cos (θ / 2) : ℂ)) +
        Complex.exp (-((((φ - ω) / 2 : ℝ)) : ℂ) * I) * (Real.sin (θ / 2) : ℂ) *
          (Complex.exp (((((φ - ω) / 2 : ℝ)) : ℂ) * I) * (Real.sin (θ / 2) : ℂ))
        = Complex.exp (-((((φ + ω) / 2 : ℝ)) : ℂ) * I) * Complex.exp (((((φ + ω) / 2 : ℝ)) : ℂ) * I) *
            (Real.cos (θ / 2) : ℂ) ^ 2 +
          Complex.exp (-((((φ - ω) / 2 : ℝ)) : ℂ) * I) * Complex.exp (((((φ - ω) / 2 : ℝ)) : ℂ) * I) *
            (Real.sin (θ / 2) : ℂ) ^ 2 := by ring
      _ = ((Real.sin (θ / 2) ^ 2 + Real.cos (θ / 2) ^ 2 : ℝ) : ℂ) := by
          rw [exp_neg_mul_exp, exp_neg_mul_exp]
          push_cast
          ring
      _ = 1 := by rw [Real.sin_sq_add_cos_sq]; norm_num

end PennyLane

namespace PennyLane

theorem su2_mul {A B : Matrix (Fin 2) (Fin 2) ℂ} (hA : su2form A) (hB : su2form B) :
    su2form (A * B) := by
  obtain ⟨hA1, hA2, hA3⟩ := hA
  obtain ⟨hB1, hB2, hB3⟩ := hB
  have e00 : (A * B) 0 0 = A 0 0 * B 0 0 + A 0 1 * B 1 0 := by
    simp [Matrix.mul_apply, Fin.sum_univ_two]
  have e01 : (A * B) 0 1 = A 0 0 * B 0 1 + A 0 1 * B 1 1 := by
    simp [Matrix.mul_apply, Fin.sum_univ_two]
  have e10 : (A * B) 1 0 = A 1 0 * B 0 0 + A 1 1 * B 1 0 := by
    simp [Matrix.mul_apply, Fin.sum_univ_two]
  have e11 : (A * B) 1 1 = A 1 0 * B 0 1 + A 1 1 * B 1 1 := by
    simp [Matrix.mul_apply, Fin.sum_univ_two]
  refine ⟨?_, ?_, ?_⟩
  · rw [e11, e00, hA1, hA2, hB1, hB2]
    simp only [map_add, map_mul, map_neg, Complex.conj_conj]
    ring
  · rw [e01, e10, hA1, hA2, hB1, hB2]
    simp only [map_add, map_mul, map_neg, Complex.conj_conj]
    ring
  · rw [e00, e10, hA2, hA1]
    simp only [map_add, map_mul, map_neg, Complex.conj_conj]
    linear_combination (B 0 0 * (starRingEnd ℂ) (B 0 0) +
      B 1 0 * (starRingEnd ℂ) (B 1 0)) * hA3 + hB3

end PennyLane

namespace PennyLane

open Complex in
/-- Modelled from the spec: `fuse_rot` (optimization_utils, not under src)
combines two ZYZ Euler triples by the standard rotation-composition formula:
the composed SU(2)-form matrix is re-expressed in ZYZ angles via its
first-column modulus and arguments. -/
noncomputable def zyzOf (M : Matrix (Fin 2) (Fin 2) ℂ) : List ℝ :=
  [-(Complex.arg (M 0 0) + Complex.arg (M 1 0)),
   2 * Real.arccos (Complex.abs (M 0 0)),
   Complex.arg (M 1 0) - Complex.arg (M 0 0)]

noncomputable def fuse_rotC (angles_1 angles_2 : List ℝ) : List ℝ :=
  zyzOf (RotM3 angles_2 * RotM3 angles_1)

open Complex in
theorem conj_eq_abs_exp (z : ℂ) :
    (starRingEnd ℂ) z = (Complex.abs z : ℂ) * Complex.exp (-(Complex.arg z : ℂ) * I) := by
  conv_lhs => rw [← Complex.abs_mul_exp_arg_mul_I z]
  rw [map_mul, Complex.conj_ofReal, conj_exp_pos]

open Complex in
theorem su2_reconstruct {M : Matrix (Fin 2) (Fin 2) ℂ} (h : su2form M) :
    RotM3 (zyzOf M) = M := by
  obtain ⟨h1, h2, h3⟩ := h
  have habs : Complex.abs (M 0 0) ^ 2 + Complex.abs (M 1 0) ^ 2 = 1 := by
    rw [Complex.mul_conj, Complex.mul_conj] at h3
    have hr : Complex.normSq (M 0 0) + Complex.normSq (M 1 0) = 1 := by exact_mod_cast h3
    rw [Complex.sq_abs, Complex.sq_abs]
    exact hr
  have hA0 : 0 ≤ Complex.abs (M 0 0) := Complex.abs.nonneg _
  have hB0 : 0 ≤ Complex.abs (M 1 0) := Complex.abs.nonneg _
  have hA1 : Complex.abs (M 0 0) ≤ 1 := by nlinarith [sq_nonneg (Complex.abs (M 1 0))]
  have hcos : Real.cos (Real.arccos (Complex.abs (M 0 0))) = Complex.abs (M 0 0) :=
    Real.cos_arccos (by linarith) hA1
  have hsin : Real.sin (Real.arccos (Complex.abs (M 0 0))) = Complex.abs (M 1 0) := by
    rw [Real.sin_arccos, show 1 - Complex.abs (M 0 0) ^ 2 = Complex.abs (M 1 0) ^ 2 by linarith]
    exact Real.sqrt_sq hB0
  have hrw : RotM3 (zyzOf M) =
      RotM (-(Complex.arg (M 0 0) + Complex.arg (M 1 0)))
        (2 * Real.arccos (Complex.abs (M 0 0)))
        (Complex.arg (M 1 0) - Complex.arg (M 0 0)) := by
    simp [RotM3, zyzOf]
  rw [hrw, rotM_eq]
  have ha : (-(Complex.arg (M 0 0) + Complex.arg (M 1 0)) +
      (Complex.arg (M 1 0) - Complex.arg (M 0 0))) / 2 = -(Complex.arg (M 0 0)) := by ring
  have hb : (-(Complex.arg (M 0 0) + Complex.arg (M 1 0)) -
      (Complex.arg (M 1 0) - Complex.arg (M 0 0))) / 2 = -(Complex.arg (M 1 0)) := by ring
  have hth : 2 * Real.arccos (Complex.abs (M 0 0)) / 2 =
      Real.arccos (Complex.abs (M 0 0)) := by ring
  rw [ha, hb, hth, hcos, hsin]
  ext i j
  fin_cases i <;> fin_cases j
  · show Complex.exp (-(↑(-(Complex.arg (M 0 0))) : ℂ) * I) * (Complex.abs (M 0 0) : ℂ) = _
    rw [show (-(↑(-(Complex.arg (M 0 0))) : ℂ) * I) = ((Complex.arg (M 0 0) : ℂ)) * I by
      push_cast; ring]
    rw [mul_comm]
    exact Complex.abs_mul_exp_arg_mul_I (M 0 0)
  · show -(Complex.exp ((↑(-(Complex.arg (M 1 0))) : ℂ) * I) * (Complex.abs (M 1 0) : ℂ)) = M 0 1
    rw [show ((↑(-(Complex.arg (M 1 0))) : ℂ) * I) = (-(Complex.arg (M 1 0) : ℂ)) * I by
      push_cast; ring]
    rw [h2, conj_eq_abs_exp, mul_comm]
  · show Complex.exp (-(↑(-(Complex.arg (M 1 0))) : ℂ) * I) * (Complex.abs (M 1 0) : ℂ) = _
    rw [show (-(↑(-(Complex.arg (M 1 0))) : ℂ) * I) = ((Complex.arg (M 1 0) : ℂ)) * I by
      push_cast; ring]
    rw [mul_comm]
    exact Complex.abs_mul_exp_arg_mul_I (M 1 0)
  · show Complex.exp ((↑(-(Complex.arg (M 0 0))) : ℂ) * I) * (Complex.abs (M 0 0) : ℂ) = M 1 1
    rw [show ((↑(-(Complex.arg (M 0 0))) : ℂ) * I) = (-(Complex.arg (M 0 0) : ℂ)) * I by
      push_cast; ring]
    rw [h1, conj_eq_abs_exp, mul_comm]

end PennyLane

namespace PennyLane

theorem fuse_rot_correct (a b : List ℝ) :
    RotM3 (fuse_rotC a b) = RotM3 b * RotM3 a := by
  rw [fuse_rotC]
  apply su2_reconstruct
  apply su2_mul
  · show su2form (RotM _ _ _)
    exact rot_su2 _ _ _
  · show su2form (RotM _ _ _)
    exact rot_su2 _ _ _

open Complex in
theorem exp_real_mul_I (r : ℝ) :
    Complex.exp ((r : ℂ) * I) = (Real.cos r : ℂ) + (Real.sin r : ℂ) * I := by
  rw [Complex.exp_mul_I, ← Complex.ofReal_cos, ← Complex.ofReal_sin]

open Complex in
theorem rotM_rz (θ : ℝ) : RotM θ 0 0 = RZM θ := by
  rw [rotM_eq, RZM]
  ext i j
  fin_cases i <;> fin_cases j <;>
    simp [show (θ + 0) / 2 = θ / 2 by ring, show (θ - 0) / 2 = θ / 2 by ring]

open Complex in
theorem rot3_had :
    RotM3 [Real.pi, Real.pi / 2, 0] = (-Complex.I) • HM := by
  have hrw : RotM3 [Real.pi, Real.pi / 2, 0] = RotM Real.pi (Real.pi / 2) 0 := by
    simp [RotM3]
  rw [hrw, rotM_eq, HM]
  have h1 : (Real.pi + 0) / 2 = Real.pi / 2 := by ring
  have h2 : (Real.pi - 0) / 2 = Real.pi / 2 := by ring
  have h3 : Real.pi / 2 / 2 = Real.pi / 4 := by ring
  rw [h1, h2, h3]
  have hneg : (-(Real.pi / 2 : ℝ) : ℂ) * I = ((-(Real.pi / 2) : ℝ) : ℂ) * I := by push_cast; ring
  rw [hneg, exp_real_mul_I, exp_real_mul_I]
  have hs : ((Real.sqrt 2 : ℝ) : ℂ) * ((Real.sqrt 2 : ℝ) : ℂ) = 2 := by
    rw [← Complex.ofReal_mul, Real.mul_self_sqrt (by norm_num)]
    norm_num
  have hne : ((Real.sqrt 2 : ℝ) : ℂ) ≠ 0 := by
    exact_mod_cast Real.sqrt_ne_zero'.2 (by norm_num)
  have hinv : (((Real.sqrt 2 : ℝ) : ℂ))⁻¹ = ((Real.sqrt 2 : ℝ) : ℂ) * (1 / 2) := by
    field_simp
    first
      | linear_combination hs
      | linear_combination -hs
  ext i j
  fin_cases i <;> fin_cases j <;>
    simp [Real.cos_pi_div_two, Real.sin_pi_div_two, Real.cos_pi_div_four,
      Real.sin_pi_div_four, hinv] <;>
    ring

end PennyLane

namespace PennyLane

/-- An operator as seen by `single_qubit_fusion`: its name, wires, parameter
list, the gate kind's fixed `single_qubit_rot_angles` Euler triple, and its
wire count. -/
structure COp where
  name : String
  wires : List ℕ
  parameters : List ℝ
  rot_angles : List ℝ
  num_wires : ℕ

instance : Inhabited COp := ⟨⟨"", [], [], [], 0⟩⟩

/-- Modelled from the spec: `convert_to_rot` (optimization_utils, not under
src) reads the operator's fixed three-Euler-angle form. -/
def convert_to_rotC (op : COp) : List ℝ := op.rot_angles

/-- `Hadamard`: `single_qubit_rot_angles` returns `[np.pi, np.pi / 2, 0.0]`
(src/pennylane/ops/qubit/non_parametric_ops.py lines 123-125). -/
noncomputable def hadC (w : ℕ) : COp :=
  ⟨"Hadamard", [w], [], [Real.pi, Real.pi / 2, 0], 1⟩

/-- Modelled from the spec: `RZ(theta)` has `single_qubit_rot_angles`
`[theta, 0, 0]` (parametric gates live outside src). -/
def rzC (θ : ℝ) (w : ℕ) : COp := ⟨"RZ", [w], [θ], [θ, 0, 0], 1⟩

/-- The `Rot` operator a fusion emits. -/
def rotCOp (params : List ℝ) (wires : List ℕ) : COp :=
  ⟨"Rot", wires, params, params, 1⟩

/-- A two-wire operator (CNOT) for exercising the multi-wire branch. -/
def cnotCOp : COp := ⟨"CNOT", [0, 1], [], [], 2⟩

/-- `_find_next_gate` over ℝ-parameterized operators (same scan). -/
def find_next_gateC (wires : List ℕ) : List COp → Option ℕ
  | [] => none
  | op :: rest =>
    if sameSet wires op.wires then some 0
    else if disjointW wires op.wires then (find_next_gateC wires rest).map (· + 1)
    else none

/-- `np.allclose(angles, zeros)` over exact reals (absolute tolerance 1e-8,
the relative part vanishing against zero). -/
def allcloseZeroR (l : List ℝ) : Prop := ∀ x ∈ l, |x| ≤ 1 / 100000000

open Classical in
/-- `single_qubit_fusion` of src/pennylane/transforms/optimization.py over
exact real parameters, with `fuse_rot`/`convert_to_rot` instantiated by the
rotation-composition model. -/
noncomputable def single_qubit_fusionC : List COp → List COp
  | [] => []
  | current :: rest =>
    if 1 < current.num_wires then current :: single_qubit_fusionC rest
    else
      match find_next_gateC current.wires rest with
      | none => current :: single_qubit_fusionC rest
      | some i =>
        let next := rest.getD i default
        if current.wires = next.wires then
          let a1 := if current.name = "Rot" then current.parameters else convert_to_rotC current
          let a2 := if next.name = "Rot" then next.parameters else convert_to_rotC next
          let combined := fuse_rotC a1 a2
          if allcloseZeroR combined then
            single_qubit_fusionC (rest.eraseIdx i)
          else
            rotCOp combined current.wires :: single_qubit_fusionC (rest.eraseIdx i)
        else current :: single_qubit_fusionC rest
termination_by l => l.length
decreasing_by
  all_goals simp only [List.length_cons]
  all_goals first
    | exact Nat.lt_succ_of_le (eraseIdx_length_le _ _)
    | exact Nat.lt_succ_self _

end PennyLane

namespace PennyLane

open Complex in
theorem fused_matrix_eq :
    RotM3 [(1 : ℝ) / 2, 0, 0] * RotM3 [Real.pi, Real.pi / 2, 0] =
      (-Complex.I) • (RZM (1 / 2) * HM) := by
  have h1 : RotM3 [(1 : ℝ) / 2, 0, 0] = RZM (1 / 2) := by
    have : RotM3 [(1 : ℝ) / 2, 0, 0] = RotM (1 / 2) 0 0 := by simp [RotM3]
    rw [this, rotM_rz]
  rw [h1, rot3_had, Matrix.mul_smul]

theorem fused_abs00 :
    Complex.abs ((((-Complex.I) • (RZM (1 / 2) * HM)) : Matrix (Fin 2) (Fin 2) ℂ) 0 0) =
      (Real.sqrt 2)⁻¹ := by
  have hent : (((-Complex.I) • (RZM (1 / 2) * HM)) : Matrix (Fin 2) (Fin 2) ℂ) 0 0 =
      (-Complex.I) *
        (Complex.exp ((-(1 / 4 : ℝ) : ℂ) * Complex.I) * (((Real.sqrt 2)⁻¹ : ℝ) : ℂ)) := by
    simp [RZM, HM, Matrix.mul_apply, Fin.sum_univ_two, Matrix.smul_apply]
    norm_num
  rw [hent]
  rw [map_mul, map_mul]
  rw [show ((-(1 / 4 : ℝ) : ℂ) * Complex.I) = (((-(1 / 4) : ℝ) : ℂ) * Complex.I) by
    push_cast; ring]
  rw [Complex.abs_exp_ofReal_mul_I]
  rw [show Complex.abs (-Complex.I) = 1 by simp]
  rw [Complex.abs_ofReal]
  rw [abs_of_nonneg (by positivity : (0:ℝ) ≤ (Real.sqrt 2)⁻¹)]
  ring

theorem arccos_inv_sqrt_two :
    Real.arccos ((Real.sqrt 2)⁻¹) = Real.pi / 4 := by
  have h : ((Real.sqrt 2)⁻¹ : ℝ) = Real.sqrt 2 / 2 := by
    rw [eq_div_iff (by norm_num : (2:ℝ) ≠ 0)]
    rw [inv_mul_eq_div]
    rw [div_eq_iff (by positivity : Real.sqrt 2 ≠ 0)]
    rw [Real.mul_self_sqrt (by norm_num)]
  rw [h, ← Real.cos_pi_div_four]
  exact Real.arccos_cos (by positivity) (by linarith [Real.pi_pos])

open Complex in
theorem fused_not_allclose :
    ¬ allcloseZeroR (fuse_rotC [Real.pi, Real.pi / 2, 0] [(1 : ℝ) / 2, 0, 0]) := by
  intro h
  have hfu : fuse_rotC [Real.pi, Real.pi / 2, 0] [(1 : ℝ) / 2, 0, 0] =
      zyzOf ((-Complex.I) • (RZM (1 / 2) * HM)) := by
    rw [fuse_rotC, fused_matrix_eq]
  rw [hfu] at h
  have hmem : 2 * Real.arccos
      (Complex.abs ((((-Complex.I) • (RZM (1 / 2) * HM)) : Matrix (Fin 2) (Fin 2) ℂ) 0 0)) ∈
      zyzOf ((-Complex.I) • (RZM (1 / 2) * HM)) := by
    simp [zyzOf]
  have hb := h _ hmem
  rw [fused_abs00, arccos_inv_sqrt_two] at hb
  rw [abs_of_pos (by linarith [Real.pi_pos])] at hb
  have := Real.pi_gt_three
  linarith

end PennyLane

namespace PennyLane

theorem fusion_trace :
    single_qubit_fusionC [hadC 0, rzC (1 / 2) 0] =
      [rotCOp (fuse_rotC [Real.pi, Real.pi / 2, 0] [(1 : ℝ) / 2, 0, 0]) [0]] := by
  have hnz := fused_not_allclose
  rw [show ((1 : ℝ) / 2) = (2 : ℝ)⁻¹ by norm_num] at hnz
  simp [single_qubit_fusionC, find_next_gateC, sameSet, disjointW, hadC, rzC,
    convert_to_rotC, hnz]

theorem fusion_multiwire (op : COp) (rest : List COp) (h : 1 < op.num_wires) :
    single_qubit_fusionC (op :: rest) = op :: single_qubit_fusionC rest := by
  rw [single_qubit_fusionC]
  rw [if_pos h]

theorem fusion_nil : single_qubit_fusionC [] = [] := by
  rw [single_qubit_fusionC]

/-- C6: in `single_qubit_fusion`, two single-qubit operators on the same wire
with nothing blocking between them are replaced by one `Rot` gate obtained by
converting each to its fixed Euler-angle triple and composing; the fused
gate's matrix is the product second-applied-after-first: `RotM3` of the fused
angles is `RotM3 angles_2 * RotM3 angles_1` in general, the tape
`[H(0), RZ(1/2, 0)]` fuses to exactly one `Rot` whose matrix equals
`RZ(1/2) @ H` up to the global phase `-i`, and a multi-wire operator is
always emitted unchanged without any gate search. -/
theorem single_qubit_fusion_semantics :
    (∀ a b : List ℝ, RotM3 (fuse_rotC a b) = RotM3 b * RotM3 a) ∧
    single_qubit_fusionC [hadC 0, rzC (1 / 2) 0] =
      [rotCOp (fuse_rotC [Real.pi, Real.pi / 2, 0] [(1 : ℝ) / 2, 0, 0]) [0]] ∧
    RotM3 (fuse_rotC [Real.pi, Real.pi / 2, 0] [(1 : ℝ) / 2, 0, 0]) =
      (-Complex.I) • (RZM (1 / 2) * HM) ∧
    (∀ (op : COp) (rest : List COp), 1 < op.num_wires →
      single_qubit_fusionC (op :: rest) = op :: single_qubit_fusionC rest) := by
  refine ⟨fuse_rot_correct, fusion_trace, ?_, fusion_multiwire⟩
  rw [fuse_rot_correct, fused_matrix_eq]

theorem single_qubit_fusion_semantics_witness :
    1 < cnotCOp.num_wires ∧ single_qubit_fusionC [cnotCOp] = [cnotCOp] := by
  refine ⟨by norm_num [cnotCOp], ?_⟩
  have h := single_qubit_fusion_semantics.2.2.2 cnotCOp [] (by norm_num [cnotCOp])
  rw [h, fusion_nil]

end PennyLane
